import Mathlib

/-! Verification of ccminer `nvml.cpp`: device mapping and operating-point control.

A shallow embedding of `nvml.cpp`: the construction of the two device-index
tables in `nvml_create`, the application-clock / power-limit controller
(`nvml_set_clocks`, `nvml_reset_clocks`, `nvml_set_pstate`, `nvml_set_plimit`),
the telemetry accessors, `nvml_get_serial` and `translate_vendor_id`.

Conventions of the embedding
* `uint32_t` values are natural numbers; where the source can overflow the
  reduction modulo `2^32` is written out.
* A native (NVML) entry point is reached through a function pointer that may be
  null.  A call is modelled by `invoke`: it appends the call to the log of the
  world and asks the native library, an arbitrary function of the call history
  and of the call, for its reply.  A call through a null pointer, and an array
  access outside the array, end the run in `Run.fault`.
* The `uint8_t` loops take fuel; `Run.spin` is a run whose fuel ran out.
-/

namespace Nvml

/-! ## Data model -/

/-- The conversion `(uint32_t) x` of a C `int`. -/
def toU32 (x : Int) : Nat := (x % 4294967296).toNat

/-- The fields of `nvmlPciInfo_t` read by `nvml_create`. -/
structure nvmlPciInfo_t where
  domain : Nat
  bus : Nat
  device : Nat
  pci_subsystem_id : Nat
deriving DecidableEq, Repr

/-- The fields of `cudaDeviceProp` read by `nvml_create` (C `int`s). -/
structure cudaDeviceProp where
  pciDomainID : Int
  pciBusID : Int
  pciDeviceID : Int
deriving DecidableEq, Repr

/-- The type `nvmlEnableState_t`. -/
inductive nvmlEnableState_t where
  | NVML_FEATURE_DISABLED
  | NVML_FEATURE_ENABLED
  | NVML_FEATURE_UNKNOWN
deriving DecidableEq, Repr

/-- Which function pointers of the handle are non-null after the symbol lookups. -/
structure Caps where
  nvmlInit : Bool
  nvmlShutdown : Bool
  nvmlErrorString : Bool
  nvmlDeviceGetCount : Bool
  nvmlDeviceGetHandleByIndex : Bool
  nvmlDeviceGetPciInfo : Bool
  nvmlDeviceGetName : Bool
  nvmlDeviceGetAPIRestriction : Bool
  nvmlDeviceSetAPIRestriction : Bool
  nvmlDeviceGetDefaultApplicationsClock : Bool
  nvmlDeviceGetApplicationsClock : Bool
  nvmlDeviceSetApplicationsClocks : Bool
  nvmlDeviceResetApplicationsClocks : Bool
  nvmlDeviceGetSupportedGraphicsClocks : Bool
  nvmlDeviceGetSupportedMemoryClocks : Bool
  nvmlDeviceGetPowerManagementDefaultLimit : Bool
  nvmlDeviceGetPowerManagementLimit : Bool
  nvmlDeviceGetPowerManagementLimitConstraints : Bool
  nvmlDeviceSetPowerManagementLimit : Bool
  nvmlSystemGetDriverVersion : Bool
  nvmlDeviceGetTemperature : Bool
  nvmlDeviceGetFanSpeed : Bool
  nvmlDeviceGetPowerUsage : Bool
  nvmlDeviceGetPerformanceState : Bool
  nvmlDeviceGetSerial : Bool
  nvmlDeviceGetUUID : Bool
  nvmlDeviceGetVbiosVersion : Bool
deriving DecidableEq, Repr

/-- The fields of `nvml_handle` used by the mapping and by the controller. -/
structure nvml_handle where
  caps : Caps
  nvml_gpucount : Int
  cuda_gpucount : Int
  nvml_pci_domain_id : List Nat
  nvml_pci_bus_id : List Nat
  nvml_pci_device_id : List Nat
  nvml_pci_subsys_id : List Nat
  nvml_cuda_device_id : List Int
  cuda_nvml_device_id : List Int
  app_clocks : List nvmlEnableState_t
deriving DecidableEq, Repr

/-- What `nvml_create` finds on the host: whether the library loads, which
symbols resolve, the management enumeration (entry `i` is what
`nvmlDeviceGetPciInfo` left for index `i`; its length is the device count), what
`nvmlDeviceGetAPIRestriction` stores for each index (`none`: nothing), and the
runtime enumeration (`none`: `cudaGetDeviceCount` fails; an entry `none`:
`cudaGetDeviceProperties` fails for that index). -/
structure Host where
  dll : Bool
  caps : Caps
  nvml : List nvmlPciInfo_t
  restriction : Nat → Option nvmlEnableState_t
  cuda : Option (List (Option cudaDeviceProp))

/-! ## `nvml_create`: the two index tables -/

/-- The two tables while the mapping loops run. -/
structure Maps where
  nvml_cuda_device_id : List Int
  cuda_nvml_device_id : List Int
deriving DecidableEq, Repr

/-- The test of the inner loop, lines 284-286: management index `j` against the
properties of a runtime device. -/
def pci_match (dom bus dev : List Nat) (props : cudaDeviceProp) (j : Nat) : Bool :=
  decide (dom.getD j 0 = toU32 props.pciDomainID) &&
  decide (bus.getD j 0 = toU32 props.pciBusID) &&
  decide (dev.getD j 0 = toU32 props.pciDeviceID)

/-- One iteration of the inner loop, lines 283-293 (there is no `break`). -/
def inner_step (dom bus dev : List Nat) (props : cudaDeviceProp) (i : Nat)
    (m : Maps) (j : Nat) : Maps :=
  if pci_match dom bus dev props j then
    { nvml_cuda_device_id := m.nvml_cuda_device_id.set j (i : Int)
      cuda_nvml_device_id := m.cuda_nvml_device_id.set i (j : Int) }
  else m

/-- One iteration of the outer loop, lines 277-295. -/
def outer_step (dom bus dev : List Nat) (n : Nat) (cuda : List (Option cudaDeviceProp))
    (m : Maps) (i : Nat) : Maps :=
  let m1 : Maps := { m with cuda_nvml_device_id := m.cuda_nvml_device_id.set i (-1) }
  match cuda.getD i none with
  | some props => (List.range n).foldl (inner_step dom bus dev props i) m1
  | none => m1

/-- Lines 273-295: both tables start zeroed (`calloc`), the management-side
table is filled with `-1`, then the runtime devices are scanned. -/
def build_maps (dom bus dev : List Nat) (n : Nat) (cuda : List (Option cudaDeviceProp)) : Maps :=
  let m0 : Maps :=
    { nvml_cuda_device_id :=
        (List.range n).foldl (fun t i => t.set i (-1)) (List.replicate n (0 : Int))
      cuda_nvml_device_id := List.replicate cuda.length (0 : Int) }
  (List.range cuda.length).foldl (outer_step dom bus dev n cuda) m0

/-- The test of lines 206-212: the seven required function pointers. -/
def required_caps (c : Caps) : Bool :=
  c.nvmlInit && c.nvmlShutdown && c.nvmlErrorString && c.nvmlDeviceGetCount &&
  c.nvmlDeviceGetHandleByIndex && c.nvmlDeviceGetPciInfo && c.nvmlDeviceGetName

/-- Lines 261-270: the permission flag of management index `i`. -/
def read_app_clocks (host : Host) (i : Nat) : nvmlEnableState_t :=
  if host.caps.nvmlDeviceGetAPIRestriction then
    (host.restriction i).getD nvmlEnableState_t.NVML_FEATURE_UNKNOWN
  else nvmlEnableState_t.NVML_FEATURE_UNKNOWN

/-- The function `nvml_create`; `none` is the `NULL` handle. -/
def nvml_create (host : Host) : Option nvml_handle :=
  if !host.dll then none
  else if !required_caps host.caps then none
  else
    match host.cuda with
    | none => none
    | some cuda =>
      let n := host.nvml.length
      let dom := host.nvml.map (fun p => p.domain)
      let bus := host.nvml.map (fun p => p.bus)
      let dev := host.nvml.map (fun p => p.device)
      let m := build_maps dom bus dev n cuda
      some
        { caps := host.caps
          nvml_gpucount := (n : Int)
          cuda_gpucount := (cuda.length : Int)
          nvml_pci_domain_id := dom
          nvml_pci_bus_id := bus
          nvml_pci_device_id := dev
          nvml_pci_subsys_id := host.nvml.map (fun p => p.pci_subsystem_id)
          nvml_cuda_device_id := m.nvml_cuda_device_id
          cuda_nvml_device_id := m.cuda_nvml_device_id
          app_clocks := (List.range n).map (read_app_clocks host) }

/-! ## The native library and the process state -/

/-- The type `nvmlClockType_t`. -/
inductive nvmlClockType_t where
  | NVML_CLOCK_GRAPHICS
  | NVML_CLOCK_SM
  | NVML_CLOCK_MEM
deriving DecidableEq, Repr

/-- A call into the native library, with the arguments that are passed by value.
`n` is the management index of the device handle `devs[n]`; `buffer` tells a
real output array from `NULL`. -/
inductive Call where
  | nvmlDeviceGetApplicationsClock (n : Nat) (ty : nvmlClockType_t)
  | nvmlDeviceGetDefaultApplicationsClock (n : Nat) (ty : nvmlClockType_t)
  | nvmlDeviceGetSupportedMemoryClocks (n : Nat) (count : Nat) (buffer : Bool)
  | nvmlDeviceGetSupportedGraphicsClocks (n : Nat) (mem : Nat) (count : Nat) (buffer : Bool)
  | nvmlDeviceSetApplicationsClocks (n : Nat) (mem : Nat) (gpu : Nat)
  | nvmlDeviceResetApplicationsClocks (n : Nat)
  | nvmlDeviceGetPowerManagementDefaultLimit (n : Nat)
  | nvmlDeviceGetPowerManagementLimit (n : Nat)
  | nvmlDeviceGetPowerManagementLimitConstraints (n : Nat)
  | nvmlDeviceSetPowerManagementLimit (n : Nat) (limit : Nat)
  | nvmlErrorString (rc : Nat)
  | nvmlDeviceGetName (n : Nat) (length : Int)
  | nvmlDeviceGetTemperature (n : Nat)
  | nvmlDeviceGetFanSpeed (n : Nat)
  | nvmlDeviceGetPowerUsage (n : Nat)
  | nvmlDeviceGetPerformanceState (n : Nat)
  | nvmlDeviceGetSerial (n : Nat) (length : Nat)
  | nvmlDeviceGetUUID (n : Nat) (length : Nat)
  | nvmlDeviceGetVbiosVersion (n : Nat) (length : Int)
deriving DecidableEq, Repr

/-- What a native call answers: its `nvmlReturn_t` (`0` is `NVML_SUCCESS`), the
values it stores through its first and second scalar output pointers (`none`:
the pointed variable is left as it was), and the entries it stores in its
output array. -/
structure Reply where
  rc : Nat
  out : Option Nat
  out2 : Option Nat
  data : List Nat
deriving DecidableEq, Repr

/-- The native library: any function of the calls made so far and of the call. -/
abbrev Native := List Call → Call → Reply

/-- The constant `NVML_SUCCESS`. -/
def NVML_SUCCESS : Nat := 0

/-- The constant `NVML_ERROR_UNKNOWN`. -/
def NVML_ERROR_UNKNOWN : Nat := 999

/-- The `errno.h` values returned negated. -/
def EPERM : Int := 1

/-- See `EPERM`. -/
def ENODEV : Int := 19

/-- See `EPERM`. -/
def EINVAL : Int := 22

/-- See `EPERM`. -/
def ENOSYS : Int := 38

/-- The requests read from the command line (`device_gpu_clocks`,
`device_mem_clocks`, `device_plimit`: `uint32_t` arrays indexed by device id;
`device_pstate`: an `int8_t` array) and the flag `opt_debug`. -/
structure Config where
  device_gpu_clocks : Nat → Nat
  device_mem_clocks : Nat → Nat
  device_plimit : Nat → Nat
  device_pstate : Nat → Int
  opt_debug : Bool

/-- The global arrays `clock_prev`, `clock_prev_mem`, `limit_prev` (indexed by
device id) and the log of the native calls made so far, oldest first. -/
structure World where
  clock_prev : Nat → Nat
  clock_prev_mem : Nat → Nat
  limit_prev : Nat → Nat
  log : List Call

/-- The assignment `a[i] = v`. -/
def upd (a : Nat → Nat) (i v : Nat) : Nat → Nat := fun k => if k = i then v else a k

/-- How a run of a function ends. -/
inductive Run (α : Type) where
  | ret (a : α)
  | fault
  | spin
deriving DecidableEq, Repr

/-- Sequencing of runs. -/
def Run.bind {α β : Type} (r : Run α) (f : α → Run β) : Run β :=
  match r with
  | Run.ret a => f a
  | Run.fault => Run.fault
  | Run.spin => Run.spin

/-- A call through the function pointer `present`. -/
def invoke (present : Bool) (N : Native) (c : Call) (w : World) : Run (Reply × World) :=
  if present then Run.ret (N w.log c, { w with log := w.log ++ [c] }) else Run.fault

/-- The loop `for (uint8_t u = 0; u < nclocks; u++)
if (clocks[u] <= clk) { clk = clocks[u]; break; }` from counter value `u`
on; the result is the final `clk`. -/
def scan_clocks (clocks : List Nat) (nclocks clk : Nat) : Nat → Nat → Run Nat
  | 0, _ => Run.spin
  | fuel + 1, u =>
    if u < nclocks then
      match clocks[u]? with
      | none => Run.fault
      | some c =>
        if c ≤ clk then Run.ret c
        else scan_clocks clocks nclocks clk fuel ((u + 1) % 256)
    else Run.ret clk

/-- An output array of `cap` zeroed entries after the native library stored
`data` in it from index `0`; `none` when `data` does not fit. -/
def store (cap : Nat) (data : List Nat) : Option (List Nat) :=
  if data.length ≤ cap then some (data ++ List.replicate (cap - data.length) 0) else none

/-- Lines 339-350 of `nvml_set_clocks`: the supported memory clocks are read
into `mem_clocks[32]` and the memory clock is selected. -/
def select_mem_clk (N : Native) (caps : Caps) (fuel n mem_clk : Nat) (w : World) :
    Run (Nat × World) :=
  (invoke caps.nvmlDeviceGetSupportedMemoryClocks N
      (Call.nvmlDeviceGetSupportedMemoryClocks n 0 false) w).bind fun p =>
  let nclocks := min (p.1.out.getD 0) 32
  if nclocks ≠ 0 then
    (invoke caps.nvmlDeviceGetSupportedMemoryClocks N
        (Call.nvmlDeviceGetSupportedMemoryClocks n nclocks true) p.2).bind fun q =>
    match store 32 q.1.data with
    | none => Run.fault
    | some mem_clocks =>
      (scan_clocks mem_clocks (q.1.out.getD nclocks) mem_clk fuel 0).bind fun c =>
      Run.ret (c, q.2)
  else
    (scan_clocks (List.replicate 32 0) nclocks mem_clk fuel 0).bind fun c => Run.ret (c, p.2)

/-- Lines 352-368 of `nvml_set_clocks`: the supported graphics clocks for the
selected memory clock are read into a fresh array and the graphics clock is
selected. -/
def select_gpu_clk (N : Native) (caps : Caps) (fuel n mem_clk gpu_clk : Nat) (w : World) :
    Run (Nat × World) :=
  (invoke caps.nvmlDeviceGetSupportedGraphicsClocks N
      (Call.nvmlDeviceGetSupportedGraphicsClocks n mem_clk 0 false) w).bind fun p =>
  let nclocks := p.1.out.getD 0
  if nclocks ≠ 0 then
    (invoke caps.nvmlDeviceGetSupportedGraphicsClocks N
        (Call.nvmlDeviceGetSupportedGraphicsClocks n mem_clk nclocks true) p.2).bind fun q =>
    match store (nclocks + 1) q.1.data with
    | none => Run.fault
    | some gpu_clocks =>
      (scan_clocks gpu_clocks (q.1.out.getD nclocks) gpu_clk fuel 0).bind fun c =>
      Run.ret (c, q.2)
  else Run.ret (gpu_clk, p.2)

/-- The statement `if (!prev) nvmlDeviceGetApplicationsClock(devs[n], ty, &prev)`
of lines 317-322; the result is the final `prev`. -/
def read_prev (N : Native) (caps : Caps) (n : Nat) (ty : nvmlClockType_t) (prev : Nat)
    (w : World) : Run (Nat × World) :=
  if prev = 0 then
    (invoke caps.nvmlDeviceGetApplicationsClock N
        (Call.nvmlDeviceGetApplicationsClock n ty) w).bind fun p =>
    Run.ret (p.1.out.getD prev, p.2)
  else Run.ret (prev, w)

/-- Lines 370-381 of `nvml_set_clocks`: the clocks are applied and, on success,
the previous clocks are stored. -/
def apply_clocks (N : Native) (caps : Caps) (dev_id n mem_clk gpu_clk mem_prev gpu_prev : Nat)
    (w : World) : Run (Int × World) :=
  (invoke caps.nvmlDeviceSetApplicationsClocks N
      (Call.nvmlDeviceSetApplicationsClocks n mem_clk gpu_clk) w).bind fun p =>
  if p.1.rc = NVML_SUCCESS then
    Run.ret (1, { p.2 with clock_prev := upd p.2.clock_prev dev_id gpu_prev
                           clock_prev_mem := upd p.2.clock_prev_mem dev_id mem_prev })
  else
    (invoke caps.nvmlErrorString N (Call.nvmlErrorString p.1.rc) p.2).bind fun e =>
    Run.ret (-1, e.2)

/-- Lines 317-381 of `nvml_set_clocks`, for a device that passed the three
guards. -/
def set_clocks_body (N : Native) (cfg : Config) (caps : Caps) (fuel dev_id n : Nat)
    (w : World) : Run (Int × World) :=
  (read_prev N caps n nvmlClockType_t.NVML_CLOCK_MEM (w.clock_prev_mem dev_id) w).bind fun a =>
  (read_prev N caps n nvmlClockType_t.NVML_CLOCK_GRAPHICS (a.2.clock_prev dev_id) a.2).bind fun b =>
  (invoke caps.nvmlDeviceGetDefaultApplicationsClock N
      (Call.nvmlDeviceGetDefaultApplicationsClock n nvmlClockType_t.NVML_CLOCK_MEM) b.2).bind fun dm =>
  (invoke caps.nvmlDeviceGetDefaultApplicationsClock N
      (Call.nvmlDeviceGetDefaultApplicationsClock n nvmlClockType_t.NVML_CLOCK_GRAPHICS)
      dm.2).bind fun dg =>
  if dg.1.rc ≠ NVML_SUCCESS then Run.ret (-EINVAL, dg.2)
  else
    let mem_clk := if cfg.device_mem_clocks dev_id ≠ 0 then cfg.device_mem_clocks dev_id
      else dm.1.out.getD 0
    let gpu_clk := if cfg.device_gpu_clocks dev_id ≠ 0 then cfg.device_gpu_clocks dev_id
      else dg.1.out.getD 0
    (select_mem_clk N caps fuel n mem_clk dg.2).bind fun m =>
    (select_gpu_clk N caps fuel n m.1 gpu_clk m.2).bind fun g =>
    apply_clocks N caps dev_id n m.1 g.1 a.1 b.1 g.2

/-- The function `nvml_set_clocks`. -/
def nvml_set_clocks (N : Native) (cfg : Config) (nvmlh : nvml_handle) (fuel dev_id : Nat)
    (w : World) : Run (Int × World) :=
  match nvmlh.cuda_nvml_device_id[dev_id]? with
  | none => Run.fault
  | some n =>
    if n < 0 ∨ n ≥ nvmlh.nvml_gpucount then Run.ret (-ENODEV, w)
    else if cfg.device_gpu_clocks dev_id = 0 ∧ cfg.device_mem_clocks dev_id = 0 then
      Run.ret (0, w)
    else
      match nvmlh.app_clocks[n.toNat]? with
      | none => Run.fault
      | some flag =>
        if flag ≠ nvmlEnableState_t.NVML_FEATURE_ENABLED then Run.ret (-EPERM, w)
        else set_clocks_body N cfg nvmlh.caps fuel dev_id n.toNat w

/-- Lines 394-401 of `nvml_reset_clocks`; the result carries `ret` and the
value of the local `rc` (`none` while it is uninitialised). -/
def reset_app_clocks (N : Native) (caps : Caps) (dev_id n : Nat) (w : World) :
    Run ((Int × Option Nat) × World) :=
  if w.clock_prev dev_id ≠ 0 then
    (invoke caps.nvmlDeviceResetApplicationsClocks N
        (Call.nvmlDeviceResetApplicationsClocks n) w).bind fun p =>
    Run.ret ((1, some p.1.rc), { p.2 with clock_prev := upd p.2.clock_prev dev_id 0 })
  else Run.ret ((0, none), w)

/-- Lines 403-414 of `nvml_reset_clocks`. -/
def reset_plimit (N : Native) (caps : Caps) (dev_id n : Nat) (ret : Int) (rc : Option Nat)
    (w : World) : Run (Int × World) :=
  if w.limit_prev dev_id ≠ 0 then
    let plimit := w.limit_prev dev_id
    (if caps.nvmlDeviceGetPowerManagementDefaultLimit ∧ plimit = 0 then
        (invoke caps.nvmlDeviceGetPowerManagementDefaultLimit N
            (Call.nvmlDeviceGetPowerManagementDefaultLimit n) w).bind fun p =>
        Run.ret ((some p.1.rc, p.1.out.getD plimit), p.2)
      else if plimit ≠ 0 then Run.ret ((some NVML_SUCCESS, plimit), w)
      else Run.ret ((rc, plimit), w)).bind fun s =>
    match s.1.1 with
    | none => Run.fault
    | some rc1 =>
      if rc1 = NVML_SUCCESS then
        (invoke caps.nvmlDeviceSetPowerManagementLimit N
            (Call.nvmlDeviceSetPowerManagementLimit n s.1.2) s.2).bind fun q =>
        Run.ret (1, q.2)
      else Run.ret (1, s.2)
  else Run.ret (ret, w)

/-- The function `nvml_reset_clocks`. -/
def nvml_reset_clocks (N : Native) (nvmlh : nvml_handle) (dev_id : Nat) (w : World) :
    Run (Int × World) :=
  match nvmlh.cuda_nvml_device_id[dev_id]? with
  | none => Run.fault
  | some n =>
    if n < 0 ∨ n ≥ nvmlh.nvml_gpucount then Run.ret (-ENODEV, w)
    else
      (reset_app_clocks N nvmlh.caps dev_id n.toNat w).bind fun a =>
      reset_plimit N nvmlh.caps dev_id n.toNat a.1.1 a.1.2 a.2

/-- The function `nvml_set_plimit`. -/
def nvml_set_plimit (N : Native) (cfg : Config) (nvmlh : nvml_handle) (dev_id : Nat)
    (w : World) : Run (Int × World) :=
  match nvmlh.cuda_nvml_device_id[dev_id]? with
  | none => Run.fault
  | some n =>
    if n < 0 ∨ n ≥ nvmlh.nvml_gpucount then Run.ret (-ENODEV, w)
    else if cfg.device_plimit dev_id = 0 then Run.ret (0, w)
    else if !nvmlh.caps.nvmlDeviceSetPowerManagementLimit then Run.ret (-ENOSYS, w)
    else
      let plimit := (cfg.device_plimit dev_id * 1000) % 4294967296
      (if nvmlh.caps.nvmlDeviceGetPowerManagementLimitConstraints then
          (invoke nvmlh.caps.nvmlDeviceGetPowerManagementLimitConstraints N
              (Call.nvmlDeviceGetPowerManagementLimitConstraints n.toNat) w).bind fun p =>
          Run.ret ((p.1.rc, p.1.out.getD 1000, p.1.out2.getD 0), p.2)
        else Run.ret ((NVML_ERROR_UNKNOWN, 1000, 0), w)).bind fun c =>
      if c.1.1 ≠ NVML_SUCCESS ∧ !nvmlh.caps.nvmlDeviceGetPowerManagementLimit then
        Run.ret (-ENOSYS, c.2)
      else
        (invoke nvmlh.caps.nvmlDeviceGetPowerManagementLimit N
            (Call.nvmlDeviceGetPowerManagementLimit n.toNat) c.2).bind fun l =>
        let prev_limit := l.1.out.getD 0
        let pmin := c.1.2.1
        let pmax := if c.1.2.2 = 0 then prev_limit else c.1.2.2
        let applied := max (min plimit pmax) pmin
        (invoke nvmlh.caps.nvmlDeviceSetPowerManagementLimit N
            (Call.nvmlDeviceSetPowerManagementLimit n.toNat applied) l.2).bind fun s =>
        if s.1.rc ≠ NVML_SUCCESS then
          (invoke nvmlh.caps.nvmlErrorString N (Call.nvmlErrorString s.1.rc) s.2).bind fun e =>
          Run.ret (-1, e.2)
        else Run.ret (1, { s.2 with limit_prev := upd s.2.limit_prev dev_id prev_limit })

/-! ## Properties stated of the code, and concrete inputs -/

/-- The largest index below `k` satisfying `p`, as an `int`; `d` when there is none. -/
def last_or (d : Int) (p : Nat → Bool) : Nat → Int
  | 0 => d
  | k + 1 => if p k then (k : Int) else last_or d p k

/-- Whether runtime index `i` has properties that match management index `j`. -/
def rt_match (dom bus dev : List Nat) (cuda : List (Option cudaDeviceProp)) (i j : Nat) : Bool :=
  match cuda.getD i none with
  | some props => pci_match dom bus dev props j
  | none => false

/-- The match relation: domain, bus and device of a management device equal
those of a runtime device (compared as the code does, as `uint32_t`). -/
def same_address (p : nvmlPciInfo_t) (q : cudaDeviceProp) : Prop :=
  p.domain = toU32 q.pciDomainID ∧ p.bus = toU32 q.pciBusID ∧ p.device = toU32 q.pciDeviceID

/-- Table `a` is inverted by table `b` where it is mapped: `a[j] = v` with
`v != -1` gives `b[v] = j`. -/
def inverse_on (a b : List Int) : Prop :=
  ∀ (j : Nat) (v : Int), a[j]? = some v → v ≠ -1 → 0 ≤ v ∧ b[v.toNat]? = some (j : Int)

/-- The two tables are mutually inverse where mapped. -/
def mutually_inverse (nvml_cuda cuda_nvml : List Int) : Prop :=
  inverse_on nvml_cuda cuda_nvml ∧ inverse_on cuda_nvml nvml_cuda

/-- No two management indices have the same domain, bus and device. -/
def mgmt_distinct (nvml : List nvmlPciInfo_t) : Prop :=
  ∀ (j1 j2 : Nat) (p1 p2 : nvmlPciInfo_t), nvml[j1]? = some p1 → nvml[j2]? = some p2 →
    p1.domain = p2.domain → p1.bus = p2.bus → p1.device = p2.device → j1 = j2

/-- No two runtime indices whose properties query succeeds have the same domain,
bus and device (as `uint32_t`). -/
def runtime_distinct (cuda : List (Option cudaDeviceProp)) : Prop :=
  ∀ (i1 i2 : Nat) (q1 q2 : cudaDeviceProp), cuda[i1]? = some (some q1) →
    cuda[i2]? = some (some q2) → toU32 q1.pciDomainID = toU32 q2.pciDomainID →
    toU32 q1.pciBusID = toU32 q2.pciBusID → toU32 q1.pciDeviceID = toU32 q2.pciDeviceID →
    i1 = i2

/-- A capability table with every function pointer resolved. -/
def caps_all : Caps :=
  { nvmlInit := true, nvmlShutdown := true, nvmlErrorString := true, nvmlDeviceGetCount := true,
    nvmlDeviceGetHandleByIndex := true, nvmlDeviceGetPciInfo := true, nvmlDeviceGetName := true,
    nvmlDeviceGetAPIRestriction := true, nvmlDeviceSetAPIRestriction := true,
    nvmlDeviceGetDefaultApplicationsClock := true, nvmlDeviceGetApplicationsClock := true,
    nvmlDeviceSetApplicationsClocks := true, nvmlDeviceResetApplicationsClocks := true,
    nvmlDeviceGetSupportedGraphicsClocks := true, nvmlDeviceGetSupportedMemoryClocks := true,
    nvmlDeviceGetPowerManagementDefaultLimit := true, nvmlDeviceGetPowerManagementLimit := true,
    nvmlDeviceGetPowerManagementLimitConstraints := true,
    nvmlDeviceSetPowerManagementLimit := true, nvmlSystemGetDriverVersion := true,
    nvmlDeviceGetTemperature := true, nvmlDeviceGetFanSpeed := true,
    nvmlDeviceGetPowerUsage := true, nvmlDeviceGetPerformanceState := true,
    nvmlDeviceGetSerial := true, nvmlDeviceGetUUID := true,
    nvmlDeviceGetVbiosVersion := true }

/-- A host whose management library lists the bus address `0000:01:00` twice and
whose runtime lists it once. -/
def host_dup : Host :=
  { dll := true, caps := caps_all
    nvml := [⟨0, 1, 0, 0⟩, ⟨0, 1, 0, 0⟩]
    restriction := fun _ => some nvmlEnableState_t.NVML_FEATURE_ENABLED
    cuda := some [some ⟨0, 1, 0⟩] }

/-- A host with one management device, seen by the runtime as device `0`, and a
second runtime device whose properties query fails. -/
def host_one : Host :=
  { dll := true, caps := caps_all
    nvml := [⟨0, 1, 0, 0⟩]
    restriction := fun _ => some nvmlEnableState_t.NVML_FEATURE_ENABLED
    cuda := some [some ⟨0, 1, 0⟩, none] }

/-- The handle that `nvml_create` builds on `host_one`. -/
def handle_one : nvml_handle :=
  { caps := caps_all, nvml_gpucount := 1, cuda_gpucount := 2
    nvml_pci_domain_id := [0], nvml_pci_bus_id := [1], nvml_pci_device_id := [0]
    nvml_pci_subsys_id := [0]
    nvml_cuda_device_id := [0], cuda_nvml_device_id := [0, -1]
    app_clocks := [nvmlEnableState_t.NVML_FEATURE_ENABLED] }

/-- The value a run returns, when it returns. -/
def returned {α : Type} (r : Run (α × World)) : Option α :=
  match r with
  | Run.ret p => some p.1
  | Run.fault => none
  | Run.spin => none

/-- The world a run ends in, when it returns. -/
def final {α : Type} (r : Run (α × World)) : Option World :=
  match r with
  | Run.ret p => some p.2
  | Run.fault => none
  | Run.spin => none

/-- The native calls logged when a run returns. -/
def calls {α : Type} (r : Run (α × World)) : Option (List Call) :=
  (final r).map (fun w => w.log)

/-- The process state at start-up: nothing saved, no native call made. -/
def world0 : World :=
  { clock_prev := fun _ => 0, clock_prev_mem := fun _ => 0, limit_prev := fun _ => 0, log := [] }

/-- The first entry of the table, in table order, that is `<= t`; `t` itself
when no entry is `<= t`. -/
def first_le_or_target (T : List Nat) (t : Nat) : Nat :=
  (T.find? (fun c => decide (c ≤ t))).getD t

/-- The native library reports `T` as the supported memory clocks of device
`n` when asked after the calls `log`: the size query stores `T.length`, the
query with the array stores `T` and leaves or confirms the count. -/
def reports_mem_clocks (N : Native) (log : List Call) (n : Nat) (T : List Nat) : Prop :=
  (N log (Call.nvmlDeviceGetSupportedMemoryClocks n 0 false)).out = some T.length ∧
  (N (log ++ [Call.nvmlDeviceGetSupportedMemoryClocks n 0 false])
    (Call.nvmlDeviceGetSupportedMemoryClocks n T.length true)).data = T ∧
  ((N (log ++ [Call.nvmlDeviceGetSupportedMemoryClocks n 0 false])
    (Call.nvmlDeviceGetSupportedMemoryClocks n T.length true)).out).getD T.length = T.length

/-- A native library whose supported memory clocks are `T`: the size query
answers `NVML_ERROR_INSUFFICIENT_SIZE` and the count, the query with a large
enough array stores the table. Every other call succeeds and stores nothing. -/
def table_native (T : List Nat) : Native := fun _ c =>
  match c with
  | Call.nvmlDeviceGetSupportedMemoryClocks _ cnt true =>
    if T.length ≤ cnt then ⟨0, some T.length, none, T⟩ else ⟨7, some T.length, none, []⟩
  | Call.nvmlDeviceGetSupportedMemoryClocks _ _ false => ⟨7, some T.length, none, []⟩
  | _ => ⟨0, none, none, []⟩

/-- The value `x` clamped into `[lo, hi]`: `lo` when `x < lo`, `hi` when
`x > hi`, and `x` otherwise. -/
def clamp (x lo hi : Nat) : Nat :=
  if x < lo then lo else if x > hi then hi else x

/-- The limits passed to `nvmlDeviceSetPowerManagementLimit` in a log, in order. -/
def set_limit_args (l : List Call) : List Nat :=
  l.filterMap fun c =>
    match c with
    | Call.nvmlDeviceSetPowerManagementLimit _ x => some x
    | _ => none

/-- A configuration that requests only a power limit of `watts`, for every device. -/
def cfg_plimit (watts : Nat) : Config :=
  { device_gpu_clocks := fun _ => 0, device_mem_clocks := fun _ => 0,
    device_plimit := fun _ => watts, device_pstate := fun _ => -1, opt_debug := false }

/-- A native library that reports the limit constraints `[pmin, pmax]` and a
current limit of `current`; every other call succeeds and stores nothing. -/
def limits_native (pmin pmax current : Nat) : Native := fun _ c =>
  match c with
  | Call.nvmlDeviceGetPowerManagementLimitConstraints _ => ⟨0, some pmin, some pmax, []⟩
  | Call.nvmlDeviceGetPowerManagementLimit _ => ⟨0, some current, none, []⟩
  | _ => ⟨0, none, none, []⟩

/-- A host whose only management device (`0000:01:00`) and only runtime device
(`0000:02:00`) have different bus addresses. -/
def host_unmatched : Host :=
  { dll := true, caps := caps_all
    nvml := [⟨0, 1, 0, 0⟩]
    restriction := fun _ => some nvmlEnableState_t.NVML_FEATURE_ENABLED
    cuda := some [some ⟨0, 2, 0⟩] }

/-- The handle that `nvml_create` builds on `host_unmatched`: runtime device `0`
is unmapped. -/
def handle_unmapped : nvml_handle :=
  { caps := caps_all, nvml_gpucount := 1, cuda_gpucount := 1
    nvml_pci_domain_id := [0], nvml_pci_bus_id := [1], nvml_pci_device_id := [0]
    nvml_pci_subsys_id := [0]
    nvml_cuda_device_id := [-1], cuda_nvml_device_id := [-1]
    app_clocks := [nvmlEnableState_t.NVML_FEATURE_ENABLED] }

/-- A configuration with no request at all. -/
def cfg_none : Config :=
  { device_gpu_clocks := fun _ => 0, device_mem_clocks := fun _ => 0,
    device_plimit := fun _ => 0, device_pstate := fun _ => -1, opt_debug := false }

/-- A configuration that requests only a graphics clock of `gpu`, for every device. -/
def cfg_gpu (gpu : Nat) : Config :=
  { device_gpu_clocks := fun _ => gpu, device_mem_clocks := fun _ => 0,
    device_plimit := fun _ => 0, device_pstate := fun _ => -1, opt_debug := false }

/-- A native library that answers every call with success and stores nothing. -/
def quiet_native : Native := fun _ _ => ⟨0, none, none, []⟩

/-- The saved arrays of `w2` are those of `w`. -/
def same_saved (w w2 : World) : Prop :=
  w2.clock_prev = w.clock_prev ∧ w2.clock_prev_mem = w.clock_prev_mem ∧
  w2.limit_prev = w.limit_prev

/-- The sequence `nvml_set_clocks; nvml_set_clocks` on one device, with no reset
in between; the result carries both return values. -/
def set_clocks_twice (N : Native) (cfg : Config) (nvmlh : nvml_handle) (fuel dev_id : Nat)
    (w : World) : Run ((Int × Int) × World) :=
  (nvml_set_clocks N cfg nvmlh fuel dev_id w).bind fun a =>
  (nvml_set_clocks N cfg nvmlh fuel dev_id a.2).bind fun b =>
  Run.ret ((a.1, b.1), b.2)

/-- The sequence `nvml_set_clocks; nvml_reset_clocks` on one device; the result
carries both return values. -/
def set_then_reset (N : Native) (cfg : Config) (nvmlh : nvml_handle) (fuel dev_id : Nat)
    (w : World) : Run ((Int × Int) × World) :=
  (nvml_set_clocks N cfg nvmlh fuel dev_id w).bind fun a =>
  (nvml_reset_clocks N nvmlh dev_id a.2).bind fun b =>
  Run.ret ((a.1, b.1), b.2)

/-- Whether a call is `nvmlDeviceSetApplicationsClocks`. -/
def is_set_clocks (c : Call) : Bool :=
  match c with
  | Call.nvmlDeviceSetApplicationsClocks _ _ _ => true
  | _ => false

/-- Whether a call is `nvmlDeviceResetApplicationsClocks`. -/
def is_reset_clocks (c : Call) : Bool :=
  match c with
  | Call.nvmlDeviceResetApplicationsClocks _ => true
  | _ => false

/-- A native library with default clocks 3505/1000 MHz and no supported-clock
tables (`NVML_ERROR_NOT_SUPPORTED`).  The application-clock query reports the
memory clock `mem`, and the graphics clock `gpu_before` until application clocks
have been set and `gpu_after` from then on; `none` makes the query fail with
`NVML_ERROR_NOT_SUPPORTED` and store nothing.  Every other call succeeds. -/
def clock_native (mem gpu_before gpu_after : Option Nat) : Native := fun log c =>
  match c with
  | Call.nvmlDeviceGetApplicationsClock _ nvmlClockType_t.NVML_CLOCK_MEM =>
    ⟨if mem.isSome then 0 else 3, mem, none, []⟩
  | Call.nvmlDeviceGetApplicationsClock _ nvmlClockType_t.NVML_CLOCK_GRAPHICS =>
    if log.any is_set_clocks then ⟨if gpu_after.isSome then 0 else 3, gpu_after, none, []⟩
    else ⟨if gpu_before.isSome then 0 else 3, gpu_before, none, []⟩
  | Call.nvmlDeviceGetApplicationsClock _ nvmlClockType_t.NVML_CLOCK_SM => ⟨3, none, none, []⟩
  | Call.nvmlDeviceGetDefaultApplicationsClock _ nvmlClockType_t.NVML_CLOCK_MEM =>
    ⟨0, some 3505, none, []⟩
  | Call.nvmlDeviceGetDefaultApplicationsClock _ nvmlClockType_t.NVML_CLOCK_GRAPHICS =>
    ⟨0, some 1000, none, []⟩
  | Call.nvmlDeviceGetDefaultApplicationsClock _ nvmlClockType_t.NVML_CLOCK_SM =>
    ⟨3, none, none, []⟩
  | Call.nvmlDeviceGetSupportedMemoryClocks _ _ _ => ⟨3, none, none, []⟩
  | Call.nvmlDeviceGetSupportedGraphicsClocks _ _ _ _ => ⟨3, none, none, []⟩
  | _ => ⟨0, none, none, []⟩

/-- The sequence `nvml_reset_clocks; nvml_reset_clocks` on one device, with no
change in between; the result carries both return values. -/
def reset_twice (N : Native) (nvmlh : nvml_handle) (dev_id : Nat) (w : World) :
    Run ((Int × Int) × World) :=
  (nvml_reset_clocks N nvmlh dev_id w).bind fun a =>
  (nvml_reset_clocks N nvmlh dev_id a.2).bind fun b =>
  Run.ret ((a.1, b.1), b.2)

/-- The sequence `nvml_set_plimit; nvml_reset_clocks; nvml_reset_clocks` on one
device; the result carries the three return values. -/
def plimit_then_reset_twice (N : Native) (cfg : Config) (nvmlh : nvml_handle) (dev_id : Nat)
    (w : World) : Run ((Int × Int × Int) × World) :=
  (nvml_set_plimit N cfg nvmlh dev_id w).bind fun a =>
  (reset_twice N nvmlh dev_id a.2).bind fun b =>
  Run.ret ((a.1, b.1.1, b.1.2), b.2)

/-- A world in which the limit 200000 is saved for device `0`. -/
def world_limit_saved : World :=
  { clock_prev := fun _ => 0, clock_prev_mem := fun _ => 0,
    limit_prev := fun k => if k = 0 then 200000 else 0, log := [] }

/-- The calls logged when `nvml_set_clocks` makes its graphics-default query:
the calls made before, the application-clock reads of lines 317-322 that were
due, and the memory-default query. -/
def default_query_log (w : World) (dev_id n : Nat) : List Call :=
  (if w.clock_prev dev_id = 0 then
      (if w.clock_prev_mem dev_id = 0 then
          w.log ++ [Call.nvmlDeviceGetApplicationsClock n nvmlClockType_t.NVML_CLOCK_MEM]
        else w.log) ++
        [Call.nvmlDeviceGetApplicationsClock n nvmlClockType_t.NVML_CLOCK_GRAPHICS]
    else
      (if w.clock_prev_mem dev_id = 0 then
          w.log ++ [Call.nvmlDeviceGetApplicationsClock n nvmlClockType_t.NVML_CLOCK_MEM]
        else w.log)) ++
    [Call.nvmlDeviceGetDefaultApplicationsClock n nvmlClockType_t.NVML_CLOCK_MEM]

/-- A native library like `clock_native` with application clocks 3000/1500,
except that `nvmlDeviceSetApplicationsClocks` fails with
`NVML_ERROR_NO_PERMISSION`. -/
def apply_fails_native : Native := fun log c =>
  match c with
  | Call.nvmlDeviceSetApplicationsClocks _ _ _ => ⟨4, none, none, []⟩
  | _ => clock_native (some 3000) (some 1500) (some 1500) log c

/-- A host like `host_one` whose driver reports the application-clock API as
restricted (`NVML_FEATURE_DISABLED`). -/
def host_restricted : Host :=
  { dll := true, caps := caps_all
    nvml := [⟨0, 1, 0, 0⟩]
    restriction := fun _ => some nvmlEnableState_t.NVML_FEATURE_DISABLED
    cuda := some [some ⟨0, 1, 0⟩, none] }

/-- The handle that `nvml_create` builds on `host_restricted`. -/
def handle_restricted : nvml_handle :=
  { caps := caps_all, nvml_gpucount := 1, cuda_gpucount := 2
    nvml_pci_domain_id := [0], nvml_pci_bus_id := [1], nvml_pci_device_id := [0]
    nvml_pci_subsys_id := [0]
    nvml_cuda_device_id := [0], cuda_nvml_device_id := [0, -1]
    app_clocks := [nvmlEnableState_t.NVML_FEATURE_DISABLED] }

/-! ## Telemetry accessors -/

/-- The function `nvml_get_gpu_name`. -/
def nvml_get_gpu_name (N : Native) (nvmlh : nvml_handle) (cudaindex : Nat) (bufsize : Int)
    (w : World) : Run (Int × World) :=
  match nvmlh.cuda_nvml_device_id[cudaindex]? with
  | none => Run.fault
  | some gpuindex =>
    if gpuindex < 0 ∨ gpuindex ≥ nvmlh.nvml_gpucount then Run.ret (-ENODEV, w)
    else if !nvmlh.caps.nvmlDeviceGetName then Run.ret (-ENOSYS, w)
    else
      (invoke nvmlh.caps.nvmlDeviceGetName N
          (Call.nvmlDeviceGetName gpuindex.toNat bufsize) w).bind fun p =>
      if p.1.rc ≠ NVML_SUCCESS then Run.ret (-1, p.2) else Run.ret (0, p.2)

/-- The function `nvml_get_tempC`. -/
def nvml_get_tempC (N : Native) (nvmlh : nvml_handle) (cudaindex : Nat) (w : World) :
    Run (Int × World) :=
  match nvmlh.cuda_nvml_device_id[cudaindex]? with
  | none => Run.fault
  | some gpuindex =>
    if gpuindex < 0 ∨ gpuindex ≥ nvmlh.nvml_gpucount then Run.ret (-ENODEV, w)
    else if !nvmlh.caps.nvmlDeviceGetTemperature then Run.ret (-ENOSYS, w)
    else
      (invoke nvmlh.caps.nvmlDeviceGetTemperature N
          (Call.nvmlDeviceGetTemperature gpuindex.toNat) w).bind fun p =>
      if p.1.rc ≠ NVML_SUCCESS then Run.ret (-1, p.2) else Run.ret (0, p.2)

/-- The function `nvml_get_fanpcnt`. -/
def nvml_get_fanpcnt (N : Native) (nvmlh : nvml_handle) (cudaindex : Nat) (w : World) :
    Run (Int × World) :=
  match nvmlh.cuda_nvml_device_id[cudaindex]? with
  | none => Run.fault
  | some gpuindex =>
    if gpuindex < 0 ∨ gpuindex ≥ nvmlh.nvml_gpucount then Run.ret (-ENODEV, w)
    else if !nvmlh.caps.nvmlDeviceGetFanSpeed then Run.ret (-ENOSYS, w)
    else
      (invoke nvmlh.caps.nvmlDeviceGetFanSpeed N
          (Call.nvmlDeviceGetFanSpeed gpuindex.toNat) w).bind fun p =>
      if p.1.rc ≠ NVML_SUCCESS then Run.ret (-1, p.2) else Run.ret (0, p.2)

/-- The function `nvml_get_power_usage`. -/
def nvml_get_power_usage (N : Native) (nvmlh : nvml_handle) (cudaindex : Nat) (w : World) :
    Run (Int × World) :=
  match nvmlh.cuda_nvml_device_id[cudaindex]? with
  | none => Run.fault
  | some gpuindex =>
    if gpuindex < 0 ∨ gpuindex ≥ nvmlh.nvml_gpucount then Run.ret (-ENODEV, w)
    else if !nvmlh.caps.nvmlDeviceGetPowerUsage then Run.ret (-ENOSYS, w)
    else
      (invoke nvmlh.caps.nvmlDeviceGetPowerUsage N
          (Call.nvmlDeviceGetPowerUsage gpuindex.toNat) w).bind fun p =>
      if p.1.rc ≠ NVML_SUCCESS then Run.ret (-1, p.2) else Run.ret (0, p.2)

/-- The function `nvml_get_pstate`. -/
def nvml_get_pstate (N : Native) (nvmlh : nvml_handle) (cudaindex : Nat) (w : World) :
    Run (Int × World) :=
  match nvmlh.cuda_nvml_device_id[cudaindex]? with
  | none => Run.fault
  | some gpuindex =>
    if gpuindex < 0 ∨ gpuindex ≥ nvmlh.nvml_gpucount then Run.ret (-ENODEV, w)
    else if !nvmlh.caps.nvmlDeviceGetPerformanceState then Run.ret (-ENOSYS, w)
    else
      (invoke nvmlh.caps.nvmlDeviceGetPerformanceState N
          (Call.nvmlDeviceGetPerformanceState gpuindex.toNat) w).bind fun p =>
      if p.1.rc ≠ NVML_SUCCESS then Run.ret (-1, p.2) else Run.ret (0, p.2)

/-- The function `nvml_get_bios`; with `opt_debug` a failed read is reported
through `nvmlErrorString`. -/
def nvml_get_bios (N : Native) (cfg : Config) (nvmlh : nvml_handle) (cudaindex : Nat)
    (maxlen : Int) (w : World) : Run (Int × World) :=
  match nvmlh.cuda_nvml_device_id[cudaindex]? with
  | none => Run.fault
  | some gpuindex =>
    if gpuindex < 0 ∨ gpuindex ≥ nvmlh.nvml_gpucount then Run.ret (-ENODEV, w)
    else if !nvmlh.caps.nvmlDeviceGetVbiosVersion then Run.ret (-ENOSYS, w)
    else
      (invoke nvmlh.caps.nvmlDeviceGetVbiosVersion N
          (Call.nvmlDeviceGetVbiosVersion gpuindex.toNat maxlen) w).bind fun p =>
      if p.1.rc ≠ NVML_SUCCESS then
        if cfg.opt_debug then
          (invoke nvmlh.caps.nvmlErrorString N (Call.nvmlErrorString p.1.rc) p.2).bind fun e =>
          Run.ret (-1, e.2)
        else Run.ret (-1, p.2)
      else Run.ret (0, p.2)

/-- The outcome contract of a telemetry accessor whose run is `run`, for a
runtime index that the table sends to `gpuindex`, a capability that is
`present` or not, and the native `reply` to its read: `-ENODEV` iff `gpuindex`
is not a management index in range; otherwise `-ENOSYS` iff the capability is
absent, and then the world is returned as it was (no native call); otherwise
`-1` iff the read reports non-success; otherwise `0`. -/
def accessor_contract (nvmlh : nvml_handle) (gpuindex : Int) (present : Bool) (reply : Reply)
    (w : World) (run : Run (Int × World)) : Prop :=
  (returned run = some (-ENODEV) ↔ (gpuindex < 0 ∨ gpuindex ≥ nvmlh.nvml_gpucount)) ∧
  ((gpuindex < 0 ∨ gpuindex ≥ nvmlh.nvml_gpucount) → run = Run.ret (-ENODEV, w)) ∧
  (¬ (gpuindex < 0 ∨ gpuindex ≥ nvmlh.nvml_gpucount) →
    (returned run = some (-ENOSYS) ↔ present = false) ∧
    (present = false → run = Run.ret (-ENOSYS, w))) ∧
  (¬ (gpuindex < 0 ∨ gpuindex ≥ nvmlh.nvml_gpucount) → present = true →
    (returned run = some (-1) ↔ reply.rc ≠ NVML_SUCCESS) ∧
    (returned run = some 0 ↔ reply.rc = NVML_SUCCESS))

/-- A native library whose reads all fail with `NVML_ERROR_NOT_SUPPORTED`. -/
def refusing_native : Native := fun _ _ => ⟨3, none, none, []⟩

/-! ## Vendor lookup -/

/-- The table `vendors[]` of `translate_vendor_id`, with its closing entry. -/
def vendors : List (Nat × String) :=
  [(0x1043, "ASUS"), (0x107D, "Leadtek"), (0x10B0, "Gainward"), (0x1458, "Gigabyte"),
   (0x1462, "MSI"), (0x154B, "PNY"), (0x1682, "XFX"), (0x196D, "Club3D"), (0x19DA, "Zotac"),
   (0x19F1, "BFG"), (0x1ACC, "PoV"), (0x1B4C, "KFA2"), (0x3842, "EVGA"), (0x7377, "Colorful"),
   (0, "")]

/-- The function `translate_vendor_id`.  The buffer `vendorname` is `none` for
a null pointer, else the string it holds; the result is the return value and
the buffer after the call (`strcpy` on a match, untouched otherwise). -/
def translate_vendor_id (vid : Nat) (vendorname : Option String) : Int × Option String :=
  match vendorname with
  | none => (-EINVAL, none)
  | some buf =>
    match vendors.find? (fun e => e.1 == vid) with
    | some e => ((vid : Int), some e.2)
    | none => (0, some buf)

/-- A host with two management devices and one runtime device (the counts
disagree) whose library exports only the seven required symbols. -/
def host_minimal : Host :=
  { dll := true
    caps :=
      { nvmlInit := true, nvmlShutdown := true, nvmlErrorString := true,
        nvmlDeviceGetCount := true, nvmlDeviceGetHandleByIndex := true,
        nvmlDeviceGetPciInfo := true, nvmlDeviceGetName := true,
        nvmlDeviceGetAPIRestriction := false, nvmlDeviceSetAPIRestriction := false,
        nvmlDeviceGetDefaultApplicationsClock := false,
        nvmlDeviceGetApplicationsClock := false, nvmlDeviceSetApplicationsClocks := false,
        nvmlDeviceResetApplicationsClocks := false,
        nvmlDeviceGetSupportedGraphicsClocks := false,
        nvmlDeviceGetSupportedMemoryClocks := false,
        nvmlDeviceGetPowerManagementDefaultLimit := false,
        nvmlDeviceGetPowerManagementLimit := false,
        nvmlDeviceGetPowerManagementLimitConstraints := false,
        nvmlDeviceSetPowerManagementLimit := false, nvmlSystemGetDriverVersion := false,
        nvmlDeviceGetTemperature := false, nvmlDeviceGetFanSpeed := false,
        nvmlDeviceGetPowerUsage := false, nvmlDeviceGetPerformanceState := false,
        nvmlDeviceGetSerial := false, nvmlDeviceGetUUID := false,
        nvmlDeviceGetVbiosVersion := false }
    nvml := [⟨0, 1, 0, 0⟩, ⟨0, 2, 0, 0⟩]
    restriction := fun _ => none
    cuda := some [some ⟨0, 2, 0⟩] }

/-! ## `nvml_set_pstate` -/

/-- The loop `for (uint8_t u = 0; u < nclocks; u++)
if (u == wanted_pstate) { mem_clk = mem_clocks[u]; break; }` of lines 459-465,
from counter value `u` on; the result is the final `mem_clk`. -/
def scan_pstate (clocks : List Nat) (nclocks : Nat) (wanted_pstate : Int) (clk : Nat) :
    Nat → Nat → Run Nat
  | 0, _ => Run.spin
  | fuel + 1, u =>
    if u < nclocks then
      if (u : Int) = wanted_pstate then
        match clocks[u]? with
        | none => Run.fault
        | some c => Run.ret c
      else scan_pstate clocks nclocks wanted_pstate clk fuel ((u + 1) % 256)
    else Run.ret clk

/-- Lines 450-465 of `nvml_set_pstate`: the supported memory clocks are read
into `mem_clocks[32]` and the entry of the wanted pstate is taken. -/
def pstate_mem_clk (N : Native) (caps : Caps) (fuel n : Nat) (wanted_pstate : Int)
    (mem_clk : Nat) (w : World) : Run (Nat × World) :=
  (invoke caps.nvmlDeviceGetSupportedMemoryClocks N
      (Call.nvmlDeviceGetSupportedMemoryClocks n 0 false) w).bind fun p =>
  let nclocks := min (p.1.out.getD 0) 32
  if nclocks ≠ 0 then
    (invoke caps.nvmlDeviceGetSupportedMemoryClocks N
        (Call.nvmlDeviceGetSupportedMemoryClocks n nclocks true) p.2).bind fun q =>
    match store 32 q.1.data with
    | none => Run.fault
    | some mem_clocks =>
      (scan_pstate mem_clocks (q.1.out.getD nclocks) wanted_pstate mem_clk fuel 0).bind fun c =>
      Run.ret (c, q.2)
  else
    (scan_pstate (List.replicate 32 0) nclocks wanted_pstate mem_clk fuel 0).bind fun c =>
    Run.ret (c, p.2)

/-- Lines 467-478 of `nvml_set_pstate`: the supported graphics clocks for the
memory clock are read and, when the read succeeds, the first one is taken. -/
def pstate_gpu_clk (N : Native) (caps : Caps) (n mem_clk gpu_clk : Nat) (w : World) :
    Run (Nat × World) :=
  (invoke caps.nvmlDeviceGetSupportedGraphicsClocks N
      (Call.nvmlDeviceGetSupportedGraphicsClocks n mem_clk 0 false) w).bind fun p =>
  let nclocks := p.1.out.getD 0
  if nclocks ≠ 0 then
    (invoke caps.nvmlDeviceGetSupportedGraphicsClocks N
        (Call.nvmlDeviceGetSupportedGraphicsClocks n mem_clk nclocks true) p.2).bind fun q =>
    match store (nclocks + 1) q.1.data with
    | none => Run.fault
    | some gpu_clocks =>
      if q.1.rc = NVML_SUCCESS then
        match gpu_clocks[0]? with
        | none => Run.fault
        | some c => Run.ret (c, q.2)
      else Run.ret (gpu_clk, q.2)
  else Run.ret (gpu_clk, p.2)

/-- The function `nvml_set_pstate`. -/
def nvml_set_pstate (N : Native) (cfg : Config) (nvmlh : nvml_handle) (fuel dev_id : Nat)
    (w : World) : Run (Int × World) :=
  match nvmlh.cuda_nvml_device_id[dev_id]? with
  | none => Run.fault
  | some n =>
    if n < 0 ∨ n ≥ nvmlh.nvml_gpucount then Run.ret (-ENODEV, w)
    else if cfg.device_pstate dev_id < 0 then Run.ret (0, w)
    else
      match nvmlh.app_clocks[n.toNat]? with
      | none => Run.fault
      | some flag =>
        if flag ≠ nvmlEnableState_t.NVML_FEATURE_ENABLED then Run.ret (-EPERM, w)
        else
          (invoke nvmlh.caps.nvmlDeviceGetDefaultApplicationsClock N
              (Call.nvmlDeviceGetDefaultApplicationsClock n.toNat
                nvmlClockType_t.NVML_CLOCK_MEM) w).bind fun dm =>
          (invoke nvmlh.caps.nvmlDeviceGetDefaultApplicationsClock N
              (Call.nvmlDeviceGetDefaultApplicationsClock n.toNat
                nvmlClockType_t.NVML_CLOCK_GRAPHICS) dm.2).bind fun dg =>
          if dg.1.rc ≠ NVML_SUCCESS then Run.ret (-EINVAL, dg.2)
          else
            let mem_clk := if cfg.device_mem_clocks dev_id ≠ 0 then cfg.device_mem_clocks dev_id
              else dm.1.out.getD 0
            let gpu_clk := if cfg.device_gpu_clocks dev_id ≠ 0 then cfg.device_gpu_clocks dev_id
              else dg.1.out.getD 0
            (pstate_mem_clk N nvmlh.caps fuel n.toNat (cfg.device_pstate dev_id) mem_clk
                dg.2).bind fun m =>
            (pstate_gpu_clk N nvmlh.caps n.toNat m.1 gpu_clk m.2).bind fun g =>
            (invoke nvmlh.caps.nvmlDeviceSetApplicationsClocks N
                (Call.nvmlDeviceSetApplicationsClocks n.toNat m.1 g.1) g.2).bind fun s =>
            if s.1.rc ≠ NVML_SUCCESS then
              (invoke nvmlh.caps.nvmlErrorString N (Call.nvmlErrorString s.1.rc) s.2).bind
                fun e => Run.ret (-1, e.2)
            else Run.ret (1, { s.2 with clock_prev := upd s.2.clock_prev dev_id 1 })

/-- A configuration that requests the pstate `p` and a graphics clock of
`gpu`, for every device. -/
def cfg_pstate (p : Int) (gpu : Nat) : Config :=
  { device_gpu_clocks := fun _ => gpu, device_mem_clocks := fun _ => 0,
    device_plimit := fun _ => 0, device_pstate := fun _ => p, opt_debug := false }

/-- A native library with default clocks 3505/1000 whose supported memory
clocks are `T` and whose supported graphics clocks, for every memory clock, are
`G`; a table query with an array stores as many entries as the array takes.
Every other call succeeds and stores nothing. -/
def tables_native (T G : List Nat) : Native := fun _ c =>
  match c with
  | Call.nvmlDeviceGetDefaultApplicationsClock _ nvmlClockType_t.NVML_CLOCK_MEM =>
    ⟨0, some 3505, none, []⟩
  | Call.nvmlDeviceGetDefaultApplicationsClock _ nvmlClockType_t.NVML_CLOCK_GRAPHICS =>
    ⟨0, some 1000, none, []⟩
  | Call.nvmlDeviceGetSupportedMemoryClocks _ _ false => ⟨7, some T.length, none, []⟩
  | Call.nvmlDeviceGetSupportedMemoryClocks _ cnt true => ⟨0, none, none, T.take cnt⟩
  | Call.nvmlDeviceGetSupportedGraphicsClocks _ _ _ false => ⟨7, some G.length, none, []⟩
  | Call.nvmlDeviceGetSupportedGraphicsClocks _ _ cnt true => ⟨0, none, none, G.take cnt⟩
  | _ => ⟨0, none, none, []⟩

/-- A memory-clock table of 33 entries, 2000 MHz down to 1968 MHz. -/
def mem_table33 : List Nat := (List.range 33).map fun i => 2000 - i

/-! ## `nvml_get_serial` -/

/-- The C string held by a buffer: its bytes before the first NUL. -/
def cstr (buf : List Nat) : List Nat := buf.takeWhile (fun b => b != 0)

/-- A buffer after `data` was stored in it from its start; `none` when `data`
does not fit. -/
def overwrite (buf data : List Nat) : Option (List Nat) :=
  if data.length ≤ buf.length then some (data ++ buf.drop data.length) else none

/-- The call `strncpy(dst, src, n)`: the string of `src`, cut at `n` bytes and
padded with NULs to `n` bytes, is stored at the start of `dst`; `none` when
`dst` has fewer than `n` bytes. -/
def strncpy (dst src : List Nat) (n : Nat) : Option (List Nat) :=
  if n ≤ dst.length then
    some ((cstr src).take n ++ List.replicate (n - (cstr src).length) 0 ++ dst.drop n)
  else none

/-- Lines 697-701 of `nvml_get_serial`: the direct serial query, when the
capability is present.  The result tells whether it succeeded and gives the
buffer `sn` after it. -/
def direct_serial (N : Native) (caps : Caps) (n : Nat) (sn : List Nat) (maxlen : Nat)
    (w : World) : Run ((Bool × List Nat) × World) :=
  if caps.nvmlDeviceGetSerial then
    (invoke caps.nvmlDeviceGetSerial N (Call.nvmlDeviceGetSerial n maxlen) w).bind fun p =>
    match overwrite sn p.1.data with
    | none => Run.fault
    | some sn1 => Run.ret ((decide (p.1.rc = NVML_SUCCESS), sn1), p.2)
  else Run.ret ((false, sn), w)

/-- The function `nvml_get_serial`.  `uuid_size` is
`NVML_DEVICE_UUID_BUFFER_SIZE`, `sn` the caller's buffer; the result carries
the return value and the buffer `sn` after the call. -/
def nvml_get_serial (N : Native) (cfg : Config) (uuid_size : Nat) (nvmlh : nvml_handle)
    (cudaindex : Nat) (sn : List Nat) (maxlen : Nat) (w : World) :
    Run ((Int × List Nat) × World) :=
  match nvmlh.cuda_nvml_device_id[cudaindex]? with
  | none => Run.fault
  | some gpuindex =>
    if gpuindex < 0 ∨ gpuindex ≥ nvmlh.nvml_gpucount then Run.ret ((-ENODEV, sn), w)
    else
      (direct_serial N nvmlh.caps gpuindex.toNat sn maxlen w).bind fun d =>
      if d.1.1 then Run.ret ((0, d.1.2), d.2)
      else if !nvmlh.caps.nvmlDeviceGetUUID then Run.ret ((-ENOSYS, d.1.2), d.2)
      else
        (invoke nvmlh.caps.nvmlDeviceGetUUID N
            (Call.nvmlDeviceGetUUID gpuindex.toNat (uuid_size - 1)) d.2).bind fun q =>
        match store (uuid_size - 1) q.1.data with
        | none => Run.fault
        | some filled =>
          let uuid := filled ++ [0]
          if q.1.rc ≠ NVML_SUCCESS then
            if cfg.opt_debug then
              (invoke nvmlh.caps.nvmlErrorString N (Call.nvmlErrorString q.1.rc) q.2).bind
                fun e => Run.ret ((-1, d.1.2), e.2)
            else Run.ret ((-1, d.1.2), q.2)
          else
            match strncpy d.1.2 (uuid.drop 4) (min (cstr uuid).length maxlen) with
            | none => Run.fault
            | some sn2 =>
              if 1 ≤ maxlen ∧ maxlen ≤ sn2.length then
                Run.ret ((0, sn2.set (maxlen - 1) 0), q.2)
              else Run.fault

/-- A native library whose direct serial query fails with
`NVML_ERROR_NOT_SUPPORTED` and whose UUID is the string with bytes `u`. -/
def uuid_native (u : List Nat) : Native := fun _ c =>
  match c with
  | Call.nvmlDeviceGetSerial _ _ => ⟨3, none, none, []⟩
  | Call.nvmlDeviceGetUUID _ _ => ⟨0, none, none, u ++ [0]⟩
  | _ => ⟨0, none, none, []⟩

/-- The handle `handle_one` without the direct serial query. -/
def handle_no_serial : nvml_handle :=
  { handle_one with caps := { caps_all with nvmlDeviceGetSerial := false } }

/-- A host whose management library lists the bus address `0000:01:00` at
indices `0` and `1` and another device at index `2`, and whose runtime lists
`0000:01:00` once. -/
def host_dup3 : Host :=
  { dll := true, caps := caps_all
    nvml := [⟨0, 1, 0, 0⟩, ⟨0, 1, 0, 0⟩, ⟨0, 2, 0, 0⟩]
    restriction := fun _ => some nvmlEnableState_t.NVML_FEATURE_ENABLED
    cuda := some [some ⟨0, 1, 0⟩] }

/-- The handle that `nvml_create` builds on `host_dup3`. -/
def handle_dup3 : nvml_handle :=
  { caps := caps_all, nvml_gpucount := 3, cuda_gpucount := 1
    nvml_pci_domain_id := [0, 0, 0], nvml_pci_bus_id := [1, 1, 2],
    nvml_pci_device_id := [0, 0, 0], nvml_pci_subsys_id := [0, 0, 0]
    nvml_cuda_device_id := [0, 0, -1], cuda_nvml_device_id := [1]
    app_clocks := [nvmlEnableState_t.NVML_FEATURE_ENABLED,
      nvmlEnableState_t.NVML_FEATURE_ENABLED, nvmlEnableState_t.NVML_FEATURE_ENABLED] }

/-- The sequence `nvml_set_plimit; nvml_set_plimit` on one device, with no reset
in between; the result carries both return values. -/
def set_plimit_twice (N : Native) (cfg : Config) (nvmlh : nvml_handle) (dev_id : Nat)
    (w : World) : Run ((Int × Int) × World) :=
  (nvml_set_plimit N cfg nvmlh dev_id w).bind fun a =>
  (nvml_set_plimit N cfg nvmlh dev_id a.2).bind fun b =>
  Run.ret ((a.1, b.1), b.2)

/-- Whether a call is `nvmlDeviceSetPowerManagementLimit`. -/
def is_set_limit (c : Call) : Bool :=
  match c with
  | Call.nvmlDeviceSetPowerManagementLimit _ _ => true
  | _ => false

/-- A native library that reports the limit constraints `[pmin, pmax]`, and as
the limit in force `before` until a limit has been set and `after` from then
on; every other call succeeds and stores nothing. -/
def limit_native (pmin pmax before after : Nat) : Native := fun log c =>
  match c with
  | Call.nvmlDeviceGetPowerManagementLimitConstraints _ => ⟨0, some pmin, some pmax, []⟩
  | Call.nvmlDeviceGetPowerManagementLimit _ =>
    if log.any is_set_limit then ⟨0, some after, none, []⟩ else ⟨0, some before, none, []⟩
  | _ => ⟨0, none, none, []⟩

/-- The sequence `nvml_set_plimit; nvml_set_plimit; nvml_reset_clocks` on one
device; the result carries the three return values. -/
def set_plimit_twice_then_reset (N : Native) (cfg : Config) (nvmlh : nvml_handle)
    (dev_id : Nat) (w : World) : Run ((Int × Int × Int) × World) :=
  (set_plimit_twice N cfg nvmlh dev_id w).bind fun a =>
  (nvml_reset_clocks N nvmlh dev_id a.2).bind fun b =>
  Run.ret ((a.1.1, a.1.2, b.1), b.2)

/-- Whether a run ended in a fault: a call through a null function pointer or
an access outside an array. -/
def faulted {α : Type} (r : Run α) : Bool :=
  match r with
  | Run.fault => true
  | _ => false

/-- A host like `host_one` whose library lacks
`nvmlDeviceGetPowerManagementLimit` only. -/
def host_no_get_limit : Host :=
  { host_one with caps := { caps_all with nvmlDeviceGetPowerManagementLimit := false } }

/-- The handle that `nvml_create` builds on `host_no_get_limit`. -/
def handle_no_get_limit : nvml_handle :=
  { handle_one with caps := { caps_all with nvmlDeviceGetPowerManagementLimit := false } }

/-- A host like `host_one` whose library lacks `nvmlDeviceGetApplicationsClock`
only. -/
def host_no_app_clock : Host :=
  { host_one with caps := { caps_all with nvmlDeviceGetApplicationsClock := false } }

/-- The handle that `nvml_create` builds on `host_no_app_clock`. -/
def handle_no_app_clock : nvml_handle :=
  { handle_one with caps := { caps_all with nvmlDeviceGetApplicationsClock := false } }

/-- A graphics-clock table of `k` entries of 1000 MHz, followed by `tail`. -/
def flat_table (k : Nat) (tail : List Nat) : List Nat := List.replicate k 1000 ++ tail

/-! ## `nvml_get_info` and `gpu_vendor` -/

/-- The read `table[index]` for a C `int` index; `none` outside the array. -/
def read_at {α : Type} (table : List α) (index : Int) : Option α :=
  if 0 ≤ index then table[index.toNat]? else none

/-- The function `nvml_get_info`; `vid` and `pid` are the referenced variables
before the call, the result carries the return value and the two variables
after it. -/
def nvml_get_info (nvmlh : nvml_handle) (cudaindex : Int) (vid pid : Nat) :
    Run (Int × Nat × Nat) :=
  match read_at nvmlh.cuda_nvml_device_id cudaindex with
  | none => Run.fault
  | some gpuindex =>
    if gpuindex < 0 ∨ gpuindex ≥ nvmlh.nvml_gpucount then Run.ret (-ENODEV, vid, pid)
    else
      match nvmlh.nvml_pci_subsys_id[gpuindex.toNat]? with
      | none => Run.fault
      | some sub =>
        if sub ≠ 0 then Run.ret (0, sub % 65536, (sub / 65536) % 65536)
        else
          match nvmlh.nvml_pci_device_id[gpuindex.toNat]? with
          | none => Run.fault
          | some subids => Run.ret (0, subids % 65536, (subids / 65536) % 65536)

/-- One iteration of the loop of lines 1363-1368 of `gpu_vendor`, on the
variables `vid` and `pid`. -/
def gpu_vendor_step (hnvml : nvml_handle) (pci_bus_id : Nat) (st : Run (Nat × Nat)) (id : Nat) :
    Run (Nat × Nat) :=
  st.bind fun vp =>
  match hnvml.nvml_pci_bus_id[id]? with
  | none => Run.fault
  | some bus =>
    if bus = pci_bus_id then
      match hnvml.nvml_cuda_device_id[id]? with
      | none => Run.fault
      | some dev_id =>
        (nvml_get_info hnvml dev_id vp.1 vp.2).bind fun r => Run.ret (r.2.1, r.2.2)
    else Run.ret vp

/-- The function `gpu_vendor` (without the `WIN32` fallback); `hnvml` is `none`
for a null handle.  The result carries the return value and the buffer
`vendorname` after the call. -/
def gpu_vendor (hnvml : Option nvml_handle) (pci_bus_id : Nat) (vendorname : Option String) :
    Run (Int × Option String) :=
  match hnvml with
  | some h =>
    ((List.range h.nvml_gpucount.toNat).foldl (gpu_vendor_step h pci_bus_id)
        (Run.ret (0, 0))).bind fun vp =>
    Run.ret (translate_vendor_id vp.1 vendorname)
  | none => Run.ret (translate_vendor_id 0 vendorname)

/-- The runtime indices that the loop of `gpu_vendor` passes to `nvml_get_info`:
the entry `nvml_cuda_device_id[id]` for each management index `id` whose bus id
is `pci_bus_id`. -/
def gpu_vendor_args (hnvml : nvml_handle) (pci_bus_id : Nat) : List Int :=
  (List.range hnvml.nvml_gpucount.toNat).filterMap fun id =>
    if hnvml.nvml_pci_bus_id[id]? = some pci_bus_id then hnvml.nvml_cuda_device_id[id]?
    else none

/-! ## Lemmas and theorems -/

theorem last_or_cases (d : Int) (p : Nat → Bool) (k : Nat) :
    (last_or d p k = d ∧ ∀ j, j < k → p j = false) ∨
    (∃ j, j < k ∧ p j = true ∧ last_or d p k = (j : Int) ∧ ∀ j2, j < j2 → j2 < k → p j2 = false) := by
  induction k with
  | zero => left; simp [last_or]
  | succ k ih =>
    by_cases hk : p k = true
    · right
      refine ⟨k, Nat.lt_succ_self k, hk, by simp [last_or, hk], ?_⟩
      intro j2 h1 h2; omega
    · have hk2 : p k = false := by simpa using hk
      rcases ih with ⟨h1, h2⟩ | ⟨j, hj, hpj, hl, hr⟩
      · left
        refine ⟨by simp [last_or, hk2, h1], ?_⟩
        intro j hj
        rcases Nat.lt_succ_iff_lt_or_eq.mp hj with h | h
        · exact h2 j h
        · subst h; exact hk2
      · right
        refine ⟨j, Nat.lt_succ_of_lt hj, hpj, by simp [last_or, hk2, hl], ?_⟩
        intro j2 h1 h2
        rcases Nat.lt_succ_iff_lt_or_eq.mp h2 with h | h
        · exact hr j2 h1 h
        · subst h; exact hk2

theorem inner_fold (dom bus dev : List Nat) (props : cudaDeviceProp) (i : Nat) (m : Maps)
    (k : Nat) :
    let m2 := (List.range k).foldl (inner_step dom bus dev props i) m
    m2.nvml_cuda_device_id.length = m.nvml_cuda_device_id.length ∧
    m2.cuda_nvml_device_id.length = m.cuda_nvml_device_id.length ∧
    (∀ j, m2.nvml_cuda_device_id[j]? =
      if j < k ∧ pci_match dom bus dev props j = true ∧ j < m.nvml_cuda_device_id.length
      then some (i : Int) else m.nvml_cuda_device_id[j]?) ∧
    (∀ i2, i2 ≠ i → m2.cuda_nvml_device_id[i2]? = m.cuda_nvml_device_id[i2]?) ∧
    m2.cuda_nvml_device_id[i]? =
      (m.cuda_nvml_device_id[i]?).map (fun d => last_or d (pci_match dom bus dev props) k) := by
  induction k with
  | zero => simp [last_or]
  | succ k ih =>
    simp only [List.range_succ, List.foldl_append, List.foldl_cons, List.foldl_nil]
    obtain ⟨h1, h2, h3, h4, h5⟩ := ih
    by_cases hk : pci_match dom bus dev props k = true
    · simp only [inner_step, hk, if_true, List.length_set]
      refine ⟨h1, h2, ?_, ?_, ?_⟩
      · intro j
        rw [List.getElem?_set, h3 j, h1]
        by_cases hjk : k = j
        · subst hjk
          by_cases hl : k < m.nvml_cuda_device_id.length <;> simp [hl, hk]
          omega
        · have : (j < k + 1) = (j < k) := by
            apply propext; constructor <;> intro h <;> omega
          simp [hjk, this]
      · intro i2 hi2
        rw [List.getElem?_set, h4 i2 hi2]
        simp [Ne.symm hi2]
      · rw [List.getElem?_set, h2]
        simp only [if_true, last_or, hk]
        cases hm : m.cuda_nvml_device_id[i]? with
        | none =>
          have : ¬ i < m.cuda_nvml_device_id.length := by
            intro h; rw [List.getElem?_eq_getElem h] at hm; exact absurd hm (by simp)
          simp [this]
        | some d =>
          have : i < m.cuda_nvml_device_id.length := by
            by_contra h
            rw [List.getElem?_eq_none (Nat.le_of_not_lt h)] at hm; exact absurd hm (by simp)
          simp [this]
    · have hk2 : pci_match dom bus dev props k = false := by simpa using hk
      simp only [inner_step, hk2, Bool.false_eq_true, if_false]
      refine ⟨h1, h2, ?_, h4, ?_⟩
      · intro j
        rw [h3 j]
        by_cases hjk : j = k
        · subst hjk; simp [hk2]
        · have : (j < k + 1) = (j < k) := by
            apply propext; constructor <;> intro h <;> omega
          simp [this]
      · simp [h5, last_or, hk2]

theorem last_or_false (d : Int) (p : Nat → Bool) (k : Nat) (h : ∀ j, j < k → p j = false) :
    last_or d p k = d := by
  induction k with
  | zero => rfl
  | succ k ih =>
    have hk := h k (Nat.lt_succ_self k)
    simp only [last_or, hk, Bool.false_eq_true, if_false]
    exact ih (fun j hj => h j (Nat.lt_succ_of_lt hj))

theorem outer_step_spec (dom bus dev : List Nat) (n : Nat) (cuda : List (Option cudaDeviceProp))
    (m : Maps) (i : Nat) (hn : m.nvml_cuda_device_id.length = n) :
    let m2 := outer_step dom bus dev n cuda m i
    m2.nvml_cuda_device_id.length = n ∧
    m2.cuda_nvml_device_id.length = m.cuda_nvml_device_id.length ∧
    (∀ j, m2.nvml_cuda_device_id[j]? =
      if j < n ∧ rt_match dom bus dev cuda i j = true then some (i : Int)
      else m.nvml_cuda_device_id[j]?) ∧
    (∀ i2, i2 ≠ i → m2.cuda_nvml_device_id[i2]? = m.cuda_nvml_device_id[i2]?) ∧
    (i < m.cuda_nvml_device_id.length →
      m2.cuda_nvml_device_id[i]? = some (last_or (-1) (rt_match dom bus dev cuda i) n)) := by
  cases hc : cuda.getD i none with
  | none =>
    have hr : ∀ j, rt_match dom bus dev cuda i j = false := by
      intro j; simp only [rt_match, hc]
    simp only [outer_step, hc, List.length_set, hr, Bool.false_eq_true, and_false, if_false]
    refine ⟨hn, trivial, fun _ => trivial, ?_, ?_⟩
    · intro i2 hi2
      rw [List.getElem?_set]; simp [Ne.symm hi2]
    · intro hi
      rw [List.getElem?_set]
      simp [hi, last_or_false _ _ _ (fun j _ => hr j)]
  | some props =>
    have hr : rt_match dom bus dev cuda i = pci_match dom bus dev props := by
      funext j; simp only [rt_match, hc]
    simp only [outer_step, hc, hr]
    obtain ⟨h1, h2, h3, h4, h5⟩ := inner_fold dom bus dev props i
      { m with cuda_nvml_device_id := m.cuda_nvml_device_id.set i (-1) } n
    simp only [List.length_set] at h1 h2 h3 h4 h5
    refine ⟨h1.trans hn, h2, ?_, ?_, ?_⟩
    · intro j
      rw [h3 j, hn]
      by_cases hj : j < n <;> simp [hj]
    · intro i2 hi2
      rw [h4 i2 hi2, List.getElem?_set]; simp [Ne.symm hi2]
    · intro hi
      rw [h5, List.getElem?_set]; simp [hi]

theorem init_len (k : Nat) (l : List Int) :
    ((List.range k).foldl (fun t i => t.set i (-1)) l).length = l.length := by
  induction k with
  | zero => simp
  | succ k ih =>
    simp only [List.range_succ, List.foldl_append, List.foldl_cons, List.foldl_nil,
      List.length_set]
    exact ih

theorem init_fold (n k : Nat) :
    ∀ j, ((List.range k).foldl (fun t i => t.set i (-1)) (List.replicate n (0 : Int)))[j]? =
      if j < k ∧ j < n then some (-1) else (List.replicate n (0 : Int))[j]? := by
  induction k with
  | zero => intro j; simp
  | succ k ih =>
    intro j
    simp only [List.range_succ, List.foldl_append, List.foldl_cons, List.foldl_nil]
    rw [List.getElem?_set, ih j]
    rw [init_len, List.length_replicate]
    by_cases hjk : k = j
    · subst hjk
      by_cases hl : k < n
      · simp [hl]
      · simp [hl]; omega
    · have : (j < k + 1) = (j < k) := by
        apply propext; constructor <;> intro h <;> omega
      simp [hjk, this]

theorem outer_fold (dom bus dev : List Nat) (n : Nat) (cuda : List (Option cudaDeviceProp))
    (m : Maps) (hn : m.nvml_cuda_device_id.length = n) (c : Nat)
    (hc : c ≤ m.cuda_nvml_device_id.length) :
    let m2 := (List.range c).foldl (outer_step dom bus dev n cuda) m
    m2.nvml_cuda_device_id.length = n ∧
    m2.cuda_nvml_device_id.length = m.cuda_nvml_device_id.length ∧
    (∀ j, m2.nvml_cuda_device_id[j]? =
      (m.nvml_cuda_device_id[j]?).map
        (fun d => last_or d (fun i => rt_match dom bus dev cuda i j) c)) ∧
    (∀ i, i < c →
      m2.cuda_nvml_device_id[i]? = some (last_or (-1) (rt_match dom bus dev cuda i) n)) ∧
    (∀ i, c ≤ i → m2.cuda_nvml_device_id[i]? = m.cuda_nvml_device_id[i]?) := by
  induction c with
  | zero => simp [last_or, hn]
  | succ c ih =>
    obtain ⟨h1, h2, h3, h4, h5⟩ := ih (Nat.le_of_succ_le hc)
    simp only [List.range_succ, List.foldl_append, List.foldl_cons, List.foldl_nil]
    obtain ⟨g1, g2, g3, g4, g5⟩ := outer_step_spec dom bus dev n cuda
      ((List.range c).foldl (outer_step dom bus dev n cuda) m) c h1
    refine ⟨g1, g2.trans h2, ?_, ?_, ?_⟩
    · intro j
      rw [g3 j, h3 j]
      cases hm : m.nvml_cuda_device_id[j]? with
      | none =>
        have : ¬ j < n := by
          intro h; rw [← hn] at h
          rw [List.getElem?_eq_getElem h] at hm; exact absurd hm (by simp)
        simp [this]
      | some d =>
        have : j < n := by
          by_contra h; rw [← hn] at h
          rw [List.getElem?_eq_none (Nat.le_of_not_lt h)] at hm; exact absurd hm (by simp)
        by_cases hr : rt_match dom bus dev cuda c j = true
        · simp [this, hr, last_or]
        · have hr2 : rt_match dom bus dev cuda c j = false := by simpa using hr
          simp [hr2, last_or]
    · intro i hi
      rcases Nat.lt_succ_iff_lt_or_eq.mp hi with h | h
      · rw [g4 i (Nat.ne_of_lt h), h4 i h]
      · subst h
        exact g5 (by rw [h2]; exact hc)
    · intro i hi
      rw [g4 i (by omega), h5 i (by omega)]

/-- What `build_maps` computes: each entry is the last match on the other side. -/
theorem build_maps_spec (dom bus dev : List Nat) (n : Nat) (cuda : List (Option cudaDeviceProp)) :
    (build_maps dom bus dev n cuda).nvml_cuda_device_id.length = n ∧
    (build_maps dom bus dev n cuda).cuda_nvml_device_id.length = cuda.length ∧
    (∀ j, j < n → (build_maps dom bus dev n cuda).nvml_cuda_device_id[j]? =
      some (last_or (-1) (fun i => rt_match dom bus dev cuda i j) cuda.length)) ∧
    (∀ i, i < cuda.length → (build_maps dom bus dev n cuda).cuda_nvml_device_id[i]? =
      some (last_or (-1) (rt_match dom bus dev cuda i) n)) := by
  have hlen : ((List.range n).foldl (fun t i => t.set i (-1)) (List.replicate n (0 : Int))).length
      = n := by rw [init_len, List.length_replicate]
  obtain ⟨h1, h2, h3, h4, _⟩ := outer_fold dom bus dev n cuda
    { nvml_cuda_device_id :=
        (List.range n).foldl (fun t i => t.set i (-1)) (List.replicate n (0 : Int))
      cuda_nvml_device_id := List.replicate cuda.length (0 : Int) } hlen cuda.length
    (by simp)
  refine ⟨h1, by simpa using h2, ?_, ?_⟩
  · intro j hj
    have := h3 j
    simp only [init_fold n n j, hj, and_self, if_true, Option.map_some'] at this
    exact this
  · intro i hi
    exact h4 i hi

theorem rt_match_iff (nvml : List nvmlPciInfo_t) (cuda : List (Option cudaDeviceProp))
    (i j : Nat) (p : nvmlPciInfo_t) (hp : nvml[j]? = some p) :
    rt_match (nvml.map (fun p => p.domain)) (nvml.map (fun p => p.bus))
      (nvml.map (fun p => p.device)) cuda i j = true ↔
    ∃ q, cuda[i]? = some (some q) ∧ same_address p q := by
  have hd : ∀ f : nvmlPciInfo_t → Nat, (nvml.map f).getD j 0 = f p := by
    intro f; simp [List.getD, List.getElem?_map, hp]
  cases hc : cuda[i]? with
  | none =>
    have hg : cuda.getD i none = none := by simp [List.getD, hc]
    simp [rt_match, hc]
  | some o =>
    have hg : cuda.getD i none = o := by simp [List.getD, hc]
    cases o with
    | none => simp [rt_match, hc]
    | some q =>
      simp only [rt_match, hg, pci_match, hd, Bool.and_eq_true, decide_eq_true_eq,
        Option.some.injEq, same_address]
      constructor
      · rintro ⟨⟨h1, h2⟩, h3⟩; exact ⟨q, rfl, h1, h2, h3⟩
      · rintro ⟨q2, hq, h1, h2, h3⟩; subst hq; exact ⟨⟨h1, h2⟩, h3⟩

theorem nvml_create_some (host : Host) (h : nvml_handle) (hc : nvml_create host = some h) :
    ∃ cuda, host.cuda = some cuda ∧ host.dll = true ∧ required_caps host.caps = true ∧
      h.caps = host.caps ∧
      h.nvml_gpucount = (host.nvml.length : Int) ∧ h.cuda_gpucount = (cuda.length : Int) ∧
      h.nvml_cuda_device_id = (build_maps (host.nvml.map (fun p => p.domain))
        (host.nvml.map (fun p => p.bus)) (host.nvml.map (fun p => p.device))
        host.nvml.length cuda).nvml_cuda_device_id ∧
      h.cuda_nvml_device_id = (build_maps (host.nvml.map (fun p => p.domain))
        (host.nvml.map (fun p => p.bus)) (host.nvml.map (fun p => p.device))
        host.nvml.length cuda).cuda_nvml_device_id := by
  unfold nvml_create at hc
  cases hd : host.dll with
  | false => simp [hd] at hc
  | true =>
    cases hr : required_caps host.caps with
    | false => simp [hd, hr] at hc
    | true =>
      cases hcu : host.cuda with
      | none => simp [hd, hr, hcu] at hc
      | some cuda =>
        simp only [hd, hr, hcu, Bool.not_true, Bool.false_eq_true, if_false,
          Option.some.injEq] at hc
        subst hc
        exact ⟨cuda, rfl, rfl, rfl, rfl, rfl, rfl, rfl, rfl⟩

theorem getElem?_some_lt {α : Type} (l : List α) (i : Nat) (a : α) (h : l[i]? = some a) :
    i < l.length := by
  by_contra hn
  rw [List.getElem?_eq_none (Nat.le_of_not_lt hn)] at h
  exact absurd h (by simp)

/-- C2: after `nvml_create` the mapping is exactly the bus-address match
relation.  For a runtime index `i` whose properties query succeeds, the entry
`cuda_nvml_device_id[i]` differs from `-1` iff some management index has the
same domain, bus and device (the subsystem id is not looked at), and then the
management index it holds has these three fields equal to those of `i`; every
runtime index and every management index without a match on the other side
holds `-1` (not `0`). -/
theorem nvml_create_maps_exactly_matches (host : Host) (h : nvml_handle)
    (cuda : List (Option cudaDeviceProp)) (hc : nvml_create host = some h)
    (hcu : host.cuda = some cuda) :
    (∀ (i : Nat) (q : cudaDeviceProp), cuda[i]? = some (some q) →
      ∃ v : Int, h.cuda_nvml_device_id[i]? = some v ∧
        (v ≠ -1 ↔ ∃ (j : Nat) (p : nvmlPciInfo_t), host.nvml[j]? = some p ∧ same_address p q) ∧
        (v ≠ -1 → ∃ (j : Nat) (p : nvmlPciInfo_t),
          v = (j : Int) ∧ host.nvml[j]? = some p ∧ same_address p q)) ∧
    (∀ i : Nat, i < cuda.length →
      (∀ q : cudaDeviceProp, cuda[i]? = some (some q) →
        ∀ (j : Nat) (p : nvmlPciInfo_t), host.nvml[j]? = some p → ¬ same_address p q) →
      h.cuda_nvml_device_id[i]? = some (-1) ∧ h.cuda_nvml_device_id[i]? ≠ some 0) ∧
    (∀ (j : Nat) (p : nvmlPciInfo_t), host.nvml[j]? = some p →
      (∀ (i : Nat) (q : cudaDeviceProp), cuda[i]? = some (some q) → ¬ same_address p q) →
      h.nvml_cuda_device_id[j]? = some (-1) ∧ h.nvml_cuda_device_id[j]? ≠ some 0) := by
  obtain ⟨cuda2, h1, _, _, _, _, _, hnc, hcn⟩ := nvml_create_some host h hc
  rw [hcu] at h1
  cases h1
  obtain ⟨_, _, b3, b4⟩ := build_maps_spec (host.nvml.map (fun p => p.domain))
    (host.nvml.map (fun p => p.bus)) (host.nvml.map (fun p => p.device)) host.nvml.length cuda
  rw [← hnc] at b3
  rw [← hcn] at b4
  refine ⟨?_, ?_, ?_⟩
  · intro i q hq
    have hi := getElem?_some_lt _ _ _ hq
    refine ⟨_, b4 i hi, ?_⟩
    rcases last_or_cases (-1) (rt_match (host.nvml.map (fun p => p.domain))
      (host.nvml.map (fun p => p.bus)) (host.nvml.map (fun p => p.device)) cuda i)
      host.nvml.length with ⟨e, hno⟩ | ⟨j, hj, hm, e, _⟩
    · rw [e]
      refine ⟨⟨fun hne => absurd rfl hne, ?_⟩, fun hne => absurd rfl hne⟩
      rintro ⟨j, p, hp, hs⟩
      have hj := getElem?_some_lt _ _ _ hp
      have := (rt_match_iff host.nvml cuda i j p hp).mpr ⟨q, hq, hs⟩
      rw [hno j hj] at this
      exact absurd this (by simp)
    · rw [e]
      have hp : host.nvml[j]? = some host.nvml[j] := List.getElem?_eq_getElem hj
      obtain ⟨q2, hq2, hs⟩ := (rt_match_iff host.nvml cuda i j _ hp).mp hm
      rw [hq] at hq2
      cases hq2
      have hne : (j : Int) ≠ -1 := by omega
      exact ⟨⟨fun _ => ⟨j, _, hp, hs⟩, fun _ => hne⟩, fun _ => ⟨j, _, rfl, hp, hs⟩⟩
  · intro i hi hno
    rw [b4 i hi]
    rcases last_or_cases (-1) (rt_match (host.nvml.map (fun p => p.domain))
      (host.nvml.map (fun p => p.bus)) (host.nvml.map (fun p => p.device)) cuda i)
      host.nvml.length with ⟨e, _⟩ | ⟨j, hj, hm, _, _⟩
    · rw [e]; exact ⟨rfl, by simp⟩
    · have hp : host.nvml[j]? = some host.nvml[j] := List.getElem?_eq_getElem hj
      obtain ⟨q, hq, hs⟩ := (rt_match_iff host.nvml cuda i j _ hp).mp hm
      exact absurd hs (hno q hq j _ hp)
  · intro j p hp hno
    have hj := getElem?_some_lt _ _ _ hp
    rw [b3 j hj]
    rcases last_or_cases (-1) (fun i => rt_match (host.nvml.map (fun p => p.domain))
      (host.nvml.map (fun p => p.bus)) (host.nvml.map (fun p => p.device)) cuda i j)
      cuda.length with ⟨e, _⟩ | ⟨i, _, hm, _, _⟩
    · rw [e]; exact ⟨rfl, by simp⟩
    · obtain ⟨q, hq, hs⟩ := (rt_match_iff host.nvml cuda i j p hp).mp hm
      exact absurd hs (hno i q hq)

/-- C1, as stated, fails with a duplicated bus address: on `host_dup` the tables
are `nvml_cuda_device_id = [0, 0]` and `cuda_nvml_device_id = [1]`, so management
index `0` is mapped to runtime index `0`, which is mapped to management index `1`. -/
theorem nvml_create_duplicate_not_inverse :
    (nvml_create host_dup).map (fun h => (h.nvml_cuda_device_id, h.cuda_nvml_device_id))
      = some ([0, 0], [1]) ∧
    ¬ mutually_inverse [0, 0] [1] := by
  refine ⟨by decide, ?_⟩
  intro h
  have := (h.1 0 0 rfl (by decide)).2
  exact absurd this (by decide)

/-- C1, amended: on every pair of device lists on which `nvml_create` succeeds,
if no two management indices share a domain, bus and device, then every mapped
`nvml_cuda_device_id[j] = i` has `cuda_nvml_device_id[i] = j`; and if no two
runtime indices (whose properties query succeeds) share them, then every mapped
`cuda_nvml_device_id[i] = j` has `nvml_cuda_device_id[j] = i`. -/
theorem nvml_create_inverse_of_distinct (host : Host) (h : nvml_handle)
    (cuda : List (Option cudaDeviceProp)) (hc : nvml_create host = some h)
    (hcu : host.cuda = some cuda) :
    (mgmt_distinct host.nvml → inverse_on h.nvml_cuda_device_id h.cuda_nvml_device_id) ∧
    (runtime_distinct cuda → inverse_on h.cuda_nvml_device_id h.nvml_cuda_device_id) := by
  obtain ⟨cuda2, h1, _, _, _, _, _, hnc, hcn⟩ := nvml_create_some host h hc
  rw [hcu] at h1
  cases h1
  obtain ⟨b1, b2, b3, b4⟩ := build_maps_spec (host.nvml.map (fun p => p.domain))
    (host.nvml.map (fun p => p.bus)) (host.nvml.map (fun p => p.device)) host.nvml.length cuda
  rw [← hnc] at b1 b3
  rw [← hcn] at b2 b4
  constructor
  · intro hd j v hj hv
    have hjn : j < host.nvml.length := b1 ▸ getElem?_some_lt _ _ _ hj
    rw [b3 j hjn] at hj
    rcases last_or_cases (-1) (fun i => rt_match (host.nvml.map (fun p => p.domain))
      (host.nvml.map (fun p => p.bus)) (host.nvml.map (fun p => p.device)) cuda i j)
      cuda.length with ⟨e, _⟩ | ⟨i, hi, hm, e, _⟩
    · rw [e] at hj; exact absurd (Option.some.inj hj).symm hv
    · rw [e] at hj
      have hv2 : v = (i : Int) := (Option.some.inj hj).symm
      subst hv2
      refine ⟨by omega, ?_⟩
      rw [Int.toNat_ofNat, b4 i hi]
      rcases last_or_cases (-1) (rt_match (host.nvml.map (fun p => p.domain))
        (host.nvml.map (fun p => p.bus)) (host.nvml.map (fun p => p.device)) cuda i)
        host.nvml.length with ⟨_, hno⟩ | ⟨j2, hj2, hm2, e2, _⟩
      · rw [hno j hjn] at hm; exact absurd hm (by simp)
      · rw [e2]
        have hp : host.nvml[j]? = some host.nvml[j] := List.getElem?_eq_getElem hjn
        have hp2 : host.nvml[j2]? = some host.nvml[j2] := List.getElem?_eq_getElem hj2
        obtain ⟨q, hq, s1, s2, s3⟩ := (rt_match_iff host.nvml cuda i j _ hp).mp hm
        obtain ⟨q2, hq2, t1, t2, t3⟩ := (rt_match_iff host.nvml cuda i j2 _ hp2).mp hm2
        rw [hq] at hq2
        cases hq2
        have := hd j2 j _ _ hp2 hp (t1.trans s1.symm) (t2.trans s2.symm) (t3.trans s3.symm)
        rw [this]
  · intro hd i v hi hv
    have hic : i < cuda.length := b2 ▸ getElem?_some_lt _ _ _ hi
    rw [b4 i hic] at hi
    rcases last_or_cases (-1) (rt_match (host.nvml.map (fun p => p.domain))
      (host.nvml.map (fun p => p.bus)) (host.nvml.map (fun p => p.device)) cuda i)
      host.nvml.length with ⟨e, _⟩ | ⟨j, hj, hm, e, _⟩
    · rw [e] at hi; exact absurd (Option.some.inj hi).symm hv
    · rw [e] at hi
      have hv2 : v = (j : Int) := (Option.some.inj hi).symm
      subst hv2
      refine ⟨by omega, ?_⟩
      rw [Int.toNat_ofNat, b3 j hj]
      rcases last_or_cases (-1) (fun i => rt_match (host.nvml.map (fun p => p.domain))
        (host.nvml.map (fun p => p.bus)) (host.nvml.map (fun p => p.device)) cuda i j)
        cuda.length with ⟨_, hno⟩ | ⟨i2, hi2, hm2, e2, _⟩
      · rw [hno i hic] at hm; exact absurd hm (by simp)
      · rw [e2]
        have hp : host.nvml[j]? = some host.nvml[j] := List.getElem?_eq_getElem hj
        obtain ⟨q, hq, s1, s2, s3⟩ := (rt_match_iff host.nvml cuda i j _ hp).mp hm
        obtain ⟨q2, hq2, t1, t2, t3⟩ := (rt_match_iff host.nvml cuda i2 j _ hp).mp hm2
        have := hd i2 i _ _ hq2 hq (t1.symm.trans s1) (t2.symm.trans s2) (t3.symm.trans s3)
        rw [this]

theorem mgmt_distinct_one : mgmt_distinct host_one.nvml := by
  intro j1 j2 p1 p2 h1 h2 _ _ _
  have a1 := getElem?_some_lt _ _ _ h1
  have a2 := getElem?_some_lt _ _ _ h2
  simp [host_one] at a1 a2
  omega

theorem runtime_distinct_one : runtime_distinct [some ⟨0, 1, 0⟩, none] := by
  intro i1 i2 q1 q2 h1 h2 _ _ _
  have a1 := getElem?_some_lt _ _ _ h1
  have a2 := getElem?_some_lt _ _ _ h2
  simp at a1 a2
  have e1 : i1 = 0 := by
    rcases Nat.lt_succ_iff_lt_or_eq.mp a1 with h | h
    · omega
    · subst h; simp at h1
  have e2 : i2 = 0 := by
    rcases Nat.lt_succ_iff_lt_or_eq.mp a2 with h | h
    · omega
    · subst h; simp at h2
  rw [e1, e2]

/-- Witness of the amended C1 on `host_one`. -/
theorem nvml_create_inverse_of_distinct_witness :
    nvml_create host_one = some handle_one ∧
    host_one.cuda = some [some ⟨0, 1, 0⟩, none] ∧
    mutually_inverse handle_one.nvml_cuda_device_id handle_one.cuda_nvml_device_id :=
  ⟨by decide, rfl,
    (nvml_create_inverse_of_distinct host_one handle_one [some ⟨0, 1, 0⟩, none]
      (by decide) rfl).1 mgmt_distinct_one,
    (nvml_create_inverse_of_distinct host_one handle_one [some ⟨0, 1, 0⟩, none]
      (by decide) rfl).2 runtime_distinct_one⟩

/-- Witness of C2 on `host_one`: runtime index
`0` is mapped, runtime index `1` (whose query fails) holds `-1`. -/
theorem nvml_create_maps_exactly_matches_witness :
    nvml_create host_one = some handle_one ∧
    host_one.cuda = some [some ⟨0, 1, 0⟩, none] ∧
    handle_one.cuda_nvml_device_id[1]? = some (-1) :=
  ⟨by decide, rfl,
    ((nvml_create_maps_exactly_matches host_one handle_one [some ⟨0, 1, 0⟩, none]
      (by decide) rfl).2.1 1 (by decide) (fun q hq => by simp at hq)).1⟩

theorem scan_clocks_eq (clocks : List Nat) (nclocks clk : Nat) (hlen : nclocks ≤ clocks.length)
    (h255 : nclocks ≤ 255) :
    ∀ fuel u, u ≤ nclocks → nclocks - u < fuel →
      scan_clocks clocks nclocks clk fuel u =
        Run.ret (first_le_or_target ((clocks.take nclocks).drop u) clk) := by
  intro fuel
  induction fuel with
  | zero => intro u _ h; omega
  | succ fuel ih =>
    intro u hu hf
    unfold scan_clocks
    by_cases hlt : u < nclocks
    · have hul : u < clocks.length := by omega
      have htl : u < (clocks.take nclocks).length := by
        rw [List.length_take]; omega
      have hd : (clocks.take nclocks).drop u = clocks[u] :: (clocks.take nclocks).drop (u + 1) := by
        rw [List.drop_eq_getElem_cons htl, List.getElem_take]
      have hmod : (u + 1) % 256 = u + 1 := Nat.mod_eq_of_lt (by omega)
      simp only [hlt, if_true, List.getElem?_eq_getElem hul, hmod]
      rw [hd]
      by_cases hc : clocks[u] ≤ clk
      · simp [hc, first_le_or_target]
      · rw [if_neg hc, ih (u + 1) (by omega) (by omega)]
        simp [first_le_or_target, hc]
    · have hun : u = nclocks := by omega
      subst hun
      have hnil : (clocks.take u).drop u = [] := by
        apply List.drop_eq_nil_of_le
        rw [List.length_take]; omega
      simp [first_le_or_target, hnil]

theorem returned_ret {α : Type} (a : α) (w : World) : returned (Run.ret (a, w)) = some a := rfl

theorem select_mem_clk_eq (N : Native) (caps : Caps) (fuel n t : Nat) (w : World) (T : List Nat)
    (hT : T.length ≤ 32) (hcap : caps.nvmlDeviceGetSupportedMemoryClocks = true)
    (hrep : reports_mem_clocks N w.log n T) (hfuel : T.length < fuel) :
    ∃ w2, select_mem_clk N caps fuel n t w = Run.ret (first_le_or_target T t, w2) ∧
      w2.clock_prev = w.clock_prev ∧ w2.clock_prev_mem = w.clock_prev_mem ∧
      w2.limit_prev = w.limit_prev := by
  obtain ⟨h1, h2, h3⟩ := hrep
  unfold select_mem_clk
  simp only [invoke, hcap, if_true, Run.bind, h1, Option.getD_some, Nat.min_eq_left hT]
  by_cases h0 : T.length = 0
  · have hnil : T = [] := List.length_eq_zero.mp h0
    subst hnil
    obtain ⟨f, rfl⟩ : ∃ f, fuel = f + 1 := ⟨fuel - 1, by omega⟩
    simp [scan_clocks, Run.bind, first_le_or_target]
  · have hst : store 32 T = some (T ++ List.replicate (32 - T.length) 0) := by
      simp [store, hT]
    simp only [if_pos h0, h2, hst, h3]
    rw [scan_clocks_eq _ _ _ (by simp) (by omega) fuel 0 (Nat.zero_le _) (by omega)]
    simp [Run.bind]

theorem first_le_split (pre post : List Nat) (c t : Nat) (hpre : ∀ e ∈ pre, t < e)
    (hc : c ≤ t) : first_le_or_target (pre ++ c :: post) t = c := by
  induction pre with
  | nil => simp [first_le_or_target, hc]
  | cons a r ih =>
    have ha : ¬ a ≤ t := Nat.not_le.mpr (hpre a (List.mem_cons_self a r))
    have := ih (fun e he => hpre e (List.mem_cons_of_mem a he))
    simpa [first_le_or_target, ha] using this

theorem first_le_none (T : List Nat) (t : Nat) (h : ∀ e ∈ T, t < e) :
    first_le_or_target T t = t := by
  induction T with
  | nil => simp [first_le_or_target]
  | cons a r ih =>
    have ha : ¬ a ≤ t := Nat.not_le.mpr (h a (List.mem_cons_self a r))
    have := ih (fun e he => h e (List.mem_cons_of_mem a he))
    simpa [first_le_or_target, ha] using this

theorem first_le_mem (T : List Nat) (t : Nat) (h : ∃ e ∈ T, e ≤ t) :
    first_le_or_target T t ∈ T ∧ first_le_or_target T t ≤ t := by
  induction T with
  | nil => obtain ⟨e, he, _⟩ := h; simp at he
  | cons a r ih =>
    by_cases ha : a ≤ t
    · simp [first_le_or_target, ha]
    · obtain ⟨e, he, het⟩ := h
      have her : e ∈ r := by
        rcases List.mem_cons.mp he with h1 | h1
        · subst h1; exact absurd het ha
        · exact h1
      have := ih ⟨e, her, het⟩
      simp only [first_le_or_target, List.find?_cons, ha, decide_False] at this ⊢
      exact ⟨List.mem_cons_of_mem a this.1, this.2⟩

theorem first_le_greatest (T : List Nat) (t : Nat) (hd : T.Pairwise (fun a b => b ≤ a)) :
    ∀ e ∈ T, e ≤ t → e ≤ first_le_or_target T t := by
  induction T with
  | nil => intro e he; simp at he
  | cons a r ih =>
    intro e he het
    have hp := List.pairwise_cons.mp hd
    by_cases ha : a ≤ t
    · have : first_le_or_target (a :: r) t = a := by simp [first_le_or_target, ha]
      rw [this]
      rcases List.mem_cons.mp he with h1 | h1
      · exact Nat.le_of_eq h1
      · exact hp.1 e h1
    · have her : e ∈ r := by
        rcases List.mem_cons.mp he with h1 | h1
        · subst h1; exact absurd het ha
        · exact h1
      have := ih hp.2 e her het
      simpa [first_le_or_target, ha] using this

/-- C3: for every supported-clock table `T` of at most 32 entries reported by
the native library and every target `t`, the memory-clock selection of
`nvml_set_clocks` returns the first entry of `T`, in table order, that is
`<= t` (the entry that follows only entries `> t`), and `t` itself when no
entry is `<= t`; when `T` is in descending order and some entry is `<= t`, the
selected value is an entry of `T`, is `<= t`, and no entry `<= t` is larger. -/
theorem select_mem_clk_first_le (N : Native) (caps : Caps) (fuel n t : Nat) (w : World)
    (T : List Nat) (hT : T.length ≤ 32)
    (hcap : caps.nvmlDeviceGetSupportedMemoryClocks = true)
    (hrep : reports_mem_clocks N w.log n T) (hfuel : T.length < fuel) :
    returned (select_mem_clk N caps fuel n t w) = some (first_le_or_target T t) ∧
    (∀ (pre post : List Nat) (c : Nat), T = pre ++ c :: post → (∀ e ∈ pre, t < e) → c ≤ t →
      returned (select_mem_clk N caps fuel n t w) = some c) ∧
    ((∀ e ∈ T, t < e) → returned (select_mem_clk N caps fuel n t w) = some t) ∧
    (T.Pairwise (fun a b => b ≤ a) → (∃ e ∈ T, e ≤ t) →
      first_le_or_target T t ∈ T ∧ first_le_or_target T t ≤ t ∧
      ∀ e ∈ T, e ≤ t → e ≤ first_le_or_target T t) := by
  obtain ⟨w2, hw, _⟩ := select_mem_clk_eq N caps fuel n t w T hT hcap hrep hfuel
  rw [hw, returned_ret]
  refine ⟨rfl, ?_, ?_, ?_⟩
  · intro pre post c hTeq hpre hc
    rw [hTeq, first_le_split pre post c t hpre hc]
  · intro h
    rw [first_le_none T t h]
  · intro hd hex
    exact ⟨(first_le_mem T t hex).1, (first_le_mem T t hex).2, first_le_greatest T t hd⟩

/-- Witness of C3: for the table `[1000, 900, 800, 700]` and the target `850`
the selected value is `800`. -/
theorem select_mem_clk_first_le_witness :
    ([1000, 900, 800, 700] : List Nat).length ≤ 32 ∧
    returned (select_mem_clk (table_native [1000, 900, 800, 700]) caps_all 33 0 850 world0)
      = some 800 :=
  ⟨by decide,
    (select_mem_clk_first_le (table_native [1000, 900, 800, 700]) caps_all 33 0 850 world0
      [1000, 900, 800, 700] (by decide) rfl ⟨rfl, rfl, rfl⟩ (by decide)).1⟩

/-- C4, as stated, fails: for the table `[1000, 900, 800, 700]` and the target
`1200` the first entry qualifies (`1000 <= 1200`) and the selected value is
`1000`, not the target `1200`. -/
theorem select_mem_clk_above_max_not_target :
    returned (select_mem_clk (table_native [1000, 900, 800, 700]) caps_all 33 0 1200 world0)
      = some 1000 ∧
    returned (select_mem_clk (table_native [1000, 900, 800, 700]) caps_all 33 0 1200 world0)
      ≠ some 1200 := by
  constructor <;> decide

/-- C4, amended: for every reported table (at most 32 entries) with first
entry `a` and every target `t >= a`, the selection returns `a`, the first entry
(the maximum of a descending table), not the target; the target is returned
unmodified when every entry is greater than it, as for a target below the
minimum of a descending table. -/
theorem select_mem_clk_above_first (N : Native) (caps : Caps) (fuel n t a : Nat) (w : World)
    (rest : List Nat) (hT : (a :: rest).length ≤ 32)
    (hcap : caps.nvmlDeviceGetSupportedMemoryClocks = true)
    (hrep : reports_mem_clocks N w.log n (a :: rest)) (hfuel : (a :: rest).length < fuel) :
    (a ≤ t → returned (select_mem_clk N caps fuel n t w) = some a) ∧
    ((∀ e ∈ a :: rest, t < e) → returned (select_mem_clk N caps fuel n t w) = some t) := by
  obtain ⟨w2, hw, _⟩ := select_mem_clk_eq N caps fuel n t w (a :: rest) hT hcap hrep hfuel
  rw [hw, returned_ret]
  constructor
  · intro ha
    have := first_le_split [] rest a t (by simp) ha
    simpa using this
  · intro h
    rw [first_le_none _ t h]

/-- Witness of the amended C4: the table `[1000, 900, 800, 700]` with the
target `1200` gives `1000`. -/
theorem select_mem_clk_above_first_witness :
    (1000 : Nat) ≤ 1200 ∧
    returned (select_mem_clk (table_native [1000, 900, 800, 700]) caps_all 33 0 1200 world0)
      = some 1000 :=
  ⟨by decide,
    (select_mem_clk_above_first (table_native [1000, 900, 800, 700]) caps_all 33 0 1200 1000
      world0 [900, 800, 700] (by decide) rfl ⟨rfl, rfl, rfl⟩ (by decide)).1 (by decide)⟩

theorem max_min_eq_clamp (x lo hi : Nat) (h : lo ≤ hi) : max (min x hi) lo = clamp x lo hi := by
  unfold clamp
  split_ifs <;> omega

/-- C5, as stated, fails for large requests: with `min = 100000`,
`max = 250000` and `w = 4294968` the 32-bit product `w * 1000` wraps to `704`
and the value passed to the native set-limit call is `100000`, while the exact
product clamped into `[min, max]` is `250000`. -/
theorem nvml_set_plimit_wraps :
    (calls (nvml_set_plimit (limits_native 100000 250000 200000) (cfg_plimit 4294968)
      handle_one 0 world0)).map set_limit_args = some [100000] ∧
    clamp (4294968 * 1000) 100000 250000 = 250000 := by
  constructor <;> decide

/-- C5, amended: for every nonzero requested wattage `w` of a mapped device and
every reported constraint pair with `min <= max` and `max` nonzero, the one value
`nvml_set_plimit` passes to the native set-limit call is the 32-bit product
`(w * 1000) mod 2^32` clamped into `[min, max]`; this is the exact product
`w * 1000` clamped whenever `w * 1000 < 2^32`. -/
theorem nvml_set_plimit_clamps (N : Native) (cfg : Config) (nvmlh : nvml_handle)
    (dev_id n pmin pmax : Nat) (w : World)
    (hmap : nvmlh.cuda_nvml_device_id[dev_id]? = some (n : Int))
    (hn : (n : Int) < nvmlh.nvml_gpucount)
    (hw : cfg.device_plimit dev_id ≠ 0)
    (hset : nvmlh.caps.nvmlDeviceSetPowerManagementLimit = true)
    (hcon : nvmlh.caps.nvmlDeviceGetPowerManagementLimitConstraints = true)
    (hget : nvmlh.caps.nvmlDeviceGetPowerManagementLimit = true)
    (herr : nvmlh.caps.nvmlErrorString = true)
    (hmin : (N w.log (Call.nvmlDeviceGetPowerManagementLimitConstraints n)).out = some pmin)
    (hmax : (N w.log (Call.nvmlDeviceGetPowerManagementLimitConstraints n)).out2 = some pmax)
    (hle : pmin ≤ pmax) (hpos : pmax ≠ 0) :
    (calls (nvml_set_plimit N cfg nvmlh dev_id w)).map set_limit_args =
      some (set_limit_args w.log ++
        [clamp ((cfg.device_plimit dev_id * 1000) % 4294967296) pmin pmax]) ∧
    (cfg.device_plimit dev_id * 1000 < 4294967296 →
      (calls (nvml_set_plimit N cfg nvmlh dev_id w)).map set_limit_args =
        some (set_limit_args w.log ++ [clamp (cfg.device_plimit dev_id * 1000) pmin pmax])) := by
  have key : (calls (nvml_set_plimit N cfg nvmlh dev_id w)).map set_limit_args =
      some (set_limit_args w.log ++
        [clamp ((cfg.device_plimit dev_id * 1000) % 4294967296) pmin pmax]) := by
    have hguard : ¬ ((n : Int) < 0 ∨ (n : Int) ≥ nvmlh.nvml_gpucount) := by omega
    unfold nvml_set_plimit
    simp only [hmap, hguard, if_false, hw, hset, hcon, hget, herr, invoke, if_true, Run.bind,
      hmin, hmax, Option.getD_some, Int.toNat_ofNat, Bool.not_true, Bool.false_eq_true,
      and_false, hpos, max_min_eq_clamp _ _ _ hle]
    split_ifs <;>
      simp [calls, final, set_limit_args, List.filterMap_append]
  refine ⟨key, fun hlt => ?_⟩
  rw [key, Nat.mod_eq_of_lt hlt]

/-- Witness of the amended C5: with `min = 100000`, `max = 250000` and
`w = 400` the applied value is `250000`. -/
theorem nvml_set_plimit_clamps_witness :
    (calls (nvml_set_plimit (limits_native 100000 250000 200000) (cfg_plimit 400)
      handle_one 0 world0)).map set_limit_args = some [250000] :=
  (nvml_set_plimit_clamps (limits_native 100000 250000 200000) (cfg_plimit 400) handle_one
    0 0 100000 250000 world0 rfl (by decide) (by decide) rfl rfl rfl rfl rfl rfl
    (by decide) (by decide)).1

/-- C7, as stated, fails for an unmapped device: on the handle built for
`host_unmatched`, `nvml_set_clocks` with both requests zero returns `-ENODEV`
(`-19`), not `0`. -/
theorem nvml_set_clocks_zero_unmapped :
    nvml_create host_unmatched = some handle_unmapped ∧
    returned (nvml_set_clocks quiet_native cfg_none handle_unmapped 300 0 world0)
      = some (-19) ∧
    returned (nvml_set_clocks quiet_native cfg_none handle_unmapped 300 0 world0) ≠ some 0 := by
  refine ⟨by decide, by decide, by decide⟩

/-- C7, amended: for every runtime index of the table and every handle state,
`nvml_set_clocks` called with both requests zero returns `0` when the device is
mapped to a management index in range and `-ENODEV` when it is not; in both
cases the world is returned as it was, so no native call is made (in
particular no set-application-clocks call) and `clock_prev`, `clock_prev_mem`
and `limit_prev` are unchanged. -/
theorem nvml_set_clocks_zero_noop (N : Native) (cfg : Config) (nvmlh : nvml_handle)
    (fuel dev_id : Nat) (w : World) (n : Int)
    (hmap : nvmlh.cuda_nvml_device_id[dev_id]? = some n)
    (hgpu : cfg.device_gpu_clocks dev_id = 0) (hmem : cfg.device_mem_clocks dev_id = 0) :
    nvml_set_clocks N cfg nvmlh fuel dev_id w =
      Run.ret (if n < 0 ∨ n ≥ nvmlh.nvml_gpucount then -ENODEV else 0, w) := by
  unfold nvml_set_clocks
  simp only [hmap, hgpu, hmem, and_self, if_true]
  split_ifs <;> rfl

/-- Witness of the amended C7 on the mapped device `0` of `handle_one`. -/
theorem nvml_set_clocks_zero_noop_witness :
    handle_one.cuda_nvml_device_id[0]? = some 0 ∧
    nvml_set_clocks quiet_native cfg_none handle_one 300 0 world0 = Run.ret (0, world0) :=
  ⟨rfl, nvml_set_clocks_zero_noop quiet_native cfg_none handle_one 300 0 world0 0 rfl rfl rfl⟩

/-- C8, as stated, fails for an unmapped device: on the handle built for
`host_unmatched`, with nothing saved, `nvml_reset_clocks` returns `-ENODEV`
(`-19`), not `0`. -/
theorem nvml_reset_clocks_unmapped :
    nvml_create host_unmatched = some handle_unmapped ∧
    returned (nvml_reset_clocks quiet_native handle_unmapped 0 world0) = some (-19) ∧
    returned (nvml_reset_clocks quiet_native handle_unmapped 0 world0) ≠ some 0 := by
  refine ⟨by decide, by decide, by decide⟩

/-- C8, amended: for every runtime index of the table whose saved clock and
saved power limit are both unset, `nvml_reset_clocks` returns `0` when the
device is mapped to a management index in range and `-ENODEV` when it is not;
in both cases the world is returned as it was: no native call at all and all
saved state unchanged. -/
theorem nvml_reset_clocks_nothing_saved (N : Native) (nvmlh : nvml_handle) (dev_id : Nat)
    (w : World) (n : Int)
    (hmap : nvmlh.cuda_nvml_device_id[dev_id]? = some n)
    (hclk : w.clock_prev dev_id = 0) (hlim : w.limit_prev dev_id = 0) :
    nvml_reset_clocks N nvmlh dev_id w =
      Run.ret (if n < 0 ∨ n ≥ nvmlh.nvml_gpucount then -ENODEV else 0, w) := by
  unfold nvml_reset_clocks
  simp only [hmap]
  split_ifs
  · rfl
  · simp [reset_app_clocks, reset_plimit, hclk, hlim, Run.bind]

/-- Witness of the amended C8 on the mapped device `0` of `handle_one`. -/
theorem nvml_reset_clocks_nothing_saved_witness :
    handle_one.cuda_nvml_device_id[0]? = some 0 ∧
    nvml_reset_clocks quiet_native handle_one 0 world0 = Run.ret (0, world0) :=
  ⟨rfl, nvml_reset_clocks_nothing_saved quiet_native handle_one 0 world0 0 rfl rfl rfl⟩

theorem bind_eq_ret {α β : Type} (r : Run α) (f : α → Run β) (b : β) :
    r.bind f = Run.ret b ↔ ∃ a, r = Run.ret a ∧ f a = Run.ret b := by
  cases r <;> simp [Run.bind]

theorem invoke_eq_ret (p : Bool) (N : Native) (c : Call) (w : World) (x : Reply × World) :
    invoke p N c w = Run.ret x ↔
      p = true ∧ x = (N w.log c, { w with log := w.log ++ [c] }) := by
  unfold invoke
  cases p <;> simp [eq_comm]

theorem same_saved_trans {a b c : World} (h1 : same_saved a b) (h2 : same_saved b c) :
    same_saved a c :=
  ⟨h2.1.trans h1.1, h2.2.1.trans h1.2.1, h2.2.2.trans h1.2.2⟩

theorem invoke_frame (p : Bool) (N : Native) (c : Call) (w : World) (x : Reply × World)
    (h : invoke p N c w = Run.ret x) : same_saved w x.2 := by
  obtain ⟨_, rfl⟩ := (invoke_eq_ret p N c w x).mp h
  exact ⟨rfl, rfl, rfl⟩

theorem read_prev_ret (N : Native) (caps : Caps) (n : Nat) (ty : nvmlClockType_t) (prev : Nat)
    (w : World) (x : Nat × World) (h : read_prev N caps n ty prev w = Run.ret x) :
    x.1 = (if prev = 0 then (N w.log (Call.nvmlDeviceGetApplicationsClock n ty)).out.getD 0
      else prev) ∧
    same_saved w x.2 ∧
    x.2.log = (if prev = 0 then w.log ++ [Call.nvmlDeviceGetApplicationsClock n ty]
      else w.log) := by
  unfold read_prev at h
  by_cases hp : prev = 0
  · simp only [hp, if_true] at h ⊢
    obtain ⟨a, ha, hb⟩ := (bind_eq_ret _ _ _).mp h
    obtain ⟨_, rfl⟩ := (invoke_eq_ret _ _ _ _ _).mp ha
    cases hb
    exact ⟨rfl, ⟨rfl, rfl, rfl⟩, rfl⟩
  · simp only [hp, if_false] at h ⊢
    cases h
    exact ⟨rfl, ⟨rfl, rfl, rfl⟩, rfl⟩

theorem select_mem_clk_frame (N : Native) (caps : Caps) (fuel n t : Nat) (w : World)
    (x : Nat × World) (h : select_mem_clk N caps fuel n t w = Run.ret x) : same_saved w x.2 := by
  unfold select_mem_clk at h
  obtain ⟨p, hp, h⟩ := (bind_eq_ret _ _ _).mp h
  have fp := invoke_frame _ _ _ _ _ hp
  dsimp only at h
  split_ifs at h with h0
  · obtain ⟨q, hq, h⟩ := (bind_eq_ret _ _ _).mp h
    have fq := invoke_frame _ _ _ _ _ hq
    split at h
    · exact absurd h (by simp)
    · obtain ⟨c, _, h⟩ := (bind_eq_ret _ _ _).mp h
      cases h
      exact same_saved_trans fp fq
  · obtain ⟨c, _, h⟩ := (bind_eq_ret _ _ _).mp h
    cases h
    exact fp

theorem select_gpu_clk_frame (N : Native) (caps : Caps) (fuel n m t : Nat) (w : World)
    (x : Nat × World) (h : select_gpu_clk N caps fuel n m t w = Run.ret x) :
    same_saved w x.2 := by
  unfold select_gpu_clk at h
  obtain ⟨p, hp, h⟩ := (bind_eq_ret _ _ _).mp h
  have fp := invoke_frame _ _ _ _ _ hp
  dsimp only at h
  split_ifs at h with h0
  · obtain ⟨q, hq, h⟩ := (bind_eq_ret _ _ _).mp h
    have fq := invoke_frame _ _ _ _ _ hq
    split at h
    · exact absurd h (by simp)
    · obtain ⟨c, _, h⟩ := (bind_eq_ret _ _ _).mp h
      cases h
      exact same_saved_trans fp fq
  · cases h
    exact fp

theorem apply_clocks_ret_one (N : Native) (caps : Caps) (dev_id n mc gc mp gp : Nat)
    (w w2 : World) (h : apply_clocks N caps dev_id n mc gc mp gp w = Run.ret (1, w2)) :
    w2.clock_prev = upd w.clock_prev dev_id gp ∧
    w2.clock_prev_mem = upd w.clock_prev_mem dev_id mp ∧
    w2.limit_prev = w.limit_prev := by
  unfold apply_clocks at h
  obtain ⟨p, hp, h⟩ := (bind_eq_ret _ _ _).mp h
  obtain ⟨_, rfl⟩ := (invoke_eq_ret _ _ _ _ _).mp hp
  split_ifs at h
  · cases h
    exact ⟨rfl, rfl, rfl⟩
  · obtain ⟨e, _, h⟩ := (bind_eq_ret _ _ _).mp h
    have : (-1 : Int) = 1 := congrArg Prod.fst (Run.ret.inj h)
    exact absurd this (by decide)

theorem set_clocks_body_ret_one (N : Native) (cfg : Config) (caps : Caps)
    (fuel dev_id n : Nat) (w w2 : World)
    (h : set_clocks_body N cfg caps fuel dev_id n w = Run.ret (1, w2)) :
    w2.clock_prev_mem = upd w.clock_prev_mem dev_id
      (if w.clock_prev_mem dev_id = 0 then
        (N w.log (Call.nvmlDeviceGetApplicationsClock n
          nvmlClockType_t.NVML_CLOCK_MEM)).out.getD 0
       else w.clock_prev_mem dev_id) ∧
    w2.clock_prev = upd w.clock_prev dev_id
      (if w.clock_prev dev_id = 0 then
        (N (if w.clock_prev_mem dev_id = 0 then
              w.log ++ [Call.nvmlDeviceGetApplicationsClock n nvmlClockType_t.NVML_CLOCK_MEM]
            else w.log)
          (Call.nvmlDeviceGetApplicationsClock n
            nvmlClockType_t.NVML_CLOCK_GRAPHICS)).out.getD 0
       else w.clock_prev dev_id) ∧
    w2.limit_prev = w.limit_prev := by
  unfold set_clocks_body at h
  obtain ⟨a, ha1, h⟩ := (bind_eq_ret _ _ _).mp h
  obtain ⟨b, hb1, h⟩ := (bind_eq_ret _ _ _).mp h
  obtain ⟨dm, hdm, h⟩ := (bind_eq_ret _ _ _).mp h
  obtain ⟨dg, hdg, h⟩ := (bind_eq_ret _ _ _).mp h
  obtain ⟨a1, a2, a3⟩ := read_prev_ret _ _ _ _ _ _ _ ha1
  obtain ⟨b1, b2, b3⟩ := read_prev_ret _ _ _ _ _ _ _ hb1
  have fdm := invoke_frame _ _ _ _ _ hdm
  have fdg := invoke_frame _ _ _ _ _ hdg
  by_cases hrc : dg.1.rc ≠ NVML_SUCCESS
  · rw [if_pos hrc] at h
    have : -EINVAL = (1 : Int) := congrArg Prod.fst (Run.ret.inj h)
    exact absurd this (by decide)
  · rw [if_neg hrc] at h
    dsimp only at h
    obtain ⟨m, hm1, h⟩ := (bind_eq_ret _ _ _).mp h
    obtain ⟨g, hg1, h⟩ := (bind_eq_ret _ _ _).mp h
    have fm := select_mem_clk_frame _ _ _ _ _ _ _ hm1
    have fg := select_gpu_clk_frame _ _ _ _ _ _ _ _ hg1
    obtain ⟨c1, c2, c3⟩ := apply_clocks_ret_one _ _ _ _ _ _ _ _ _ _ h
    have fall : same_saved w g.2 :=
      same_saved_trans a2 (same_saved_trans b2 (same_saved_trans fdm
        (same_saved_trans fdg (same_saved_trans fm fg))))
    rw [a2.1, a3] at b1
    rw [c1, c2, c3, fall.1, fall.2.1, fall.2.2, a1, b1]
    exact ⟨rfl, rfl, rfl⟩

/-- What a successful `nvml_set_clocks` leaves in the saved arrays. -/
theorem nvml_set_clocks_ret_one (N : Native) (cfg : Config) (nvmlh : nvml_handle)
    (fuel dev_id : Nat) (w w2 : World)
    (h : nvml_set_clocks N cfg nvmlh fuel dev_id w = Run.ret (1, w2)) :
    ∃ n : Nat, nvmlh.cuda_nvml_device_id[dev_id]? = some (n : Int) ∧
      (n : Int) < nvmlh.nvml_gpucount ∧
      w2.clock_prev_mem = upd w.clock_prev_mem dev_id
        (if w.clock_prev_mem dev_id = 0 then
          (N w.log (Call.nvmlDeviceGetApplicationsClock n
            nvmlClockType_t.NVML_CLOCK_MEM)).out.getD 0
         else w.clock_prev_mem dev_id) ∧
      w2.clock_prev = upd w.clock_prev dev_id
        (if w.clock_prev dev_id = 0 then
          (N (if w.clock_prev_mem dev_id = 0 then
                w.log ++ [Call.nvmlDeviceGetApplicationsClock n nvmlClockType_t.NVML_CLOCK_MEM]
              else w.log)
            (Call.nvmlDeviceGetApplicationsClock n
              nvmlClockType_t.NVML_CLOCK_GRAPHICS)).out.getD 0
         else w.clock_prev dev_id) ∧
      w2.limit_prev = w.limit_prev := by
  unfold nvml_set_clocks at h
  cases hm : nvmlh.cuda_nvml_device_id[dev_id]? with
  | none => rw [hm] at h; exact absurd h (by simp)
  | some z =>
    rw [hm] at h
    dsimp only at h
    by_cases hg : z < 0 ∨ z ≥ nvmlh.nvml_gpucount
    · rw [if_pos hg] at h
      have : -ENODEV = (1 : Int) := congrArg Prod.fst (Run.ret.inj h)
      exact absurd this (by decide)
    · rw [if_neg hg] at h
      by_cases hz : cfg.device_gpu_clocks dev_id = 0 ∧ cfg.device_mem_clocks dev_id = 0
      · rw [if_pos hz] at h
        have : (0 : Int) = 1 := congrArg Prod.fst (Run.ret.inj h)
        exact absurd this (by decide)
      · rw [if_neg hz] at h
        have hz0 : 0 ≤ z := by omega
        obtain ⟨n, rfl⟩ := Int.eq_ofNat_of_zero_le hz0
        refine ⟨n, rfl, by omega, ?_⟩
        rw [Int.toNat_ofNat] at h
        cases ha : nvmlh.app_clocks[n]? with
        | none => rw [ha] at h; exact absurd h (by simp)
        | some flag =>
          rw [ha] at h
          dsimp only at h
          by_cases hf : flag ≠ nvmlEnableState_t.NVML_FEATURE_ENABLED
          · rw [if_pos hf] at h
            have : -EPERM = (1 : Int) := congrArg Prod.fst (Run.ret.inj h)
            exact absurd this (by decide)
          · rw [if_neg hf] at h
            exact set_clocks_body_ret_one N cfg nvmlh.caps fuel dev_id n w w2 h

theorem returned_eq_some {α : Type} (r : Run (α × World)) (a : α) (h : returned r = some a) :
    ∃ w, r = Run.ret (a, w) := by
  cases r with
  | ret p =>
    obtain ⟨x, w⟩ := p
    simp only [returned, Option.some.injEq] at h
    subst h
    exact ⟨w, rfl⟩
  | fault => simp [returned] at h
  | spin => simp [returned] at h

theorem upd_same (a : Nat → Nat) (i v : Nat) : upd a i v i = v := by simp [upd]

/-- C6, as stated, fails when the clock reported before the first call is `0`:
the native library reports application clocks 3000/0 before the first call and
a graphics clock of 1500 afterwards; both calls succeed, and after the second
call `clock_prev` holds 1500, not the 0 that was current before the first call. -/
theorem nvml_set_clocks_zero_snapshot_overwritten :
    returned (set_clocks_twice (clock_native (some 3000) (some 0) (some 1500)) (cfg_gpu 1100)
      handle_one 300 0 world0) = some (1, 1) ∧
    (clock_native (some 3000) (some 0) (some 1500) world0.log
      (Call.nvmlDeviceGetApplicationsClock 0 nvmlClockType_t.NVML_CLOCK_MEM)).out = some 3000 ∧
    (clock_native (some 3000) (some 0) (some 1500)
      (world0.log ++ [Call.nvmlDeviceGetApplicationsClock 0 nvmlClockType_t.NVML_CLOCK_MEM])
      (Call.nvmlDeviceGetApplicationsClock 0 nvmlClockType_t.NVML_CLOCK_GRAPHICS)).out = some 0 ∧
    (final (set_clocks_twice (clock_native (some 3000) (some 0) (some 1500)) (cfg_gpu 1100)
      handle_one 300 0 world0)).map (fun w => (w.clock_prev_mem 0, w.clock_prev 0))
      = some (3000, 1500) := by
  refine ⟨by decide, by decide, by decide, by decide⟩

/-- C6, amended: for every mapped device with nothing saved, if the application
clocks reported before the first call, `m` (memory) and `g` (graphics), are both
nonzero and `nvml_set_clocks` succeeds twice in a row with no reset in between
(whatever the native library reports in between), then after the second call
`clock_prev_mem` and `clock_prev` still hold `m` and `g`. -/
theorem nvml_set_clocks_keeps_first_snapshot (N : Native) (cfg : Config) (nvmlh : nvml_handle)
    (fuel dev_id n m g : Nat) (w0 : World)
    (hmap : nvmlh.cuda_nvml_device_id[dev_id]? = some (n : Int))
    (hm0 : w0.clock_prev_mem dev_id = 0) (hg0 : w0.clock_prev dev_id = 0)
    (hm : (N w0.log (Call.nvmlDeviceGetApplicationsClock n
      nvmlClockType_t.NVML_CLOCK_MEM)).out = some m)
    (hg : (N (w0.log ++ [Call.nvmlDeviceGetApplicationsClock n nvmlClockType_t.NVML_CLOCK_MEM])
      (Call.nvmlDeviceGetApplicationsClock n nvmlClockType_t.NVML_CLOCK_GRAPHICS)).out = some g)
    (hmz : m ≠ 0) (hgz : g ≠ 0)
    (hret : returned (set_clocks_twice N cfg nvmlh fuel dev_id w0) = some (1, 1)) :
    (final (set_clocks_twice N cfg nvmlh fuel dev_id w0)).map
      (fun w => (w.clock_prev_mem dev_id, w.clock_prev dev_id)) = some (m, g) := by
  obtain ⟨w2, hw⟩ := returned_eq_some _ _ hret
  rw [hw]
  unfold set_clocks_twice at hw
  obtain ⟨a, ha, hw⟩ := (bind_eq_ret _ _ _).mp hw
  obtain ⟨b, hb, hw⟩ := (bind_eq_ret _ _ _).mp hw
  obtain ⟨r1, w1⟩ := a
  obtain ⟨r2, w2b⟩ := b
  have e := Run.ret.inj hw
  simp only [Prod.mk.injEq] at e
  obtain ⟨⟨e1, e2⟩, e3⟩ := e
  subst e1 e2 e3
  obtain ⟨n1, hn1, _, p1, p2, _⟩ := nvml_set_clocks_ret_one N cfg nvmlh fuel dev_id w0 w1 ha
  obtain ⟨n2, _, _, q1, q2, _⟩ := nvml_set_clocks_ret_one N cfg nvmlh fuel dev_id w1 w2b hb
  rw [hmap] at hn1
  have hn : n1 = n := by
    have := Option.some.inj hn1
    omega
  subst hn
  have s1 : w1.clock_prev_mem dev_id = m := by
    rw [p1, upd_same, if_pos hm0, hm]; rfl
  have s2 : w1.clock_prev dev_id = g := by
    rw [p2, upd_same, if_pos hg0, if_pos hm0, hg]; rfl
  have t1 : w2b.clock_prev_mem dev_id = m := by
    rw [q1, upd_same, s1, if_neg hmz]
  have t2 : w2b.clock_prev dev_id = g := by
    rw [q2, upd_same, s2, if_neg hgz]
  simp [final, t1, t2]

/-- Witness of the amended C6: clocks 3000/1500 are reported before the first
call and 3000/1100 afterwards; the saved clocks stay 3000/1500. -/
theorem nvml_set_clocks_keeps_first_snapshot_witness :
    returned (set_clocks_twice (clock_native (some 3000) (some 1500) (some 1100)) (cfg_gpu 1100)
      handle_one 300 0 world0) = some (1, 1) ∧
    (final (set_clocks_twice (clock_native (some 3000) (some 1500) (some 1100)) (cfg_gpu 1100)
      handle_one 300 0 world0)).map (fun w => (w.clock_prev_mem 0, w.clock_prev 0))
      = some (3000, 1500) :=
  ⟨by decide,
    nvml_set_clocks_keeps_first_snapshot (clock_native (some 3000) (some 1500) (some 1100))
      (cfg_gpu 1100) handle_one 300 0 0 3000 1500 world0 rfl rfl rfl rfl rfl (by decide)
      (by decide) (by decide)⟩

/-- C9: the code breaks the claim.  When the application-clock queries fail
(nothing is stored, the saved clocks stay `0`), `nvml_set_clocks` applies
1100 MHz and returns `1`, and the following `nvml_reset_clocks` returns `0`
without calling `nvmlDeviceResetApplicationsClocks`. -/
theorem nvml_set_clocks_change_not_recorded :
    returned (set_then_reset (clock_native none none none) (cfg_gpu 1100) handle_one 300 0
      world0) = some (1, 0) ∧
    calls (set_then_reset (clock_native none none none) (cfg_gpu 1100) handle_one 300 0
      world0) = some
        [Call.nvmlDeviceGetApplicationsClock 0 nvmlClockType_t.NVML_CLOCK_MEM,
         Call.nvmlDeviceGetApplicationsClock 0 nvmlClockType_t.NVML_CLOCK_GRAPHICS,
         Call.nvmlDeviceGetDefaultApplicationsClock 0 nvmlClockType_t.NVML_CLOCK_MEM,
         Call.nvmlDeviceGetDefaultApplicationsClock 0 nvmlClockType_t.NVML_CLOCK_GRAPHICS,
         Call.nvmlDeviceGetSupportedMemoryClocks 0 0 false,
         Call.nvmlDeviceGetSupportedGraphicsClocks 0 3505 0 false,
         Call.nvmlDeviceSetApplicationsClocks 0 3505 1100] ∧
    (final (set_then_reset (clock_native none none none) (cfg_gpu 1100) handle_one 300 0
      world0)).map (fun w => (w.clock_prev 0, w.clock_prev_mem 0)) = some (0, 0) := by
  refine ⟨by decide, by decide, by decide⟩

/-- C10: the code breaks the claim.  After a successful `nvml_set_clocks` that
saved 3000/1500, `nvml_reset_clocks` returns `1` and clears `clock_prev`, but
`clock_prev_mem` still holds 3000. -/
theorem nvml_reset_clocks_keeps_clock_prev_mem :
    returned (set_then_reset (clock_native (some 3000) (some 1500) (some 1100)) (cfg_gpu 1100)
      handle_one 300 0 world0) = some (1, 1) ∧
    (final (set_then_reset (clock_native (some 3000) (some 1500) (some 1100)) (cfg_gpu 1100)
      handle_one 300 0 world0)).map (fun w => (w.clock_prev 0, w.clock_prev_mem 0))
      = some (0, 3000) ∧
    (calls (set_then_reset (clock_native (some 3000) (some 1500) (some 1100)) (cfg_gpu 1100)
      handle_one 300 0 world0)).map (fun l => l.filter is_reset_clocks)
      = some [Call.nvmlDeviceResetApplicationsClocks 0] := by
  refine ⟨by decide, by decide, by decide⟩

theorem set_limit_args_snoc (l : List Call) (n x : Nat) :
    set_limit_args (l ++ [Call.nvmlDeviceSetPowerManagementLimit n x]) =
      set_limit_args l ++ [x] := by
  simp [set_limit_args, List.filterMap_append]

theorem set_limit_args_reset (l : List Call) (n : Nat) :
    set_limit_args (l ++ [Call.nvmlDeviceResetApplicationsClocks n]) = set_limit_args l := by
  simp [set_limit_args, List.filterMap_append]

/-- One `nvml_reset_clocks` on a mapped device with a saved power limit. -/
theorem nvml_reset_clocks_limit_saved (N : Native) (nvmlh : nvml_handle) (dev_id n : Nat)
    (w : World)
    (hmap : nvmlh.cuda_nvml_device_id[dev_id]? = some (n : Int))
    (hn : (n : Int) < nvmlh.nvml_gpucount)
    (hl : w.limit_prev dev_id ≠ 0)
    (hset : nvmlh.caps.nvmlDeviceSetPowerManagementLimit = true)
    (hreset : nvmlh.caps.nvmlDeviceResetApplicationsClocks = true) :
    ∃ w2, nvml_reset_clocks N nvmlh dev_id w = Run.ret (1, w2) ∧
      w2.limit_prev = w.limit_prev ∧
      set_limit_args w2.log = set_limit_args w.log ++ [w.limit_prev dev_id] := by
  have hguard : ¬ ((n : Int) < 0 ∨ (n : Int) ≥ nvmlh.nvml_gpucount) := by omega
  unfold nvml_reset_clocks
  simp only [hmap, hguard, if_false, Int.toNat_ofNat]
  by_cases hc : w.clock_prev dev_id = 0
  · simp only [reset_app_clocks, hc, ne_eq, not_true_eq_false, if_false, Run.bind,
      reset_plimit, hl, not_false_eq_true, if_true, and_false, invoke, hset,
      NVML_SUCCESS]
    exact ⟨_, rfl, rfl, set_limit_args_snoc _ _ _⟩
  · simp only [reset_app_clocks, hc, ne_eq, not_false_eq_true, if_true, Run.bind,
      reset_plimit, hl, and_false, if_false, invoke, hset, hreset, NVML_SUCCESS]
    refine ⟨_, rfl, rfl, ?_⟩
    rw [set_limit_args_snoc, set_limit_args_reset]

/-- C11: the code breaks the claim.  After `nvml_set_plimit` saved the limit
200000 (applying 150000), the first `nvml_reset_clocks` re-applies 200000 but
leaves `limit_prev` at 200000 instead of clearing it, as line 399 does for
`clock_prev`; the second reset, with no change in between, returns `1` and
passes 200000 to the native set-limit call once more. -/
theorem nvml_reset_clocks_limit_not_cleared :
    returned (plimit_then_reset_twice (limits_native 100000 250000 200000) (cfg_plimit 150)
      handle_one 0 world0) = some (1, 1, 1) ∧
    (final (plimit_then_reset_twice (limits_native 100000 250000 200000) (cfg_plimit 150)
      handle_one 0 world0)).map (fun w => w.limit_prev 0) = some 200000 ∧
    (calls (plimit_then_reset_twice (limits_native 100000 250000 200000) (cfg_plimit 150)
      handle_one 0 world0)).map set_limit_args = some [150000, 200000, 200000] := by
  refine ⟨by decide, by decide, by decide⟩

/-- The missing clear of `limit_prev` shows on every mapped device with a saved
power limit and for every native library: two resets in a row both return `1`,
both pass the saved limit to the native set-limit call, and `limit_prev[dev]`
is left as it was. -/
theorem nvml_reset_clocks_keeps_limit (N : Native) (nvmlh : nvml_handle) (dev_id n : Nat)
    (w : World)
    (hmap : nvmlh.cuda_nvml_device_id[dev_id]? = some (n : Int))
    (hn : (n : Int) < nvmlh.nvml_gpucount)
    (hl : w.limit_prev dev_id ≠ 0)
    (hset : nvmlh.caps.nvmlDeviceSetPowerManagementLimit = true)
    (hreset : nvmlh.caps.nvmlDeviceResetApplicationsClocks = true) :
    returned (reset_twice N nvmlh dev_id w) = some (1, 1) ∧
    (final (reset_twice N nvmlh dev_id w)).map (fun w2 => w2.limit_prev dev_id)
      = some (w.limit_prev dev_id) ∧
    (calls (reset_twice N nvmlh dev_id w)).map set_limit_args
      = some (set_limit_args w.log ++ [w.limit_prev dev_id, w.limit_prev dev_id]) := by
  obtain ⟨w2, h2, l2, a2⟩ := nvml_reset_clocks_limit_saved N nvmlh dev_id n w hmap hn hl hset hreset
  have hl2 : w2.limit_prev dev_id ≠ 0 := by rw [l2]; exact hl
  obtain ⟨w3, h3, l3, a3⟩ :=
    nvml_reset_clocks_limit_saved N nvmlh dev_id n w2 hmap hn hl2 hset hreset
  have hrun : reset_twice N nvmlh dev_id w = Run.ret ((1, 1), w3) := by
    unfold reset_twice
    rw [h2]
    simp only [Run.bind]
    rw [h3]
  rw [hrun]
  refine ⟨rfl, ?_, ?_⟩
  · simp [final, l3, l2]
  · simp [calls, final, a3, a2, l2]

/-- Two resets in a row on `handle_one` with a saved limit of 200000. -/
theorem nvml_reset_clocks_keeps_limit_witness :
    returned (reset_twice quiet_native handle_one 0 world_limit_saved) = some (1, 1) ∧
    (calls (reset_twice quiet_native handle_one 0 world_limit_saved)).map set_limit_args
      = some [200000, 200000] :=
  ⟨(nvml_reset_clocks_keeps_limit quiet_native handle_one 0 0 world_limit_saved rfl
      (by decide) (by decide) rfl rfl).1,
   (nvml_reset_clocks_keeps_limit quiet_native handle_one 0 0 world_limit_saved rfl
      (by decide) (by decide) rfl rfl).2.2⟩

theorem apply_clocks_ret (N : Native) (caps : Caps) (dev_id n mc gc mp gp : Nat)
    (w w2 : World) (r : Int) (h : apply_clocks N caps dev_id n mc gc mp gp w = Run.ret (r, w2)) :
    r = 1 ∨ r = -1 := by
  unfold apply_clocks at h
  obtain ⟨p, _, h⟩ := (bind_eq_ret _ _ _).mp h
  split_ifs at h
  · left; exact (congrArg Prod.fst (Run.ret.inj h)).symm
  · obtain ⟨e, _, h⟩ := (bind_eq_ret _ _ _).mp h
    right; exact (congrArg Prod.fst (Run.ret.inj h)).symm

theorem set_clocks_body_ret (N : Native) (cfg : Config) (caps : Caps)
    (fuel dev_id n : Nat) (w w2 : World) (r : Int)
    (h : set_clocks_body N cfg caps fuel dev_id n w = Run.ret (r, w2)) :
    (r = -EINVAL ∧
      (N (default_query_log w dev_id n) (Call.nvmlDeviceGetDefaultApplicationsClock n
        nvmlClockType_t.NVML_CLOCK_GRAPHICS)).rc ≠ NVML_SUCCESS) ∨
    ((N (default_query_log w dev_id n) (Call.nvmlDeviceGetDefaultApplicationsClock n
        nvmlClockType_t.NVML_CLOCK_GRAPHICS)).rc = NVML_SUCCESS ∧ (r = 1 ∨ r = -1)) := by
  unfold set_clocks_body at h
  obtain ⟨a, ha1, h⟩ := (bind_eq_ret _ _ _).mp h
  obtain ⟨b, hb1, h⟩ := (bind_eq_ret _ _ _).mp h
  obtain ⟨dm, hdm, h⟩ := (bind_eq_ret _ _ _).mp h
  obtain ⟨dg, hdg, h⟩ := (bind_eq_ret _ _ _).mp h
  obtain ⟨_, a2, a3⟩ := read_prev_ret _ _ _ _ _ _ _ ha1
  obtain ⟨_, _, b3⟩ := read_prev_ret _ _ _ _ _ _ _ hb1
  obtain ⟨_, edm⟩ := (invoke_eq_ret _ _ _ _ _).mp hdm
  obtain ⟨_, edg⟩ := (invoke_eq_ret _ _ _ _ _).mp hdg
  have hlog : dm.2.log = default_query_log w dev_id n := by
    rw [edm]
    simp only [default_query_log]
    rw [b3, a2.1, a3]
  have hrc : dg.1 = N (default_query_log w dev_id n)
      (Call.nvmlDeviceGetDefaultApplicationsClock n nvmlClockType_t.NVML_CLOCK_GRAPHICS) := by
    rw [edg, hlog]
  rw [← hrc]
  by_cases hf : dg.1.rc ≠ NVML_SUCCESS
  · rw [if_pos hf] at h
    left
    exact ⟨(congrArg Prod.fst (Run.ret.inj h)).symm, hf⟩
  · rw [if_neg hf] at h
    dsimp only at h
    obtain ⟨m, _, h⟩ := (bind_eq_ret _ _ _).mp h
    obtain ⟨g, _, h⟩ := (bind_eq_ret _ _ _).mp h
    right
    exact ⟨not_not.mp hf, apply_clocks_ret _ _ _ _ _ _ _ _ _ _ _ h⟩

theorem set_clocks_body_einval (N : Native) (cfg : Config) (caps : Caps)
    (fuel dev_id n : Nat) (w : World)
    (hga : caps.nvmlDeviceGetApplicationsClock = true)
    (hgd : caps.nvmlDeviceGetDefaultApplicationsClock = true)
    (hrc : (N (default_query_log w dev_id n) (Call.nvmlDeviceGetDefaultApplicationsClock n
        nvmlClockType_t.NVML_CLOCK_GRAPHICS)).rc ≠ NVML_SUCCESS) :
    set_clocks_body N cfg caps fuel dev_id n w =
      Run.ret (-EINVAL, { w with log := default_query_log w dev_id n ++
        [Call.nvmlDeviceGetDefaultApplicationsClock n nvmlClockType_t.NVML_CLOCK_GRAPHICS] }) := by
  unfold set_clocks_body read_prev default_query_log at *
  by_cases hm : w.clock_prev_mem dev_id = 0 <;> by_cases hg : w.clock_prev dev_id = 0 <;>
    simp only [hm, hg, if_true, if_false, invoke, hga, hgd, Run.bind] at hrc ⊢ <;>
    rw [if_pos hrc]

/-- C12, as stated, fails for `-EPERM`: with the capability flag enabled, a
native apply call that fails makes `nvml_set_clocks` return `-1`, which is
`-EPERM`; the apply call was issued. -/
theorem nvml_set_clocks_eperm_with_flag_enabled :
    returned (nvml_set_clocks apply_fails_native (cfg_gpu 1100) handle_one 300 0 world0)
      = some (-EPERM) ∧
    handle_one.app_clocks[0]? = some nvmlEnableState_t.NVML_FEATURE_ENABLED ∧
    (calls (nvml_set_clocks apply_fails_native (cfg_gpu 1100) handle_one 300 0 world0)).map
      (fun l => l.filter is_set_clocks) = some [Call.nvmlDeviceSetApplicationsClocks 0 3505 1100] := by
  refine ⟨by decide, by decide, by decide⟩

/-- C12, amended: for a runtime index of the table the guards of
`nvml_set_clocks` are taken in this order.  It returns `-ENODEV` iff the index
maps to no management index in range; otherwise `0` iff both requests are zero;
otherwise, when the capability flag is not `NVML_FEATURE_ENABLED`, `-EPERM`
(the converse is not claimed: `-EPERM` is `-1`, the value of a failed apply);
otherwise `-EINVAL` iff the graphics-default query fails, whatever the
memory-default query answered.  In the first three cases the world is returned
as it was; in the fourth only queries were logged: no apply call is issued and
the saved arrays are unchanged. -/
theorem nvml_set_clocks_guard_order (N : Native) (cfg : Config) (nvmlh : nvml_handle)
    (fuel dev_id : Nat) (w : World) (z : Int)
    (hmap : nvmlh.cuda_nvml_device_id[dev_id]? = some z) :
    ((z < 0 ∨ z ≥ nvmlh.nvml_gpucount) →
      nvml_set_clocks N cfg nvmlh fuel dev_id w = Run.ret (-ENODEV, w)) ∧
    (returned (nvml_set_clocks N cfg nvmlh fuel dev_id w) = some (-ENODEV) →
      (z < 0 ∨ z ≥ nvmlh.nvml_gpucount)) ∧
    (¬ (z < 0 ∨ z ≥ nvmlh.nvml_gpucount) →
      ((cfg.device_gpu_clocks dev_id = 0 ∧ cfg.device_mem_clocks dev_id = 0) →
        nvml_set_clocks N cfg nvmlh fuel dev_id w = Run.ret (0, w)) ∧
      (returned (nvml_set_clocks N cfg nvmlh fuel dev_id w) = some 0 →
        (cfg.device_gpu_clocks dev_id = 0 ∧ cfg.device_mem_clocks dev_id = 0))) ∧
    (¬ (z < 0 ∨ z ≥ nvmlh.nvml_gpucount) →
      ¬ (cfg.device_gpu_clocks dev_id = 0 ∧ cfg.device_mem_clocks dev_id = 0) →
      ∀ flag, nvmlh.app_clocks[z.toNat]? = some flag →
        flag ≠ nvmlEnableState_t.NVML_FEATURE_ENABLED →
        nvml_set_clocks N cfg nvmlh fuel dev_id w = Run.ret (-EPERM, w)) ∧
    (¬ (z < 0 ∨ z ≥ nvmlh.nvml_gpucount) →
      ¬ (cfg.device_gpu_clocks dev_id = 0 ∧ cfg.device_mem_clocks dev_id = 0) →
      nvmlh.app_clocks[z.toNat]? = some nvmlEnableState_t.NVML_FEATURE_ENABLED →
      (nvmlh.caps.nvmlDeviceGetApplicationsClock = true →
        nvmlh.caps.nvmlDeviceGetDefaultApplicationsClock = true →
        (N (default_query_log w dev_id z.toNat) (Call.nvmlDeviceGetDefaultApplicationsClock
          z.toNat nvmlClockType_t.NVML_CLOCK_GRAPHICS)).rc ≠ NVML_SUCCESS →
        nvml_set_clocks N cfg nvmlh fuel dev_id w =
          Run.ret (-EINVAL, { w with log := default_query_log w dev_id z.toNat ++
            [Call.nvmlDeviceGetDefaultApplicationsClock z.toNat
              nvmlClockType_t.NVML_CLOCK_GRAPHICS] })) ∧
      (returned (nvml_set_clocks N cfg nvmlh fuel dev_id w) = some (-EINVAL) →
        (N (default_query_log w dev_id z.toNat) (Call.nvmlDeviceGetDefaultApplicationsClock
          z.toNat nvmlClockType_t.NVML_CLOCK_GRAPHICS)).rc ≠ NVML_SUCCESS) ∧
      (default_query_log w dev_id z.toNat ++ [Call.nvmlDeviceGetDefaultApplicationsClock
          z.toNat nvmlClockType_t.NVML_CLOCK_GRAPHICS]).filter is_set_clocks
        = w.log.filter is_set_clocks) := by
  have hvals : ¬ (z < 0 ∨ z ≥ nvmlh.nvml_gpucount) →
      ¬ (cfg.device_gpu_clocks dev_id = 0 ∧ cfg.device_mem_clocks dev_id = 0) →
      ∀ r, returned (nvml_set_clocks N cfg nvmlh fuel dev_id w) = some r →
        r = -EPERM ∨ r = 1 ∨
        (r = -EINVAL ∧ nvmlh.app_clocks[z.toNat]? = some nvmlEnableState_t.NVML_FEATURE_ENABLED ∧
          (N (default_query_log w dev_id z.toNat) (Call.nvmlDeviceGetDefaultApplicationsClock
            z.toNat nvmlClockType_t.NVML_CLOCK_GRAPHICS)).rc ≠ NVML_SUCCESS) := by
    intro hu hz r hr
    obtain ⟨w2, hw⟩ := returned_eq_some _ _ hr
    unfold nvml_set_clocks at hw
    rw [hmap] at hw
    dsimp only at hw
    rw [if_neg hu, if_neg hz] at hw
    cases ha : nvmlh.app_clocks[z.toNat]? with
    | none => rw [ha] at hw; exact absurd hw (by simp)
    | some flag =>
      rw [ha] at hw
      dsimp only at hw
      by_cases hf : flag ≠ nvmlEnableState_t.NVML_FEATURE_ENABLED
      · rw [if_pos hf] at hw
        left; exact (congrArg Prod.fst (Run.ret.inj hw)).symm
      · rw [if_neg hf] at hw
        rcases set_clocks_body_ret _ _ _ _ _ _ _ _ _ hw with ⟨h1, h2⟩ | ⟨_, h1 | h1⟩
        · right; right; exact ⟨h1, by rw [not_not.mp hf], h2⟩
        · right; left; exact h1
        · left; rw [h1]; rfl
  refine ⟨?_, ?_, ?_, ?_, ?_⟩
  · intro hu
    unfold nvml_set_clocks
    rw [hmap]
    dsimp only
    rw [if_pos hu]
  · intro hr
    by_contra hu
    by_cases hz : cfg.device_gpu_clocks dev_id = 0 ∧ cfg.device_mem_clocks dev_id = 0
    · have : nvml_set_clocks N cfg nvmlh fuel dev_id w = Run.ret (0, w) := by
        unfold nvml_set_clocks
        rw [hmap]
        dsimp only
        rw [if_neg hu, if_pos hz]
      rw [this] at hr
      have h0 : (0 : Int) = -ENODEV := Option.some.inj hr
      exact absurd h0 (by decide)
    · rcases hvals hu hz _ hr with h | h | ⟨h, _⟩ <;> exact absurd h (by decide)
  · intro hu
    constructor
    · intro hz
      unfold nvml_set_clocks
      rw [hmap]
      dsimp only
      rw [if_neg hu, if_pos hz]
    · intro hr
      by_contra hz
      rcases hvals hu hz _ hr with h | h | ⟨h, _⟩ <;> exact absurd h (by decide)
  · intro hu hz flag ha hf
    unfold nvml_set_clocks
    rw [hmap]
    dsimp only
    rw [if_neg hu, if_neg hz, ha]
    dsimp only
    rw [if_pos hf]
  · intro hu hz ha
    refine ⟨?_, ?_, ?_⟩
    · intro hga hgd hrc
      unfold nvml_set_clocks
      rw [hmap]
      dsimp only
      rw [if_neg hu, if_neg hz, ha]
      dsimp only
      rw [if_neg (by simp)]
      exact set_clocks_body_einval N cfg nvmlh.caps fuel dev_id z.toNat w hga hgd hrc
    · intro hr
      rcases hvals hu hz _ hr with h | h | ⟨_, _, h⟩
      · exact absurd h (by decide)
      · exact absurd h (by decide)
      · exact h
    · unfold default_query_log
      split_ifs <;> simp [List.filter_append, is_set_clocks]

/-- Witness of the amended C12: on `handle_restricted` (flag disabled) a
request of 1100 MHz is refused with `-EPERM` and nothing is called. -/
theorem nvml_set_clocks_guard_order_witness :
    nvml_create host_restricted = some handle_restricted ∧
    handle_restricted.cuda_nvml_device_id[0]? = some 0 ∧
    nvml_set_clocks quiet_native (cfg_gpu 1100) handle_restricted 300 0 world0
      = Run.ret (-EPERM, world0) :=
  ⟨by decide, rfl,
    (nvml_set_clocks_guard_order quiet_native (cfg_gpu 1100) handle_restricted 300 0 world0 0
      rfl).2.2.2.1 (by decide) (by decide) nvmlEnableState_t.NVML_FEATURE_DISABLED rfl
      (by decide)⟩

theorem accessor_contract_of (nvmlh : nvml_handle) (gpuindex : Int) (present : Bool)
    (reply : Reply) (w : World) (run : Run (Int × World))
    (h1 : (gpuindex < 0 ∨ gpuindex ≥ nvmlh.nvml_gpucount) → run = Run.ret (-ENODEV, w))
    (h2 : ¬ (gpuindex < 0 ∨ gpuindex ≥ nvmlh.nvml_gpucount) → present = false →
      run = Run.ret (-ENOSYS, w))
    (h3 : ¬ (gpuindex < 0 ∨ gpuindex ≥ nvmlh.nvml_gpucount) → present = true →
      reply.rc ≠ NVML_SUCCESS → ∃ w2, run = Run.ret (-1, w2))
    (h4 : ¬ (gpuindex < 0 ∨ gpuindex ≥ nvmlh.nvml_gpucount) → present = true →
      reply.rc = NVML_SUCCESS → ∃ w2, run = Run.ret (0, w2)) :
    accessor_contract nvmlh gpuindex present reply w run := by
  have key : ∀ r, returned run = some r →
      (r = -ENODEV ∧ (gpuindex < 0 ∨ gpuindex ≥ nvmlh.nvml_gpucount)) ∨
      (r = -ENOSYS ∧ ¬ (gpuindex < 0 ∨ gpuindex ≥ nvmlh.nvml_gpucount) ∧ present = false) ∨
      (r = -1 ∧ ¬ (gpuindex < 0 ∨ gpuindex ≥ nvmlh.nvml_gpucount) ∧ present = true ∧
        reply.rc ≠ NVML_SUCCESS) ∨
      (r = 0 ∧ ¬ (gpuindex < 0 ∨ gpuindex ≥ nvmlh.nvml_gpucount) ∧ present = true ∧
        reply.rc = NVML_SUCCESS) := by
    intro r hr
    by_cases hu : gpuindex < 0 ∨ gpuindex ≥ nvmlh.nvml_gpucount
    · rw [h1 hu] at hr
      left; exact ⟨(Option.some.inj hr).symm, hu⟩
    · cases hp : present with
      | false =>
        rw [h2 hu hp] at hr
        right; left; exact ⟨(Option.some.inj hr).symm, hu, rfl⟩
      | true =>
        by_cases hrc : reply.rc = NVML_SUCCESS
        · obtain ⟨w2, hw⟩ := h4 hu hp hrc
          rw [hw] at hr
          right; right; right; exact ⟨(Option.some.inj hr).symm, hu, rfl, hrc⟩
        · obtain ⟨w2, hw⟩ := h3 hu hp hrc
          rw [hw] at hr
          right; right; left; exact ⟨(Option.some.inj hr).symm, hu, rfl, hrc⟩
  refine ⟨⟨?_, fun hu => by rw [h1 hu]; rfl⟩, h1, ?_, ?_⟩
  · intro hr
    rcases key _ hr with ⟨_, h⟩ | ⟨h, _⟩ | ⟨h, _⟩ | ⟨h, _⟩
    · exact h
    · exact absurd h (by decide)
    · exact absurd h (by decide)
    · exact absurd h (by decide)
  · intro hu
    refine ⟨⟨?_, fun hp => by rw [h2 hu hp]; rfl⟩, h2 hu⟩
    intro hr
    rcases key _ hr with ⟨h, _⟩ | ⟨_, _, h⟩ | ⟨h, _⟩ | ⟨h, _⟩
    · exact absurd h (by decide)
    · exact h
    · exact absurd h (by decide)
    · exact absurd h (by decide)
  · intro hu hp
    constructor
    · constructor
      · intro hr
        rcases key _ hr with ⟨h, _⟩ | ⟨h, _⟩ | ⟨_, _, _, h⟩ | ⟨h, _⟩
        · exact absurd h (by decide)
        · exact absurd h (by decide)
        · exact h
        · exact absurd h (by decide)
      · intro hrc
        obtain ⟨w2, hw⟩ := h3 hu hp hrc
        rw [hw]; rfl
    · constructor
      · intro hr
        rcases key _ hr with ⟨h, _⟩ | ⟨h, _⟩ | ⟨h, _⟩ | ⟨_, _, _, h⟩
        · exact absurd h (by decide)
        · exact absurd h (by decide)
        · exact absurd h (by decide)
        · exact h
      · intro hrc
        obtain ⟨w2, hw⟩ := h4 hu hp hrc
        rw [hw]; rfl

theorem nvml_get_gpu_name_contract (N : Native) (bufsize : Int) (nvmlh : nvml_handle) (cudaindex : Nat) (w : World)
    (gpuindex : Int) (hmap : nvmlh.cuda_nvml_device_id[cudaindex]? = some gpuindex) :
    accessor_contract nvmlh gpuindex nvmlh.caps.nvmlDeviceGetName
      (N w.log (Call.nvmlDeviceGetName gpuindex.toNat bufsize)) w
      (nvml_get_gpu_name N nvmlh cudaindex bufsize w) := by
  apply accessor_contract_of
  · intro hu
    unfold nvml_get_gpu_name
    rw [hmap]
    dsimp only
    rw [if_pos hu]
  · intro hu hp
    unfold nvml_get_gpu_name
    rw [hmap]
    dsimp only
    rw [if_neg hu, hp]
    rfl
  · intro hu hp hrc
    unfold nvml_get_gpu_name
    rw [hmap]
    dsimp only
    rw [if_neg hu, hp]
    simp [invoke, Run.bind, hrc]
  · intro hu hp hrc
    unfold nvml_get_gpu_name
    rw [hmap]
    dsimp only
    rw [if_neg hu, hp]
    simp [invoke, Run.bind, hrc]

theorem nvml_get_tempC_contract (N : Native) (nvmlh : nvml_handle) (cudaindex : Nat) (w : World)
    (gpuindex : Int) (hmap : nvmlh.cuda_nvml_device_id[cudaindex]? = some gpuindex) :
    accessor_contract nvmlh gpuindex nvmlh.caps.nvmlDeviceGetTemperature
      (N w.log (Call.nvmlDeviceGetTemperature gpuindex.toNat)) w
      (nvml_get_tempC N nvmlh cudaindex w) := by
  apply accessor_contract_of
  · intro hu
    unfold nvml_get_tempC
    rw [hmap]
    dsimp only
    rw [if_pos hu]
  · intro hu hp
    unfold nvml_get_tempC
    rw [hmap]
    dsimp only
    rw [if_neg hu, hp]
    rfl
  · intro hu hp hrc
    unfold nvml_get_tempC
    rw [hmap]
    dsimp only
    rw [if_neg hu, hp]
    simp [invoke, Run.bind, hrc]
  · intro hu hp hrc
    unfold nvml_get_tempC
    rw [hmap]
    dsimp only
    rw [if_neg hu, hp]
    simp [invoke, Run.bind, hrc]

theorem nvml_get_fanpcnt_contract (N : Native) (nvmlh : nvml_handle) (cudaindex : Nat) (w : World)
    (gpuindex : Int) (hmap : nvmlh.cuda_nvml_device_id[cudaindex]? = some gpuindex) :
    accessor_contract nvmlh gpuindex nvmlh.caps.nvmlDeviceGetFanSpeed
      (N w.log (Call.nvmlDeviceGetFanSpeed gpuindex.toNat)) w
      (nvml_get_fanpcnt N nvmlh cudaindex w) := by
  apply accessor_contract_of
  · intro hu
    unfold nvml_get_fanpcnt
    rw [hmap]
    dsimp only
    rw [if_pos hu]
  · intro hu hp
    unfold nvml_get_fanpcnt
    rw [hmap]
    dsimp only
    rw [if_neg hu, hp]
    rfl
  · intro hu hp hrc
    unfold nvml_get_fanpcnt
    rw [hmap]
    dsimp only
    rw [if_neg hu, hp]
    simp [invoke, Run.bind, hrc]
  · intro hu hp hrc
    unfold nvml_get_fanpcnt
    rw [hmap]
    dsimp only
    rw [if_neg hu, hp]
    simp [invoke, Run.bind, hrc]

theorem nvml_get_power_usage_contract (N : Native) (nvmlh : nvml_handle) (cudaindex : Nat) (w : World)
    (gpuindex : Int) (hmap : nvmlh.cuda_nvml_device_id[cudaindex]? = some gpuindex) :
    accessor_contract nvmlh gpuindex nvmlh.caps.nvmlDeviceGetPowerUsage
      (N w.log (Call.nvmlDeviceGetPowerUsage gpuindex.toNat)) w
      (nvml_get_power_usage N nvmlh cudaindex w) := by
  apply accessor_contract_of
  · intro hu
    unfold nvml_get_power_usage
    rw [hmap]
    dsimp only
    rw [if_pos hu]
  · intro hu hp
    unfold nvml_get_power_usage
    rw [hmap]
    dsimp only
    rw [if_neg hu, hp]
    rfl
  · intro hu hp hrc
    unfold nvml_get_power_usage
    rw [hmap]
    dsimp only
    rw [if_neg hu, hp]
    simp [invoke, Run.bind, hrc]
  · intro hu hp hrc
    unfold nvml_get_power_usage
    rw [hmap]
    dsimp only
    rw [if_neg hu, hp]
    simp [invoke, Run.bind, hrc]

theorem nvml_get_pstate_contract (N : Native) (nvmlh : nvml_handle) (cudaindex : Nat) (w : World)
    (gpuindex : Int) (hmap : nvmlh.cuda_nvml_device_id[cudaindex]? = some gpuindex) :
    accessor_contract nvmlh gpuindex nvmlh.caps.nvmlDeviceGetPerformanceState
      (N w.log (Call.nvmlDeviceGetPerformanceState gpuindex.toNat)) w
      (nvml_get_pstate N nvmlh cudaindex w) := by
  apply accessor_contract_of
  · intro hu
    unfold nvml_get_pstate
    rw [hmap]
    dsimp only
    rw [if_pos hu]
  · intro hu hp
    unfold nvml_get_pstate
    rw [hmap]
    dsimp only
    rw [if_neg hu, hp]
    rfl
  · intro hu hp hrc
    unfold nvml_get_pstate
    rw [hmap]
    dsimp only
    rw [if_neg hu, hp]
    simp [invoke, Run.bind, hrc]
  · intro hu hp hrc
    unfold nvml_get_pstate
    rw [hmap]
    dsimp only
    rw [if_neg hu, hp]
    simp [invoke, Run.bind, hrc]

theorem nvml_get_bios_contract (N : Native) (cfg : Config) (maxlen : Int) (nvmlh : nvml_handle) (cudaindex : Nat) (w : World)
    (gpuindex : Int) (hmap : nvmlh.cuda_nvml_device_id[cudaindex]? = some gpuindex)
    (herr : nvmlh.caps.nvmlErrorString = true) :
    accessor_contract nvmlh gpuindex nvmlh.caps.nvmlDeviceGetVbiosVersion
      (N w.log (Call.nvmlDeviceGetVbiosVersion gpuindex.toNat maxlen)) w
      (nvml_get_bios N cfg nvmlh cudaindex maxlen w) := by
  apply accessor_contract_of
  · intro hu
    unfold nvml_get_bios
    rw [hmap]
    dsimp only
    rw [if_pos hu]
  · intro hu hp
    unfold nvml_get_bios
    rw [hmap]
    dsimp only
    rw [if_neg hu, hp]
    rfl
  · intro hu hp hrc
    unfold nvml_get_bios
    rw [hmap]
    dsimp only
    rw [if_neg hu, hp]
    by_cases hd : cfg.opt_debug = true <;> simp [invoke, Run.bind, hrc, hd, herr]
  · intro hu hp hrc
    unfold nvml_get_bios
    rw [hmap]
    dsimp only
    rw [if_neg hu, hp]
    simp [invoke, Run.bind, hrc]

/-- C13: each telemetry accessor (`nvml_get_tempC`, `nvml_get_fanpcnt`,
`nvml_get_power_usage`, `nvml_get_pstate`, `nvml_get_bios`,
`nvml_get_gpu_name`), called for a runtime index of the table on a handle with
the required `nvmlErrorString`, returns `-ENODEV` iff the index has no
management index in range; otherwise `-ENOSYS` iff its capability is absent,
without any native call; otherwise `-1` iff the native read reports
non-success; otherwise `0`.  The three failure codes are pairwise distinct. -/
theorem telemetry_accessors_outcomes (N : Native) (cfg : Config) (nvmlh : nvml_handle)
    (cudaindex : Nat) (w : World) (gpuindex : Int) (bufsize maxlen : Int)
    (hmap : nvmlh.cuda_nvml_device_id[cudaindex]? = some gpuindex)
    (herr : nvmlh.caps.nvmlErrorString = true) :
    accessor_contract nvmlh gpuindex nvmlh.caps.nvmlDeviceGetTemperature
      (N w.log (Call.nvmlDeviceGetTemperature gpuindex.toNat)) w
      (nvml_get_tempC N nvmlh cudaindex w) ∧
    accessor_contract nvmlh gpuindex nvmlh.caps.nvmlDeviceGetFanSpeed
      (N w.log (Call.nvmlDeviceGetFanSpeed gpuindex.toNat)) w
      (nvml_get_fanpcnt N nvmlh cudaindex w) ∧
    accessor_contract nvmlh gpuindex nvmlh.caps.nvmlDeviceGetPowerUsage
      (N w.log (Call.nvmlDeviceGetPowerUsage gpuindex.toNat)) w
      (nvml_get_power_usage N nvmlh cudaindex w) ∧
    accessor_contract nvmlh gpuindex nvmlh.caps.nvmlDeviceGetPerformanceState
      (N w.log (Call.nvmlDeviceGetPerformanceState gpuindex.toNat)) w
      (nvml_get_pstate N nvmlh cudaindex w) ∧
    accessor_contract nvmlh gpuindex nvmlh.caps.nvmlDeviceGetVbiosVersion
      (N w.log (Call.nvmlDeviceGetVbiosVersion gpuindex.toNat maxlen)) w
      (nvml_get_bios N cfg nvmlh cudaindex maxlen w) ∧
    accessor_contract nvmlh gpuindex nvmlh.caps.nvmlDeviceGetName
      (N w.log (Call.nvmlDeviceGetName gpuindex.toNat bufsize)) w
      (nvml_get_gpu_name N nvmlh cudaindex bufsize w) ∧
    -ENODEV ≠ -ENOSYS ∧ -ENODEV ≠ (-1 : Int) ∧ -ENOSYS ≠ (-1 : Int) :=
  ⟨nvml_get_tempC_contract N nvmlh cudaindex w gpuindex hmap,
   nvml_get_fanpcnt_contract N nvmlh cudaindex w gpuindex hmap,
   nvml_get_power_usage_contract N nvmlh cudaindex w gpuindex hmap,
   nvml_get_pstate_contract N nvmlh cudaindex w gpuindex hmap,
   nvml_get_bios_contract N cfg maxlen nvmlh cudaindex w gpuindex hmap herr,
   nvml_get_gpu_name_contract N bufsize nvmlh cudaindex w gpuindex hmap,
   by decide, by decide, by decide⟩

/-- Witness of C13 on the mapped device `0` of `handle_one`: the temperature
read of a library that refuses every call returns `-1`. -/
theorem telemetry_accessors_outcomes_witness :
    handle_one.cuda_nvml_device_id[0]? = some 0 ∧
    handle_one.caps.nvmlErrorString = true ∧
    returned (nvml_get_tempC refusing_native handle_one 0 world0) = some (-1) :=
  ⟨rfl, rfl,
    (((telemetry_accessors_outcomes refusing_native cfg_none handle_one 0 world0 0 32 32 rfl
      rfl).1).2.2.2 (by decide) rfl).1.mpr (by decide)⟩

/-- C14, as stated, fails: for the vendor id `0x10DE`, which is not in the
table, a buffer that held `"XYZ"` still holds `"XYZ"` after the call, not the
empty string; the return value is `0`. -/
theorem translate_vendor_id_unknown_keeps_buffer :
    (∀ e ∈ vendors, e.1 ≠ 0x10DE) ∧
    translate_vendor_id 0x10DE (some "XYZ") = (0, some "XYZ") ∧
    (translate_vendor_id 0x10DE (some "XYZ")).2 ≠ some "" := by
  refine ⟨by decide, by decide, by decide⟩

/-- C14, amended: `translate_vendor_id` with vendor id `0x1462` yields the name
`"MSI"`; for every vendor id that is not in the table the output buffer is left
as it was (so the name is empty exactly when the buffer was) and `0`, not a
negative value, is returned. -/
theorem translate_vendor_id_lookup (vid : Nat) (buf : String)
    (hnot : ∀ e ∈ vendors, e.1 ≠ vid) :
    translate_vendor_id 0x1462 (some buf) = (0x1462, some "MSI") ∧
    translate_vendor_id vid (some buf) = (0, some buf) := by
  constructor
  · rfl
  · have hf : vendors.find? (fun e => e.1 == vid) = none := by
      rw [List.find?_eq_none]
      intro e he
      simpa using hnot e he
    simp [translate_vendor_id, hf]

/-- Witness of the amended C14: the id `0x10DE` with an empty buffer. -/
theorem translate_vendor_id_lookup_witness :
    (∀ e ∈ vendors, e.1 ≠ 0x10DE) ∧
    translate_vendor_id 0x10DE (some "") = (0, some "") :=
  ⟨by decide, (translate_vendor_id_lookup 0x10DE "" (by decide)).2⟩

/-- C15: given that the management library loads, `nvml_create` returns a handle
iff the seven required capabilities (init, shutdown, error-to-string,
device-count, handle-by-index, pci-info, device-name) are all present and the
runtime device-count query succeeds; then the handle carries both device counts
as they were obtained, equal or not, and nothing else is asked of the
capability table: optional capabilities and the two counts never make
construction fail. -/
theorem nvml_create_succeeds_iff (host : Host) (hdll : host.dll = true) :
    ((nvml_create host).isSome = true ↔
      (host.caps.nvmlInit = true ∧ host.caps.nvmlShutdown = true ∧
        host.caps.nvmlErrorString = true ∧ host.caps.nvmlDeviceGetCount = true ∧
        host.caps.nvmlDeviceGetHandleByIndex = true ∧ host.caps.nvmlDeviceGetPciInfo = true ∧
        host.caps.nvmlDeviceGetName = true) ∧ host.cuda.isSome = true) ∧
    (∀ cuda, host.cuda = some cuda → required_caps host.caps = true →
      ∃ h, nvml_create host = some h ∧ h.nvml_gpucount = (host.nvml.length : Int) ∧
        h.cuda_gpucount = (cuda.length : Int) ∧ h.caps = host.caps) := by
  have hreq : required_caps host.caps = true ↔
      (host.caps.nvmlInit = true ∧ host.caps.nvmlShutdown = true ∧
        host.caps.nvmlErrorString = true ∧ host.caps.nvmlDeviceGetCount = true ∧
        host.caps.nvmlDeviceGetHandleByIndex = true ∧ host.caps.nvmlDeviceGetPciInfo = true ∧
        host.caps.nvmlDeviceGetName = true) := by
    simp only [required_caps, Bool.and_eq_true]
    tauto
  constructor
  · rw [← hreq]
    unfold nvml_create
    cases hr : required_caps host.caps <;> cases hc : host.cuda <;> simp [hdll]
  · intro cuda hc hr
    unfold nvml_create
    simp only [hdll, hr, hc, Bool.not_true, Bool.false_eq_true, if_false]
    exact ⟨_, rfl, rfl, rfl, rfl⟩

/-- Witness of C15 on `host_minimal`: construction succeeds. -/
theorem nvml_create_succeeds_iff_witness :
    host_minimal.dll = true ∧ (nvml_create host_minimal).isSome = true :=
  ⟨rfl, (nvml_create_succeeds_iff host_minimal rfl).1.mpr (by decide)⟩

theorem scan_pstate_hit (clocks : List Nat) (nclocks p clk c : Nat) (hp : p < nclocks)
    (h255 : p ≤ 255) (hc : clocks[p]? = some c) :
    ∀ fuel u, u ≤ p → p - u < fuel →
      scan_pstate clocks nclocks (p : Int) clk fuel u = Run.ret c := by
  intro fuel
  induction fuel with
  | zero => intro u _ h; omega
  | succ fuel ih =>
    intro u hu hf
    unfold scan_pstate
    have hlt : u < nclocks := by omega
    rw [if_pos hlt]
    by_cases he : u = p
    · subst he
      simp [hc]
    · have hne : ¬ ((u : Int) = (p : Int)) := by omega
      rw [if_neg hne, Nat.mod_eq_of_lt (by omega)]
      exact ih (u + 1) (by omega) (by omega)

theorem store_take_getElem? (T : List Nat) (p : Nat) (hp : p < min T.length 32) :
    ∃ buf, store 32 (T.take 32) = some buf ∧ buf[p]? = some (T.getD p 0) := by
  have hlen : (T.take 32).length ≤ 32 := by rw [List.length_take]; omega
  refine ⟨T.take 32 ++ List.replicate (32 - (T.take 32).length) 0,
    by simp only [store, hlen, if_true], ?_⟩
  have hp2 : p < (T.take 32).length := by rw [List.length_take]; omega
  have hpT : p < T.length := by omega
  have h32 : p < 32 := by omega
  rw [List.getElem?_append_left hp2, List.getElem?_take, if_pos h32]
  simp [List.getD, List.getElem?_eq_getElem hpT]

/-- When the array query of line 455 stores the first `min(n, 32)` entries of
the memory-clock table `T` and leaves the count at `min(n, 32)` (as every
library does for `n <= 32`), then in `nvml_set_pstate`, for a mapped, permitted
device whose graphics-default query succeeds and every requested pstate ordinal
`p` with `0 <= p < min(n, 32)`, the memory clock passed to the one native apply
call is `T[p]`; and when the graphics table `G` for that memory clock is
non-empty and read successfully, the graphics clock applied is its first entry,
whatever clocks were requested, which for a descending table is its maximum. -/
theorem nvml_set_pstate_applies_table_entry (N : Native) (cfg : Config) (nvmlh : nvml_handle)
    (fuel dev_id n p : Nat) (w : World) (T G : List Nat)
    (hmap : nvmlh.cuda_nvml_device_id[dev_id]? = some (n : Int))
    (hn : (n : Int) < nvmlh.nvml_gpucount)
    (hps : cfg.device_pstate dev_id = (p : Int))
    (hpT : p < min T.length 32)
    (hflag : nvmlh.app_clocks[n]? = some nvmlEnableState_t.NVML_FEATURE_ENABLED)
    (hcd : nvmlh.caps.nvmlDeviceGetDefaultApplicationsClock = true)
    (hcm : nvmlh.caps.nvmlDeviceGetSupportedMemoryClocks = true)
    (hcg : nvmlh.caps.nvmlDeviceGetSupportedGraphicsClocks = true)
    (hcs : nvmlh.caps.nvmlDeviceSetApplicationsClocks = true)
    (hce : nvmlh.caps.nvmlErrorString = true)
    (hgd : (N (w.log ++ [Call.nvmlDeviceGetDefaultApplicationsClock n
        nvmlClockType_t.NVML_CLOCK_MEM])
      (Call.nvmlDeviceGetDefaultApplicationsClock n nvmlClockType_t.NVML_CLOCK_GRAPHICS)).rc
        = NVML_SUCCESS)
    (hcount : (N (w.log ++ [Call.nvmlDeviceGetDefaultApplicationsClock n
          nvmlClockType_t.NVML_CLOCK_MEM] ++
        [Call.nvmlDeviceGetDefaultApplicationsClock n nvmlClockType_t.NVML_CLOCK_GRAPHICS])
      (Call.nvmlDeviceGetSupportedMemoryClocks n 0 false)).out = some T.length)
    (hfill : (N (w.log ++ [Call.nvmlDeviceGetDefaultApplicationsClock n
          nvmlClockType_t.NVML_CLOCK_MEM] ++
        [Call.nvmlDeviceGetDefaultApplicationsClock n nvmlClockType_t.NVML_CLOCK_GRAPHICS] ++
        [Call.nvmlDeviceGetSupportedMemoryClocks n 0 false])
      (Call.nvmlDeviceGetSupportedMemoryClocks n (min T.length 32) true)).data = T.take 32)
    (hkeep : ((N (w.log ++ [Call.nvmlDeviceGetDefaultApplicationsClock n
          nvmlClockType_t.NVML_CLOCK_MEM] ++
        [Call.nvmlDeviceGetDefaultApplicationsClock n nvmlClockType_t.NVML_CLOCK_GRAPHICS] ++
        [Call.nvmlDeviceGetSupportedMemoryClocks n 0 false])
      (Call.nvmlDeviceGetSupportedMemoryClocks n (min T.length 32) true)).out).getD
        (min T.length 32) = min T.length 32)
    (hG : G ≠ [])
    (hgcount : (N (w.log ++ [Call.nvmlDeviceGetDefaultApplicationsClock n
          nvmlClockType_t.NVML_CLOCK_MEM] ++
        [Call.nvmlDeviceGetDefaultApplicationsClock n nvmlClockType_t.NVML_CLOCK_GRAPHICS] ++
        [Call.nvmlDeviceGetSupportedMemoryClocks n 0 false] ++
        [Call.nvmlDeviceGetSupportedMemoryClocks n (min T.length 32) true])
      (Call.nvmlDeviceGetSupportedGraphicsClocks n (T.getD p 0) 0 false)).out = some G.length)
    (hgrc : (N (w.log ++ [Call.nvmlDeviceGetDefaultApplicationsClock n
          nvmlClockType_t.NVML_CLOCK_MEM] ++
        [Call.nvmlDeviceGetDefaultApplicationsClock n nvmlClockType_t.NVML_CLOCK_GRAPHICS] ++
        [Call.nvmlDeviceGetSupportedMemoryClocks n 0 false] ++
        [Call.nvmlDeviceGetSupportedMemoryClocks n (min T.length 32) true] ++
        [Call.nvmlDeviceGetSupportedGraphicsClocks n (T.getD p 0) 0 false])
      (Call.nvmlDeviceGetSupportedGraphicsClocks n (T.getD p 0) G.length true)).rc
        = NVML_SUCCESS)
    (hgfill : (N (w.log ++ [Call.nvmlDeviceGetDefaultApplicationsClock n
          nvmlClockType_t.NVML_CLOCK_MEM] ++
        [Call.nvmlDeviceGetDefaultApplicationsClock n nvmlClockType_t.NVML_CLOCK_GRAPHICS] ++
        [Call.nvmlDeviceGetSupportedMemoryClocks n 0 false] ++
        [Call.nvmlDeviceGetSupportedMemoryClocks n (min T.length 32) true] ++
        [Call.nvmlDeviceGetSupportedGraphicsClocks n (T.getD p 0) 0 false])
      (Call.nvmlDeviceGetSupportedGraphicsClocks n (T.getD p 0) G.length true)).data = G)
    (hfuel : p < fuel) :
    (calls (nvml_set_pstate N cfg nvmlh fuel dev_id w)).map (fun l => l.filter is_set_clocks)
      = some (w.log.filter is_set_clocks ++
          [Call.nvmlDeviceSetApplicationsClocks n (T.getD p 0) (G.headD 0)]) ∧
    (G.Pairwise (fun a b => b ≤ a) → ∀ g ∈ G, g ≤ G.headD 0) := by
  constructor
  · have hguard : ¬ ((n : Int) < 0 ∨ (n : Int) ≥ nvmlh.nvml_gpucount) := by omega
    have hps0 : ¬ ((p : Int) < 0) := by omega
    obtain ⟨buf, hbuf, hbp⟩ := store_take_getElem? T p hpT
    have hmin0 : min T.length 32 ≠ 0 := by omega
    have hscan := scan_pstate_hit buf (min T.length 32) p
      (if cfg.device_mem_clocks dev_id ≠ 0 then cfg.device_mem_clocks dev_id
        else (N w.log (Call.nvmlDeviceGetDefaultApplicationsClock n
          nvmlClockType_t.NVML_CLOCK_MEM)).out.getD 0)
      (T.getD p 0) hpT (by omega) hbp fuel 0 (Nat.zero_le _) (by omega)
    obtain ⟨g0, grest, hGc⟩ : ∃ g0 grest, G = g0 :: grest := by
      cases G with
      | nil => exact absurd rfl hG
      | cons a r => exact ⟨a, r, rfl⟩
    have hGlen : G.length ≠ 0 := by rw [hGc]; simp
    have hstoreG : store (G.length + 1) G = some (G ++ List.replicate (G.length + 1 - G.length) 0) := by
      simp [store]
    unfold nvml_set_pstate
    simp only [hmap, hguard, if_false, hps, hps0, Int.toNat_ofNat, hflag, ne_eq,
      not_true_eq_false, invoke, hcd, if_true, Run.bind, hgd, pstate_mem_clk, hcm, hcount,
      Option.getD_some, hmin0, not_false_eq_true, hfill, hbuf, hkeep, hscan, pstate_gpu_clk,
      hcg, hgcount, hGlen, hgrc, hgfill, hstoreG, hcs, hce]
    rw [hGc]
    simp only [List.cons_append, List.getElem?_cons_zero]
    split_ifs <;> simp [calls, final, List.filter_append, is_set_clocks]
  · intro hd g hg
    cases G with
    | nil => exact absurd rfl hG
    | cons a r =>
      simp only [List.headD_cons]
      rcases List.mem_cons.mp hg with h | h
      · exact Nat.le_of_eq h
      · exact (List.pairwise_cons.mp hd).1 g h

/-- Memory clocks `[3505, 3004, 810, 405]`, graphics clocks
`[1500, 1400, 1300]`, pstate `1` and a requested graphics clock of 1100: the
clocks applied are 3004/1500. -/
theorem nvml_set_pstate_applies_table_entry_witness :
    (calls (nvml_set_pstate (tables_native [3505, 3004, 810, 405] [1500, 1400, 1300])
      (cfg_pstate 1 1100) handle_one 300 0 world0)).map (fun l => l.filter is_set_clocks)
      = some [Call.nvmlDeviceSetApplicationsClocks 0 3004 1500] :=
  (nvml_set_pstate_applies_table_entry (tables_native [3505, 3004, 810, 405] [1500, 1400, 1300])
    (cfg_pstate 1 1100) handle_one 300 0 0 1 world0 [3505, 3004, 810, 405] [1500, 1400, 1300]
    rfl (by decide) rfl (by decide) rfl rfl rfl rfl rfl rfl rfl rfl rfl rfl (by decide)
    rfl rfl rfl (by decide)).1

/-- C16: the code breaks the claim.  With the 33 supported memory clocks
`mem_table33` the count is capped to 32 (line 453) and the library answers the
query with the 32-entry array (line 455) with "insufficient size", storing
nothing and reporting 33; the result is not tested, so for pstate `1` the loop
of lines 459-465 takes `mem_clocks[1] = 0` and the memory clock passed to the
native apply call is 0, not entry 1 of the table, 1999.  With the first 32
entries of the same table as the supported clocks, 1999 is applied. -/
theorem nvml_set_pstate_refused_table_applies_zero :
    mem_table33.length = 33 ∧ mem_table33[1]? = some 1999 ∧
    1 < min mem_table33.length 32 ∧
    (calls (nvml_set_pstate (table_native mem_table33) (cfg_pstate 1 0) handle_one 300 0
      world0)).map (fun l => l.filter is_set_clocks)
      = some [Call.nvmlDeviceSetApplicationsClocks 0 0 0] ∧
    returned (nvml_set_pstate (table_native mem_table33) (cfg_pstate 1 0) handle_one 300 0
      world0) = some 1 ∧
    (calls (nvml_set_pstate (table_native (mem_table33.take 32)) (cfg_pstate 1 0) handle_one
      300 0 world0)).map (fun l => l.filter is_set_clocks)
      = some [Call.nvmlDeviceSetApplicationsClocks 0 1999 0] := by
  refine ⟨by decide, by decide, by decide, by decide, by decide, by decide⟩

/-- C17, as stated, fails.  First, the pseudo-serial is also produced when the
direct query is present but fails: with the UUID `GPU-f2bd` (bytes 71 80 85 45
102 50 98 100) the serial written is `f2bd`, after both native calls.  Second,
for an empty UUID string nothing is copied: a buffer that held `AB` (65 66)
still holds it. -/
theorem nvml_get_serial_fallback_after_failed_query :
    handle_one.caps.nvmlDeviceGetSerial = true ∧
    (returned (nvml_get_serial (uuid_native [71, 80, 85, 45, 102, 50, 98, 100]) cfg_none 80
      handle_one 0 [0, 0, 0, 0, 0, 0, 0, 0] 8 world0)).map (fun r => (r.1, cstr r.2))
      = some (0, [102, 50, 98, 100]) ∧
    calls (nvml_get_serial (uuid_native [71, 80, 85, 45, 102, 50, 98, 100]) cfg_none 80
      handle_one 0 [0, 0, 0, 0, 0, 0, 0, 0] 8 world0)
      = some [Call.nvmlDeviceGetSerial 0 8, Call.nvmlDeviceGetUUID 0 79] ∧
    (returned (nvml_get_serial (uuid_native []) cfg_none 80 handle_no_serial 0
      [65, 66, 0, 0] 4 world0)).map (fun r => (r.1, cstr r.2)) = some (0, [65, 66]) := by
  refine ⟨rfl, by decide, by decide, by decide⟩

theorem cstr_append_zero (a rest : List Nat) (ha : ∀ b ∈ a, b ≠ 0) :
    cstr (a ++ 0 :: rest) = a := by
  induction a with
  | nil => simp [cstr]
  | cons x r ih =>
    have hx : x ≠ 0 := ha x (List.mem_cons_self x r)
    have := ih (fun b hb => ha b (List.mem_cons_of_mem x hb))
    simp only [cstr] at this ⊢
    simp [List.takeWhile_cons, hx, this]

theorem cstr_zeros (l : List Nat) (h : ∀ b ∈ l, b = 0) : cstr l = [] := by
  cases l with
  | nil => rfl
  | cons x r =>
    have hx : x = 0 := h x (List.mem_cons_self x r)
    subst hx
    simp [cstr]

theorem cstr_of_entries (a : List Nat) (ha : ∀ b ∈ a, b ≠ 0) :
    ∀ l : List Nat, (∀ i, i < a.length → l[i]? = a[i]?) → l[a.length]? = some 0 →
      cstr l = a := by
  induction a with
  | nil =>
    intro l _ h0
    cases l with
    | nil => simp at h0
    | cons x r =>
      simp only [List.length_nil, List.getElem?_cons_zero, Option.some.injEq] at h0
      subst h0
      simp [cstr]
  | cons y r ih =>
    intro l h1 h0
    cases l with
    | nil => simp at h0
    | cons x t =>
      have hxy : x = y := by
        have := h1 0 (by simp)
        simpa using this
      subst hxy
      have hx : x ≠ 0 := ha x (List.mem_cons_self x r)
      have ht : cstr t = r := by
        apply ih (fun b hb => ha b (List.mem_cons_of_mem x hb))
        · intro i hi
          have := h1 (i + 1) (by simp; omega)
          simpa using this
        · simpa using h0
      simp only [cstr] at ht ⊢
      simp [List.takeWhile_cons, hx, ht]

/-- The buffer `uuid` after the native library stored the string `u`. -/
theorem uuid_buffer (u : List Nat) (uuid_size : Nat) (hu : ∀ b ∈ u, b ≠ 0)
    (hfit : u.length + 1 ≤ uuid_size - 1) :
    ∃ filled, store (uuid_size - 1) (u ++ [0]) = some filled ∧
      cstr (filled ++ [0]) = u ∧ cstr ((filled ++ [0]).drop 4) = u.drop 4 := by
  have hlen : (u ++ [0]).length ≤ uuid_size - 1 := by simp; omega
  refine ⟨u ++ [0] ++ List.replicate (uuid_size - 1 - (u ++ [0]).length) 0,
    by simp only [store, hlen, if_true], ?_, ?_⟩
  · have : u ++ [0] ++ List.replicate (uuid_size - 1 - (u ++ [0]).length) 0 ++ [0]
        = u ++ 0 :: (List.replicate (uuid_size - 1 - (u ++ [0]).length) 0 ++ [0]) := by simp
    rw [this, cstr_append_zero u _ hu]
  · have e : u ++ [0] ++ List.replicate (uuid_size - 1 - (u ++ [0]).length) 0 ++ [0]
        = u ++ 0 :: (List.replicate (uuid_size - 1 - (u ++ [0]).length) 0 ++ [0]) := by simp
    rw [e]
    by_cases h4 : 4 ≤ u.length
    · rw [List.drop_append_of_le_length h4]
      exact cstr_append_zero _ _ (fun b hb => hu b (List.mem_of_mem_drop hb))
    · have hd : u.drop 4 = [] := List.drop_eq_nil_of_le (by omega)
      rw [hd, List.drop_append_eq_append_drop, hd, List.nil_append]
      apply cstr_zeros
      intro b hb
      have h := List.mem_of_mem_drop hb
      simp only [List.mem_cons, List.mem_append, List.mem_replicate, List.mem_singleton,
        List.not_mem_nil, or_false] at h
      rcases h with h | ⟨_, h⟩ | h <;> exact h

/-- The string left in `sn` by lines 716-717 when the UUID string has `L >= 1`
bytes and `a` is what follows its first four bytes. -/
theorem serial_written (sn1 src a : List Nat) (L maxlen : Nat) (ha : ∀ b ∈ a, b ≠ 0)
    (hmax1 : 1 ≤ maxlen) (hroom : maxlen ≤ sn1.length) (hL : 1 ≤ L)
    (haL : a.length = L - 4) (hsrc : cstr src = a) :
    ∃ sn2, strncpy sn1 src (min L maxlen) = some sn2 ∧ sn2.length = sn1.length ∧
      cstr (sn2.set (maxlen - 1) 0) = a.take (maxlen - 1) := by
  have hn : min L maxlen ≤ sn1.length := by omega
  refine ⟨a.take (min L maxlen) ++ List.replicate (min L maxlen - a.length) 0 ++
      sn1.drop (min L maxlen), by simp only [strncpy, hn, if_true, hsrc], ?_, ?_⟩
  · simp only [List.length_append, List.length_take, List.length_replicate, List.length_drop]
    omega
  · have hlen2 : (a.take (min L maxlen) ++ List.replicate (min L maxlen - a.length) 0 ++
        sn1.drop (min L maxlen)).length = sn1.length := by
      simp only [List.length_append, List.length_take, List.length_replicate, List.length_drop]
      omega
    apply cstr_of_entries _ (fun b hb => ha b (List.mem_of_mem_take hb))
    · intro i hi
      rw [List.length_take] at hi
      have hne : maxlen - 1 ≠ i := by omega
      rw [List.getElem?_set_ne hne, List.append_assoc,
        List.getElem?_append_left (by rw [List.length_take]; omega),
        List.getElem?_take, List.getElem?_take, if_pos (by omega), if_pos (by omega)]
    · rw [List.length_take]
      by_cases hc : maxlen - 1 ≤ a.length
      · rw [Nat.min_eq_left hc, List.getElem?_set_self (by rw [hlen2]; omega)]
      · have hmin : min (maxlen - 1) a.length = a.length := by omega
        have hne : maxlen - 1 ≠ a.length := by omega
        rw [hmin, List.getElem?_set_ne hne,
          List.getElem?_append_left (by
            simp only [List.length_append, List.length_take, List.length_replicate]; omega),
          List.getElem?_append_right (by rw [List.length_take]; omega),
          List.getElem?_replicate, if_pos (by rw [List.length_take]; omega)]

theorem direct_serial_ret (N : Native) (caps : Caps) (n : Nat) (sn : List Nat) (maxlen : Nat)
    (w : World)
    (hfit : (N w.log (Call.nvmlDeviceGetSerial n maxlen)).data.length ≤ sn.length) :
    ∃ sn1 w1, direct_serial N caps n sn maxlen w =
        Run.ret ((caps.nvmlDeviceGetSerial &&
          decide ((N w.log (Call.nvmlDeviceGetSerial n maxlen)).rc = NVML_SUCCESS), sn1), w1) ∧
      sn1.length = sn.length ∧
      w1.log = (if caps.nvmlDeviceGetSerial = true then
        w.log ++ [Call.nvmlDeviceGetSerial n maxlen] else w.log) := by
  unfold direct_serial
  cases hc : caps.nvmlDeviceGetSerial with
  | false => exact ⟨sn, w, by simp, rfl, by simp⟩
  | true =>
    refine ⟨(N w.log (Call.nvmlDeviceGetSerial n maxlen)).data ++
      sn.drop (N w.log (Call.nvmlDeviceGetSerial n maxlen)).data.length,
      { w with log := w.log ++ [Call.nvmlDeviceGetSerial n maxlen] }, ?_, ?_, ?_⟩
    · simp [invoke, Run.bind, overwrite, hfit]
    · simp only [List.length_append, List.length_drop]; omega
    · simp

/-- C17, amended: in `nvml_get_serial`, for every mapped device and every
`maxlen >= 1` (within the caller's buffer): when the direct serial query is
present and succeeds the call returns `0` after that one native call; the
UUID-derived pseudo-serial is produced when the direct query is absent or
fails, and then, if the UUID query succeeds with a non-empty string `u`, the
call returns `0` and the serial written is `u` with its first 4 characters
dropped, truncated to at most `maxlen - 1` characters; if the UUID capability is
absent the call returns `-ENOSYS`. -/
theorem nvml_get_serial_fallback (N : Native) (cfg : Config) (uuid_size : Nat)
    (nvmlh : nvml_handle) (cudaindex n : Nat) (sn : List Nat) (maxlen : Nat) (w : World)
    (hmap : nvmlh.cuda_nvml_device_id[cudaindex]? = some (n : Int))
    (hn : (n : Int) < nvmlh.nvml_gpucount)
    (hmax1 : 1 ≤ maxlen) (hroom : maxlen ≤ sn.length)
    (hfit : (N w.log (Call.nvmlDeviceGetSerial n maxlen)).data.length ≤ sn.length) :
    (nvmlh.caps.nvmlDeviceGetSerial = true →
      (N w.log (Call.nvmlDeviceGetSerial n maxlen)).rc = NVML_SUCCESS →
      (returned (nvml_get_serial N cfg uuid_size nvmlh cudaindex sn maxlen w)).map
        (fun r => r.1) = some 0 ∧
      calls (nvml_get_serial N cfg uuid_size nvmlh cudaindex sn maxlen w)
        = some (w.log ++ [Call.nvmlDeviceGetSerial n maxlen])) ∧
    ((nvmlh.caps.nvmlDeviceGetSerial = false ∨
        (N w.log (Call.nvmlDeviceGetSerial n maxlen)).rc ≠ NVML_SUCCESS) →
      nvmlh.caps.nvmlDeviceGetUUID = false →
      (returned (nvml_get_serial N cfg uuid_size nvmlh cudaindex sn maxlen w)).map
        (fun r => r.1) = some (-ENOSYS)) ∧
    ((nvmlh.caps.nvmlDeviceGetSerial = false ∨
        (N w.log (Call.nvmlDeviceGetSerial n maxlen)).rc ≠ NVML_SUCCESS) →
      nvmlh.caps.nvmlDeviceGetUUID = true →
      ∀ u : List Nat, (∀ b ∈ u, b ≠ 0) → u ≠ [] → u.length + 1 ≤ uuid_size - 1 →
        (N (if nvmlh.caps.nvmlDeviceGetSerial = true then
              w.log ++ [Call.nvmlDeviceGetSerial n maxlen] else w.log)
          (Call.nvmlDeviceGetUUID n (uuid_size - 1))).rc = NVML_SUCCESS →
        (N (if nvmlh.caps.nvmlDeviceGetSerial = true then
              w.log ++ [Call.nvmlDeviceGetSerial n maxlen] else w.log)
          (Call.nvmlDeviceGetUUID n (uuid_size - 1))).data = u ++ [0] →
        (returned (nvml_get_serial N cfg uuid_size nvmlh cudaindex sn maxlen w)).map
          (fun r => (r.1, cstr r.2)) = some (0, (u.drop 4).take (maxlen - 1))) := by
  have hguard : ¬ ((n : Int) < 0 ∨ (n : Int) ≥ nvmlh.nvml_gpucount) := by omega
  obtain ⟨sn1, w1, hd, hlen1, hlog1⟩ := direct_serial_ret N nvmlh.caps n sn maxlen w hfit
  have hrun : nvml_get_serial N cfg uuid_size nvmlh cudaindex sn maxlen w =
      (Run.ret ((nvmlh.caps.nvmlDeviceGetSerial &&
          decide ((N w.log (Call.nvmlDeviceGetSerial n maxlen)).rc = NVML_SUCCESS), sn1),
        w1) : Run ((Bool × List Nat) × World)).bind fun d =>
      if d.1.1 then Run.ret ((0, d.1.2), d.2)
      else if !nvmlh.caps.nvmlDeviceGetUUID then Run.ret ((-ENOSYS, d.1.2), d.2)
      else
        (invoke nvmlh.caps.nvmlDeviceGetUUID N
            (Call.nvmlDeviceGetUUID n (uuid_size - 1)) d.2).bind fun q =>
        match store (uuid_size - 1) q.1.data with
        | none => Run.fault
        | some filled =>
          if q.1.rc ≠ NVML_SUCCESS then
            if cfg.opt_debug then
              (invoke nvmlh.caps.nvmlErrorString N (Call.nvmlErrorString q.1.rc) q.2).bind
                fun e => Run.ret ((-1, d.1.2), e.2)
            else Run.ret ((-1, d.1.2), q.2)
          else
            match strncpy d.1.2 ((filled ++ [0]).drop 4)
                (min (cstr (filled ++ [0])).length maxlen) with
            | none => Run.fault
            | some sn2 =>
              if 1 ≤ maxlen ∧ maxlen ≤ sn2.length then
                Run.ret ((0, sn2.set (maxlen - 1) 0), q.2)
              else Run.fault := by
    unfold nvml_get_serial
    rw [hmap]
    dsimp only
    rw [if_neg hguard, Int.toNat_ofNat, hd]
  rw [hrun]
  refine ⟨?_, ?_, ?_⟩
  · intro hc hrc
    have hlog : w1.log = w.log ++ [Call.nvmlDeviceGetSerial n maxlen] := by
      rw [hlog1, if_pos hc]
    simp [Run.bind, hc, hrc, returned, calls, final, hlog]
  · intro hdir hu
    have hflag : (nvmlh.caps.nvmlDeviceGetSerial &&
        decide ((N w.log (Call.nvmlDeviceGetSerial n maxlen)).rc = NVML_SUCCESS)) = false := by
      rcases hdir with h | h
      · simp [h]
      · simp [h]
    simp [Run.bind, hflag, hu, returned]
  · intro hdir hcu u hnz hne hsz hrc hdata
    have hflag : (nvmlh.caps.nvmlDeviceGetSerial &&
        decide ((N w.log (Call.nvmlDeviceGetSerial n maxlen)).rc = NVML_SUCCESS)) = false := by
      rcases hdir with h | h
      · simp [h]
      · simp [h]
    rw [← hlog1] at hrc hdata
    obtain ⟨filled, hst, hc1, hc2⟩ := uuid_buffer u uuid_size hnz hsz
    have hL : 1 ≤ u.length := by
      cases u with
      | nil => exact absurd rfl hne
      | cons a r => simp
    obtain ⟨sn2, hcp, hlen2, hres⟩ := serial_written sn1 ((filled ++ [0]).drop 4) (u.drop 4)
      u.length maxlen (fun b hb => hnz b (List.mem_of_mem_drop hb)) hmax1
      (by rw [hlen1]; exact hroom) hL (by simp) hc2
    have hok : 1 ≤ maxlen ∧ maxlen ≤ sn2.length := ⟨hmax1, by rw [hlen2, hlen1]; exact hroom⟩
    simp only [Run.bind, hflag, Bool.false_eq_true, if_false, hcu, Bool.not_true, invoke,
      if_true, hdata, hst, hrc, ne_eq, not_true_eq_false, hc1, hcp, hok, and_self, returned,
      Option.map_some', hres]

/-- Witness of the amended C17: the direct query fails, the UUID is `GPU-f2bd`,
and with `maxlen = 4` the serial written is `f2b` (102 50 98). -/
theorem nvml_get_serial_fallback_witness :
    (returned (nvml_get_serial (uuid_native [71, 80, 85, 45, 102, 50, 98, 100]) cfg_none 80
      handle_one 0 [0, 0, 0, 0, 0, 0, 0, 0] 4 world0)).map (fun r => (r.1, cstr r.2))
      = some (0, [102, 50, 98]) :=
  (nvml_get_serial_fallback (uuid_native [71, 80, 85, 45, 102, 50, 98, 100]) cfg_none 80
    handle_one 0 0 [0, 0, 0, 0, 0, 0, 0, 0] 4 world0 rfl (by decide) (by decide) (by decide)
    (by decide)).2.2 (Or.inr (by decide)) rfl [71, 80, 85, 45, 102, 50, 98, 100] (by decide)
    (by decide) (by decide) rfl rfl

/-- C18, as stated, fails: on `host_dup3` runtime index `0` matches management
indices `0` and `1`; `cuda_nvml_device_id[0]` is `1`, the last match, not `0`,
and the reverse entry is recorded for both: `nvml_cuda_device_id = [0, 0, -1]`. -/
theorem nvml_create_last_match_wins_example :
    (nvml_create host_dup3).map (fun h => (h.cuda_nvml_device_id, h.nvml_cuda_device_id))
      = some ([1], [0, 0, -1]) := by
  decide

/-- C18, amended: last match wins.  For every runtime index `i` (whose
properties query succeeds) matched by some management index `j`,
`cuda_nvml_device_id[i]` is a matching management index `jmax >= j`, that is the
largest one; and the reverse direction is recorded for every matching
management index `j`: `nvml_cuda_device_id[j]` is a matching runtime index
`imax >= i`, the largest one, so no matching management index is left unmapped. -/
theorem nvml_create_last_match_wins (host : Host) (h : nvml_handle)
    (cuda : List (Option cudaDeviceProp)) (hc : nvml_create host = some h)
    (hcu : host.cuda = some cuda) (i j : Nat) (p : nvmlPciInfo_t) (q : cudaDeviceProp)
    (hq : cuda[i]? = some (some q)) (hp : host.nvml[j]? = some p) (hs : same_address p q) :
    (∃ (jmax : Nat) (pmax : nvmlPciInfo_t), h.cuda_nvml_device_id[i]? = some (jmax : Int) ∧
      host.nvml[jmax]? = some pmax ∧ same_address pmax q ∧ j ≤ jmax) ∧
    (∃ (imax : Nat) (qmax : cudaDeviceProp), h.nvml_cuda_device_id[j]? = some (imax : Int) ∧
      cuda[imax]? = some (some qmax) ∧ same_address p qmax ∧ i ≤ imax) := by
  obtain ⟨cuda2, h1, _, _, _, _, _, hnc, hcn⟩ := nvml_create_some host h hc
  rw [hcu] at h1
  cases h1
  obtain ⟨_, _, b3, b4⟩ := build_maps_spec (host.nvml.map (fun p => p.domain))
    (host.nvml.map (fun p => p.bus)) (host.nvml.map (fun p => p.device)) host.nvml.length cuda
  rw [← hnc] at b3
  rw [← hcn] at b4
  have hi := getElem?_some_lt _ _ _ hq
  have hj := getElem?_some_lt _ _ _ hp
  have hm := (rt_match_iff host.nvml cuda i j p hp).mpr ⟨q, hq, hs⟩
  constructor
  · rcases last_or_cases (-1) (rt_match (host.nvml.map (fun p => p.domain))
      (host.nvml.map (fun p => p.bus)) (host.nvml.map (fun p => p.device)) cuda i)
      host.nvml.length with ⟨_, hno⟩ | ⟨jmax, hjm, hmm, e, hlast⟩
    · rw [hno j hj] at hm; exact absurd hm (by simp)
    · have hpm : host.nvml[jmax]? = some host.nvml[jmax] := List.getElem?_eq_getElem hjm
      obtain ⟨q2, hq2, hs2⟩ := (rt_match_iff host.nvml cuda i jmax _ hpm).mp hmm
      rw [hq] at hq2
      cases hq2
      refine ⟨jmax, _, by rw [b4 i hi, e], hpm, hs2, ?_⟩
      by_contra hlt
      have := hlast j (by omega) hj
      rw [this] at hm
      exact absurd hm (by simp)
  · rcases last_or_cases (-1) (fun i => rt_match (host.nvml.map (fun p => p.domain))
      (host.nvml.map (fun p => p.bus)) (host.nvml.map (fun p => p.device)) cuda i j)
      cuda.length with ⟨_, hno⟩ | ⟨imax, him, hmm, e, hlast⟩
    · rw [hno i hi] at hm; exact absurd hm (by simp)
    · obtain ⟨q2, hq2, hs2⟩ := (rt_match_iff host.nvml cuda imax j p hp).mp hmm
      refine ⟨imax, q2, by rw [b3 j hj, e], hq2, hs2, ?_⟩
      by_contra hlt
      have := hlast i (by omega) hi
      rw [this] at hm
      exact absurd hm (by simp)

/-- Witness of the amended C18 on `host_dup3`, for runtime index `0` and
management index `0`. -/
theorem nvml_create_last_match_wins_witness :
    nvml_create host_dup3 = some handle_dup3 ∧
    (∃ (jmax : Nat) (pmax : nvmlPciInfo_t), handle_dup3.cuda_nvml_device_id[0]? = some (jmax : Int) ∧
      host_dup3.nvml[jmax]? = some pmax ∧ same_address pmax ⟨0, 1, 0⟩ ∧ 0 ≤ jmax) :=
  ⟨by decide,
    (nvml_create_last_match_wins host_dup3 handle_dup3 [some ⟨0, 1, 0⟩] (by decide) rfl 0 0
      ⟨0, 1, 0, 0⟩ ⟨0, 1, 0⟩ rfl rfl ⟨rfl, rfl, rfl⟩).1⟩

/-- What a successful `nvml_set_plimit` stores, and the set-limit call it logs. -/
theorem nvml_set_plimit_ret_one (N : Native) (cfg : Config) (nvmlh : nvml_handle)
    (dev_id : Nat) (w w2 : World)
    (h : nvml_set_plimit N cfg nvmlh dev_id w = Run.ret (1, w2)) :
    ∃ (n : Nat) (log1 : List Call) (x : Nat),
      w2.limit_prev dev_id = (N log1 (Call.nvmlDeviceGetPowerManagementLimit n)).out.getD 0 ∧
      (log1 = w.log ∨
        log1 = w.log ++ [Call.nvmlDeviceGetPowerManagementLimitConstraints n]) ∧
      w2.log = log1 ++ [Call.nvmlDeviceGetPowerManagementLimit n] ++
        [Call.nvmlDeviceSetPowerManagementLimit n x] := by
  unfold nvml_set_plimit at h
  cases hm : nvmlh.cuda_nvml_device_id[dev_id]? with
  | none => rw [hm] at h; exact absurd h (by simp)
  | some z =>
    rw [hm] at h
    dsimp only at h
    by_cases hg : z < 0 ∨ z ≥ nvmlh.nvml_gpucount
    · rw [if_pos hg] at h
      have : -ENODEV = (1 : Int) := congrArg Prod.fst (Run.ret.inj h)
      exact absurd this (by decide)
    · rw [if_neg hg] at h
      by_cases hz : cfg.device_plimit dev_id = 0
      · rw [if_pos hz] at h
        have : (0 : Int) = 1 := congrArg Prod.fst (Run.ret.inj h)
        exact absurd this (by decide)
      · rw [if_neg hz] at h
        by_cases hs : (!nvmlh.caps.nvmlDeviceSetPowerManagementLimit) = true
        · rw [if_pos hs] at h
          have : -ENOSYS = (1 : Int) := congrArg Prod.fst (Run.ret.inj h)
          exact absurd this (by decide)
        · rw [if_neg hs] at h
          obtain ⟨c, hc, h⟩ := (bind_eq_ret _ _ _).mp h
          have hclog : c.2.log = w.log ∨
              c.2.log = w.log ++ [Call.nvmlDeviceGetPowerManagementLimitConstraints z.toNat] := by
            by_cases hp : nvmlh.caps.nvmlDeviceGetPowerManagementLimitConstraints = true
            · rw [if_pos hp] at hc
              obtain ⟨p, hp1, hc⟩ := (bind_eq_ret _ _ _).mp hc
              obtain ⟨_, rfl⟩ := (invoke_eq_ret _ _ _ _ _).mp hp1
              have := Run.ret.inj hc
              rw [← this]
              right; rfl
            · rw [if_neg hp] at hc
              have := Run.ret.inj hc
              rw [← this]
              left; rfl
          by_cases hq : c.1.1 ≠ NVML_SUCCESS ∧
              (!nvmlh.caps.nvmlDeviceGetPowerManagementLimit) = true
          · rw [if_pos hq] at h
            have : -ENOSYS = (1 : Int) := congrArg Prod.fst (Run.ret.inj h)
            exact absurd this (by decide)
          · rw [if_neg hq] at h
            obtain ⟨l, hl, h⟩ := (bind_eq_ret _ _ _).mp h
            obtain ⟨s, hs1, h⟩ := (bind_eq_ret _ _ _).mp h
            by_cases hrc : s.1.rc ≠ NVML_SUCCESS
            · rw [if_pos hrc] at h
              obtain ⟨e, _, h⟩ := (bind_eq_ret _ _ _).mp h
              have : (-1 : Int) = 1 := congrArg Prod.fst (Run.ret.inj h)
              exact absurd this (by decide)
            · rw [if_neg hrc] at h
              have hw := congrArg Prod.snd (Run.ret.inj h)
              dsimp only at hw
              obtain ⟨_, el⟩ := (invoke_eq_ret _ _ _ _ _).mp hl
              obtain ⟨_, es⟩ := (invoke_eq_ret _ _ _ _ _).mp hs1
              refine ⟨z.toNat, c.2.log, max (min (cfg.device_plimit dev_id * 1000 % 4294967296)
                (if c.1.2.2 = 0 then l.1.out.getD 0 else c.1.2.2)) c.1.2.1, ?_, hclog, ?_⟩
              · rw [← hw]
                simp only [upd_same]
                rw [el]
              · rw [← hw]
                dsimp only
                rw [es]
                dsimp only
                rw [el]

/-- C19: the code breaks the claim.  The limit in force is 200000 before the
first call, which applies 150000 and saves 200000; the second call reads 150000
as the limit in force and saves it without testing whether a limit is already
saved, so after two successful calls `limit_prev` holds 150000, not 200000, and
the following `nvml_reset_clocks` applies 150000: the original limit is lost. -/
theorem nvml_set_plimit_second_call_overwrites :
    returned (set_plimit_twice (limit_native 100000 250000 200000 150000) (cfg_plimit 150)
      handle_one 0 world0) = some (1, 1) ∧
    (final (set_plimit_twice (limit_native 100000 250000 200000 150000) (cfg_plimit 150)
      handle_one 0 world0)).map (fun w => w.limit_prev 0) = some 150000 ∧
    (limit_native 100000 250000 200000 150000
      [Call.nvmlDeviceGetPowerManagementLimitConstraints 0]
      (Call.nvmlDeviceGetPowerManagementLimit 0)).out = some 200000 ∧
    (final (nvml_set_plimit (limit_native 100000 250000 200000 150000) (cfg_plimit 150)
      handle_one 0 world0)).map (fun w => w.limit_prev 0) = some 200000 ∧
    returned (set_plimit_twice_then_reset (limit_native 100000 250000 200000 150000)
      (cfg_plimit 150) handle_one 0 world0) = some (1, 1, 1) ∧
    (calls (set_plimit_twice_then_reset (limit_native 100000 250000 200000 150000)
      (cfg_plimit 150) handle_one 0 world0)).map set_limit_args
      = some [150000, 150000, 150000] := by
  refine ⟨by decide, by decide, by decide, by decide, by decide, by decide⟩

/-- The unguarded store of line 533 shows for every native library: if
`nvml_set_plimit` succeeds twice in a row with no reset in between, then after
the second call `limit_prev[dev]` is the limit that the native library reported
in force once a limit had been set, that is the limit read by the second
call. -/
theorem nvml_set_plimit_saves_latest (N : Native) (cfg : Config) (nvmlh : nvml_handle)
    (dev_id cur : Nat) (w0 : World)
    (hcur : ∀ (log : List Call) (n : Nat), log.any is_set_limit = true →
      (N log (Call.nvmlDeviceGetPowerManagementLimit n)).out = some cur)
    (hret : returned (set_plimit_twice N cfg nvmlh dev_id w0) = some (1, 1)) :
    (final (set_plimit_twice N cfg nvmlh dev_id w0)).map (fun w => w.limit_prev dev_id)
      = some cur := by
  obtain ⟨w2, hw⟩ := returned_eq_some _ _ hret
  rw [hw]
  unfold set_plimit_twice at hw
  obtain ⟨a, ha, hw⟩ := (bind_eq_ret _ _ _).mp hw
  obtain ⟨b, hb, hw⟩ := (bind_eq_ret _ _ _).mp hw
  obtain ⟨r1, w1⟩ := a
  obtain ⟨r2, w2b⟩ := b
  have e := Run.ret.inj hw
  simp only [Prod.mk.injEq] at e
  obtain ⟨⟨e1, e2⟩, e3⟩ := e
  subst e1 e2 e3
  obtain ⟨n1, l1, x1, _, _, hlog1⟩ := nvml_set_plimit_ret_one N cfg nvmlh dev_id w0 w1 ha
  obtain ⟨n2, l2, x2, hsave, hl2, _⟩ := nvml_set_plimit_ret_one N cfg nvmlh dev_id w1 w2b hb
  have hany1 : w1.log.any is_set_limit = true := by
    rw [hlog1]
    simp [is_set_limit]
  have hany2 : l2.any is_set_limit = true := by
    rcases hl2 with h | h
    · rw [h]; exact hany1
    · rw [h, List.any_append, hany1]; rfl
  rw [hcur l2 n2 hany2] at hsave
  simp [final, hsave]

/-- Two calls with 200000 in force at first and 150000 once a limit has been
set: after two successful calls `limit_prev` holds 150000. -/
theorem nvml_set_plimit_saves_latest_witness :
    returned (set_plimit_twice (limit_native 100000 250000 200000 150000) (cfg_plimit 150)
      handle_one 0 world0) = some (1, 1) ∧
    (final (set_plimit_twice (limit_native 100000 250000 200000 150000) (cfg_plimit 150)
      handle_one 0 world0)).map (fun w => w.limit_prev 0) = some 150000 :=
  ⟨by decide,
    nvml_set_plimit_saves_latest (limit_native 100000 250000 200000 150000) (cfg_plimit 150)
      handle_one 0 150000 world0
      (fun log n h => by simp [limit_native, h]) (by decide)⟩

/-- C20: the code breaks the claim.  With the seven required capabilities and
every optional one except `nvmlDeviceGetPowerManagementLimit`, on the handle
built by `nvml_create`, `nvml_set_plimit` calls through the null
`nvmlDeviceGetPowerManagementLimit` pointer once the constraints query has
succeeded; and with every capability except `nvmlDeviceGetApplicationsClock`,
`nvml_set_clocks` calls through that null pointer.  With the full table both
calls return `1`. -/
theorem optional_capability_called_unchecked :
    required_caps host_no_get_limit.caps = true ∧
    nvml_create host_no_get_limit = some handle_no_get_limit ∧
    faulted (nvml_set_plimit (limits_native 100000 250000 200000) (cfg_plimit 150)
      handle_no_get_limit 0 world0) = true ∧
    returned (nvml_set_plimit (limits_native 100000 250000 200000) (cfg_plimit 150)
      handle_one 0 world0) = some 1 ∧
    required_caps host_no_app_clock.caps = true ∧
    nvml_create host_no_app_clock = some handle_no_app_clock ∧
    faulted (nvml_set_clocks (clock_native (some 3000) (some 1500) (some 1500)) (cfg_gpu 1100)
      handle_no_app_clock 300 0 world0) = true ∧
    returned (nvml_set_clocks (clock_native (some 3000) (some 1500) (some 1500)) (cfg_gpu 1100)
      handle_one 300 0 world0) = some 1 := by
  refine ⟨by decide, by decide, by decide, by decide, by decide, by decide, by decide,
    by decide⟩

theorem scan_clocks_spins (clocks : List Nat) (nclocks clk : Nat) (h256 : 256 ≤ nclocks)
    (hgt : ∀ u, u < 256 → ∃ c, clocks[u]? = some c ∧ clk < c) :
    ∀ fuel u, u < 256 → scan_clocks clocks nclocks clk fuel u = Run.spin := by
  intro fuel
  induction fuel with
  | zero => intro u _; rfl
  | succ fuel ih =>
    intro u hu
    obtain ⟨c, hc, hlt⟩ := hgt u hu
    unfold scan_clocks
    rw [if_pos (by omega), hc]
    dsimp only
    rw [if_neg (by omega)]
    exact ih _ (Nat.mod_lt _ (by decide))

theorem replicate_append_getElem? (k v u : Nat) (rest : List Nat) (hu : u < k) :
    (List.replicate k v ++ rest)[u]? = some v := by
  rw [List.getElem?_append_left (by rw [List.length_replicate]; exact hu),
    List.getElem?_replicate, if_pos hu]

theorem store_fits (cap : Nat) (data : List Nat) (h : data.length ≤ cap) :
    store cap data = some (data ++ List.replicate (cap - data.length) 0) := by
  simp only [store, h, if_true]

theorem select_gpu_clk_spins (N : Native) (caps : Caps) (n mem_clk gpu_clk : Nat) (w : World)
    (G : List Nat) (hcap : caps.nvmlDeviceGetSupportedGraphicsClocks = true)
    (hcount : (N w.log (Call.nvmlDeviceGetSupportedGraphicsClocks n mem_clk 0 false)).out
      = some G.length)
    (hfill : (N (w.log ++ [Call.nvmlDeviceGetSupportedGraphicsClocks n mem_clk 0 false])
      (Call.nvmlDeviceGetSupportedGraphicsClocks n mem_clk G.length true)).data = G)
    (hkeep : ((N (w.log ++ [Call.nvmlDeviceGetSupportedGraphicsClocks n mem_clk 0 false])
      (Call.nvmlDeviceGetSupportedGraphicsClocks n mem_clk G.length true)).out).getD G.length
        = G.length)
    (h256 : 256 ≤ G.length)
    (hgt : ∀ u, u < 256 → ∃ c, G[u]? = some c ∧ gpu_clk < c) :
    ∀ fuel, select_gpu_clk N caps fuel n mem_clk gpu_clk w = Run.spin := by
  intro fuel
  have h0 : G.length ≠ 0 := by omega
  have hs := scan_clocks_spins (G ++ List.replicate (G.length + 1 - G.length) 0) G.length gpu_clk
    h256 (fun u hu => by
      obtain ⟨c, hc, hlt⟩ := hgt u hu
      exact ⟨c, by rw [List.getElem?_append_left (by omega)]; exact hc, hlt⟩)
    fuel 0 (by decide)
  unfold select_gpu_clk
  simp only [invoke, hcap, if_true, Run.bind, hcount, Option.getD_some, ne_eq, h0,
    not_false_eq_true, hfill, store_fits (G.length + 1) G (Nat.le_succ _), hkeep, hs]

theorem select_gpu_clk_ends (N : Native) (caps : Caps) (fuel n mem_clk gpu_clk : Nat) (w : World)
    (G : List Nat) (hcap : caps.nvmlDeviceGetSupportedGraphicsClocks = true)
    (hcount : (N w.log (Call.nvmlDeviceGetSupportedGraphicsClocks n mem_clk 0 false)).out
      = some G.length)
    (hfill : (N (w.log ++ [Call.nvmlDeviceGetSupportedGraphicsClocks n mem_clk 0 false])
      (Call.nvmlDeviceGetSupportedGraphicsClocks n mem_clk G.length true)).data = G)
    (hkeep : ((N (w.log ++ [Call.nvmlDeviceGetSupportedGraphicsClocks n mem_clk 0 false])
      (Call.nvmlDeviceGetSupportedGraphicsClocks n mem_clk G.length true)).out).getD G.length
        = G.length)
    (h255 : G.length ≤ 255) (hfuel : G.length < fuel) :
    returned (select_gpu_clk N caps fuel n mem_clk gpu_clk w)
      = some (first_le_or_target G gpu_clk) := by
  unfold select_gpu_clk
  by_cases h0 : G.length = 0
  · have hnil : G = [] := List.length_eq_zero.mp h0
    subst hnil
    simp [invoke, hcap, Run.bind, hcount, returned, first_le_or_target]
  · have hs := scan_clocks_eq (G ++ List.replicate (G.length + 1 - G.length) 0) G.length gpu_clk
      (by simp) h255 fuel 0 (Nat.zero_le _) (by omega)
    rw [List.drop_zero, List.take_left' rfl] at hs
    simp only [invoke, hcap, if_true, Run.bind, hcount, Option.getD_some, ne_eq, h0,
      not_false_eq_true, hfill, store_fits (G.length + 1) G (Nat.le_succ _), hkeep, hs,
      returned]

theorem flat_table_length (k : Nat) (tail : List Nat) :
    (flat_table k tail).length = k + tail.length := by
  simp [flat_table]

theorem flat_table_getElem? (k u : Nat) (tail : List Nat) (hu : u < k) :
    (flat_table k tail)[u]? = some 1000 :=
  replicate_append_getElem? k 1000 u tail hu

theorem tables_native_graphics (T G : List Nat) (log : List Call) (n mem : Nat) :
    (tables_native T G log (Call.nvmlDeviceGetSupportedGraphicsClocks n mem 0 false)).out
      = some G.length ∧
    (tables_native T G (log ++ [Call.nvmlDeviceGetSupportedGraphicsClocks n mem 0 false])
      (Call.nvmlDeviceGetSupportedGraphicsClocks n mem G.length true)).data = G ∧
    ((tables_native T G (log ++ [Call.nvmlDeviceGetSupportedGraphicsClocks n mem 0 false])
      (Call.nvmlDeviceGetSupportedGraphicsClocks n mem G.length true)).out).getD G.length
        = G.length :=
  ⟨rfl, List.take_length G, rfl⟩

/-- C21: the code breaks the claim.  For a graphics-clock table of 256 entries
of 1000 MHz and a target of 500 MHz the `uint8_t` counter wraps from 255 to 0
and the scan of lines 360-366 never ends: the run spins for every amount of
fuel.  The same holds when a 257th entry, 400 MHz, is the first entry `<=` the
target: it is never reached.  With 255 entries the scan ends and returns the
target. -/
theorem select_gpu_clk_never_ends :
    (∀ fuel, select_gpu_clk (tables_native [] (flat_table 256 [])) caps_all fuel 0 3505
      500 world0 = Run.spin) ∧
    (∀ fuel, select_gpu_clk (tables_native [] (flat_table 256 [400])) caps_all fuel
      0 3505 500 world0 = Run.spin) ∧
    first_le_or_target (flat_table 256 [400]) 500 = 400 ∧
    returned (select_gpu_clk (tables_native [] (flat_table 255 [])) caps_all 300 0 3505
      500 world0) = some 500 := by
  refine ⟨?_, ?_, ?_, ?_⟩
  · obtain ⟨h1, h2, h3⟩ := tables_native_graphics [] (flat_table 256 []) world0.log 0 3505
    exact select_gpu_clk_spins _ caps_all 0 3505 500 world0 (flat_table 256 []) rfl h1 h2 h3
      (by rw [flat_table_length]; exact Nat.le_refl _)
      (fun u hu => ⟨1000, flat_table_getElem? 256 u [] hu, by decide⟩)
  · obtain ⟨h1, h2, h3⟩ := tables_native_graphics [] (flat_table 256 [400]) world0.log 0 3505
    exact select_gpu_clk_spins _ caps_all 0 3505 500 world0 (flat_table 256 [400]) rfl h1 h2 h3
      (by rw [flat_table_length]; exact Nat.le_succ _)
      (fun u hu => ⟨1000, flat_table_getElem? 256 u [400] hu, by decide⟩)
  · exact first_le_split (List.replicate 256 1000) [] 400 500
      (fun e he => by rw [List.eq_of_mem_replicate he]; decide) (by decide)
  · obtain ⟨h1, h2, h3⟩ := tables_native_graphics [] (flat_table 255 []) world0.log 0 3505
    rw [select_gpu_clk_ends _ caps_all 300 0 3505 500 world0 (flat_table 255 []) rfl h1 h2 h3
      (by rw [flat_table_length]; exact Nat.le_refl _)
      (by rw [flat_table_length]; decide)]
    rw [first_le_none]
    intro e he
    unfold flat_table at he
    rw [List.append_nil] at he
    rw [List.eq_of_mem_replicate he]
    decide

/-- C22: the code breaks the claim.  On the handle that `nvml_create` builds for
`host_unmatched` the management device `0` (bus id 1) is unmapped, so
`gpu_vendor` with bus id 1 passes `nvml_cuda_device_id[0] = -1` to
`nvml_get_info`, which reads `cuda_nvml_device_id[-1]`, outside the table.  On
`handle_one`, where the device is mapped, the index passed is `0` and the call
returns. -/
theorem gpu_vendor_reads_outside_table :
    nvml_create host_unmatched = some handle_unmapped ∧
    gpu_vendor_args handle_unmapped 1 = [-1] ∧
    read_at handle_unmapped.cuda_nvml_device_id (-1) = none ∧
    faulted (nvml_get_info handle_unmapped (-1) 0 0) = true ∧
    faulted (gpu_vendor (some handle_unmapped) 1 (some "")) = true ∧
    gpu_vendor_args handle_one 1 = [0] ∧
    faulted (gpu_vendor (some handle_one) 1 (some "")) = false := by
  refine ⟨by decide, by decide, by decide, by decide, by decide, by decide, by decide⟩

theorem tables_inverse_of_distinct (host : Host) (h : nvml_handle)
    (cuda : List (Option cudaDeviceProp)) (hc : nvml_create host = some h)
    (hcu : host.cuda = some cuda) :
    (mgmt_distinct host.nvml → inverse_on h.nvml_cuda_device_id h.cuda_nvml_device_id) ∧
    (runtime_distinct cuda → inverse_on h.cuda_nvml_device_id h.nvml_cuda_device_id) := by
  obtain ⟨cuda2, h1, _, _, _, _, _, hnc, hcn⟩ := nvml_create_some host h hc
  rw [hcu] at h1
  cases h1
  obtain ⟨b1, b2, b3, b4⟩ := build_maps_spec (host.nvml.map (fun p => p.domain))
    (host.nvml.map (fun p => p.bus)) (host.nvml.map (fun p => p.device)) host.nvml.length cuda
  rw [← hnc] at b1 b3
  rw [← hcn] at b2 b4
  constructor
  · intro hd j v hj hv
    have hjn : j < host.nvml.length := b1 ▸ getElem?_some_lt _ _ _ hj
    rw [b3 j hjn] at hj
    rcases last_or_cases (-1) (fun i => rt_match (host.nvml.map (fun p => p.domain))
      (host.nvml.map (fun p => p.bus)) (host.nvml.map (fun p => p.device)) cuda i j)
      cuda.length with ⟨e, _⟩ | ⟨i, hi, hm, e, _⟩
    · rw [e] at hj; exact absurd (Option.some.inj hj).symm hv
    · rw [e] at hj
      have hv2 : v = (i : Int) := (Option.some.inj hj).symm
      subst hv2
      refine ⟨by omega, ?_⟩
      rw [Int.toNat_ofNat, b4 i hi]
      rcases last_or_cases (-1) (rt_match (host.nvml.map (fun p => p.domain))
        (host.nvml.map (fun p => p.bus)) (host.nvml.map (fun p => p.device)) cuda i)
        host.nvml.length with ⟨_, hno⟩ | ⟨j2, hj2, hm2, e2, _⟩
      · rw [hno j hjn] at hm; exact absurd hm (by simp)
      · rw [e2]
        have hp : host.nvml[j]? = some host.nvml[j] := List.getElem?_eq_getElem hjn
        have hp2 : host.nvml[j2]? = some host.nvml[j2] := List.getElem?_eq_getElem hj2
        obtain ⟨q, hq, s1, s2, s3⟩ := (rt_match_iff host.nvml cuda i j _ hp).mp hm
        obtain ⟨q2, hq2, t1, t2, t3⟩ := (rt_match_iff host.nvml cuda i j2 _ hp2).mp hm2
        rw [hq] at hq2
        cases hq2
        have := hd j2 j _ _ hp2 hp (t1.trans s1.symm) (t2.trans s2.symm) (t3.trans s3.symm)
        rw [this]
  · intro hd i v hi hv
    have hic : i < cuda.length := b2 ▸ getElem?_some_lt _ _ _ hi
    rw [b4 i hic] at hi
    rcases last_or_cases (-1) (rt_match (host.nvml.map (fun p => p.domain))
      (host.nvml.map (fun p => p.bus)) (host.nvml.map (fun p => p.device)) cuda i)
      host.nvml.length with ⟨e, _⟩ | ⟨j, hj, hm, e, _⟩
    · rw [e] at hi; exact absurd (Option.some.inj hi).symm hv
    · rw [e] at hi
      have hv2 : v = (j : Int) := (Option.some.inj hi).symm
      subst hv2
      refine ⟨by omega, ?_⟩
      rw [Int.toNat_ofNat, b3 j hj]
      rcases last_or_cases (-1) (fun i => rt_match (host.nvml.map (fun p => p.domain))
        (host.nvml.map (fun p => p.bus)) (host.nvml.map (fun p => p.device)) cuda i j)
        cuda.length with ⟨_, hno⟩ | ⟨i2, hi2, hm2, e2, _⟩
      · rw [hno i hic] at hm; exact absurd hm (by simp)
      · rw [e2]
        have hp : host.nvml[j]? = some host.nvml[j] := List.getElem?_eq_getElem hj
        obtain ⟨q, hq, s1, s2, s3⟩ := (rt_match_iff host.nvml cuda i j _ hp).mp hm
        obtain ⟨q2, hq2, t1, t2, t3⟩ := (rt_match_iff host.nvml cuda i2 j _ hp).mp hm2
        have := hd i2 i _ _ hq2 hq (t1.symm.trans s1) (t2.symm.trans s2) (t3.symm.trans s3)
        rw [this]

/-- C23: if the (domain, bus, device) triples are pairwise distinct among the
management devices and pairwise distinct among the runtime devices (those whose
properties query succeeds), then the tables built by `nvml_create` form a
partial bijection: they are mutually inverse on mapped indices, no two runtime
indices map to the same management index, and no two management indices map to
the same runtime index. -/
theorem nvml_create_partial_bijection (host : Host) (h : nvml_handle)
    (cuda : List (Option cudaDeviceProp)) (hc : nvml_create host = some h)
    (hcu : host.cuda = some cuda) (hm : mgmt_distinct host.nvml)
    (hr : runtime_distinct cuda) :
    mutually_inverse h.nvml_cuda_device_id h.cuda_nvml_device_id ∧
    (∀ (i1 i2 : Nat) (v : Int), h.cuda_nvml_device_id[i1]? = some v →
      h.cuda_nvml_device_id[i2]? = some v → v ≠ -1 → i1 = i2) ∧
    (∀ (j1 j2 : Nat) (v : Int), h.nvml_cuda_device_id[j1]? = some v →
      h.nvml_cuda_device_id[j2]? = some v → v ≠ -1 → j1 = j2) := by
  obtain ⟨t1, t2⟩ := tables_inverse_of_distinct host h cuda hc hcu
  have a := t1 hm
  have b := t2 hr
  refine ⟨⟨a, b⟩, ?_, ?_⟩
  · intro i1 i2 v h1 h2 hv
    have e1 := (b i1 v h1 hv).2
    have e2 := (b i2 v h2 hv).2
    rw [e1] at e2
    have := Option.some.inj e2
    omega
  · intro j1 j2 v h1 h2 hv
    have e1 := (a j1 v h1 hv).2
    have e2 := (a j2 v h2 hv).2
    rw [e1] at e2
    have := Option.some.inj e2
    omega

/-- Witness of C23 on `host_one`, whose bus addresses are distinct. -/
theorem nvml_create_partial_bijection_witness :
    nvml_create host_one = some handle_one ∧
    mgmt_distinct host_one.nvml ∧ runtime_distinct [some ⟨0, 1, 0⟩, none] ∧
    mutually_inverse handle_one.nvml_cuda_device_id handle_one.cuda_nvml_device_id :=
  ⟨by decide, mgmt_distinct_one, runtime_distinct_one,
    (nvml_create_partial_bijection host_one handle_one [some ⟨0, 1, 0⟩, none] (by decide) rfl
      mgmt_distinct_one runtime_distinct_one).1⟩

end Nvml
